import Mathlib

/-!
The batching renderer core and the texture pass bindings of d3d12drv.

A shallow embedding of `src/d3d12drv/d3d.cpp` (class `D3D`), of the texture conversion of
`src/d3d12drv/texconversion.cpp` and of the frame and draw functions of
`src/d3d12drv/d3d12drv.cpp` (`Lock`, `Unlock`, `PrecacheTexture`, `DrawComplexSurface`,
`DrawGouraudPolygon`, `DrawTile`).
The module-level statics of the source (buffer cursors, function-local `static` caches, the
texture pass table, the texture cache) are the fields of one explicit state record,
`D3DState`; each `D3D::` function is a function on that record.  Calls into the graphics API
are appended, in program order, to the `trace` field.

Conventions.
* The cursors are C `unsigned int`; they are kept as `Nat`.  They count entries of buffers of
  `I_BUFFER_SIZE` elements, far below the word size, so increments are not reduced; the one
  place where a signed quantity enters (`newIndices`, an `int`) goes through `addSigned`,
  which wraps a negative sum the way the conversion to `unsigned int` does.
* `mappedVBuffer.pData` and `mappedIBuffer.pData` are assigned only in `D3D::map` (both set)
  and `D3D::render` (both cleared); the flag `mapped` stands for the pair.  `Map` is taken
  to succeed.
* Stores through the mapped pointers are recorded in `iBuf`; the code has no bounds or null
  checks there and neither has the embedding.
* The outcome of resource creation (`CreateTexture2D`, `CreateShaderResourceView`) is decided
  by the device; it is an argument (`TexEnv`, `Option Nat`) of the functions that create.
* Pixel data are lists of words; a converted mip records the size its buffer was allocated
  with next to the words stored.
* The draw functions count the vertices they fetch with `getVertex`; what they write to a
  vertex is not modelled.  Outcomes of float comparisons in `d3d12drv.cpp` are arguments.
* `findAALevel` stands by itself: it takes `options.samples` and the answers of
  `CheckFeatureSupport` and gives back the return value and the new `options.samples`.
-/

namespace D3D12Drv

/-! ## Values -/

/-- A C `float` as far as the renderer inspects it.  The renderer only stores floats, hands
them to the graphics API and compares them (`!=`, `>0`); no float arithmetic is modelled.
A value is not-a-number or a number; the numbers, a finite ordered set, are named by
integers in their order, with `0.0` and `-0.0` at `0`. -/
inductive FloatVal where
  | nan : FloatVal
  | num (q : Int) : FloatVal
  deriving DecidableEq, Repr

/-- The C comparison `a != b` on floats: true as soon as one side is not-a-number. -/
def FloatVal.ne : FloatVal → FloatVal → Bool
  | .num a, .num b => a != b
  | _, _ => true

/-- The C comparison `a > 0` on a float: false for not-a-number. -/
def FloatVal.gtZero : FloatVal → Bool
  | .num a => decide (0 < a)
  | .nan => false

/-- `D3D::Vec4`. -/
structure Vec4 where
  x : FloatVal
  y : FloatVal
  z : FloatVal
  w : FloatVal
  deriving DecidableEq, Repr

/-- `D3D::TexturePass` without the `DUMMY_NUM_PASSES` sentinel. -/
inductive TexturePass where
  | PASS_DIFFUSE | PASS_LIGHT | PASS_DETAIL | PASS_FOG | PASS_MACRO
  deriving DecidableEq, Repr

/-- The passes in the order of the loops `for(i=0;i<D3D::DUMMY_NUM_PASSES;i++)`. -/
def TexturePass.all : List TexturePass :=
  [.PASS_DIFFUSE, .PASS_LIGHT, .PASS_DETAIL, .PASS_FOG, .PASS_MACRO]

/-- `D3D::ProjectionMode`. -/
inductive ProjectionMode where
  | PROJ_NORMAL | PROJ_Z_ONLY | PROJ_COMPENSATE_Z_NEAR
  deriving DecidableEq, Repr

/-- `D3D::TextureMetaData`. -/
structure TextureMetaData where
  multU : FloatVal
  multV : FloatVal
  masked : Bool
  deriving DecidableEq, Repr

/-- `D3D::CachedTexture`; `resourceView` is the handle of the shader resource view,
`0` for `NULL`. -/
structure CachedTexture where
  metadata : TextureMetaData
  resourceView : Nat
  deriving DecidableEq, Repr

/-- One node of the `hash_map` `textureCache`: the stored value and the address of the node.
Pointers into the cache (`&tex->metadata`) are node addresses. -/
structure CacheNode where
  addr : Nat
  value : CachedTexture
  deriving DecidableEq, Repr

/-- The blend state objects of the struct `states`. -/
inductive BlendState where
  | bstate_Alpha | bstate_Translucent | bstate_Modulate | bstate_NoBlend | bstate_Masked
  | bstate_Invis
  deriving DecidableEq, Repr

/-- The two dynamic buffers. -/
inductive Buffer where
  | vertexBuffer | indexBuffer
  deriving DecidableEq, Repr

/-- The values of `DXGI_FORMAT` that the format table of `texconversion.cpp` uses. -/
inductive DxgiFormat where
  | R8G8B8A8_UNORM | BC1_UNORM | UNKNOWN
  deriving DecidableEq, Repr

/-- The fields of `D3D11_TEXTURE2D_DESC` that `convertAndCache` computes; `dynamic` stands
for `Usage`, `true` for `D3D11_USAGE_DEFAULT` and `false` for `D3D11_USAGE_IMMUTABLE`. -/
structure Texture2DDesc where
  Width : Nat
  Height : Nat
  MipLevels : Nat
  Format : DxgiFormat
  dynamic : Bool
  deriving DecidableEq, Repr

/-- Calls into the graphics API and the log, as they appear in `d3d.cpp`. -/
inductive GpuCall where
  /-- `deviceContext->Map(buffer,0,m,0,..)`; `discard` is `m == D3D11_MAP_WRITE_DISCARD`. -/
  | Map (b : Buffer) (discard : Bool)
  /-- `deviceContext->Unmap(buffer,0)`. -/
  | Unmap (b : Buffer)
  /-- The five input-assembler and output-merger calls of `switchToPass`, `case 0`. -/
  | BindGeometryPass
  /-- `pass->Apply(0,deviceContext)` for the pass of the given index. -/
  | Apply (index : Int)
  /-- `deviceContext->DrawIndexed(IndexCount,StartIndexLocation,BaseVertexLocation)`. -/
  | DrawIndexed (indexCount : Nat) (startIndexLocation : Nat) (baseVertexLocation : Int)
  /-- `deviceContext->ClearDepthStencilView(..)`. -/
  | ClearDepthStencilView
  /-- `deviceContext->ClearRenderTargetView(..)`. -/
  | ClearRenderTargetView (color : Vec4)
  /-- `deviceContext->RSSetViewports(1,&vp)`. -/
  | RSSetViewports (width height topLeftX topLeftY : Int)
  /-- `shaderVars.viewportHeight->SetFloat`. -/
  | SetViewportHeight (y : Int)
  /-- `shaderVars.viewportWidth->SetFloat`. -/
  | SetViewportWidth (x : Int)
  /-- `shaderVars.projection->SetMatrix` of the matrix built from the two parameters. -/
  | SetProjectionMatrix (aspect XoverZ : FloatVal)
  /-- `shaderVars.projectionMode->SetInt`. -/
  | SetProjectionMode (mode : ProjectionMode)
  /-- `deviceContext->OMSetBlendState`. -/
  | OMSetBlendState (b : BlendState)
  /-- `deviceContext->OMSetDepthStencilState`; `true` for `dstate_Enable`. -/
  | OMSetDepthStencilState (enable : Bool)
  /-- `shaderVars.shaderTextures->SetResourceArray(&resourceView,pass,1)`. -/
  | SetResourceArray (resourceView : Nat) (pass : TexturePass)
  /-- `shaderVars.useTexturePass->SetBoolArray(texturePasses.enabled,..)`. -/
  | SetUseTexturePass (diffuse light detail fog macroTex : Bool)
  /-- `shaderVars.flashEnable->SetBool`. -/
  | SetFlashEnable (enable : Bool)
  /-- `shaderVars.flashColor->SetFloatVector`. -/
  | SetFlashColor (color : Vec4)
  /-- `shaderVars.fogDist->SetFloat`. -/
  | SetFogDist (dist : FloatVal)
  /-- `shaderVars.fogColor->SetFloatVector`; `none` is a `NULL` colour pointer. -/
  | SetFogColor (color : Option Vec4)
  /-- `deviceContext->UpdateSubresource(resource,mipNum,..)` on the resource of a view. -/
  | UpdateSubresource (resourceView : Nat) (mipNum : Int)
  /-- `Release()` of a shader resource view. -/
  | Release (resourceView : Nat)
  /-- `debugs("Buffer error.")`. -/
  | LogBufferError
  /-- `debugs("Error creating texture shader resource view.")`. -/
  | LogViewError
  /-- `device->CreateTexture2D(&desc,&data,&texture)`. -/
  | CreateTexture2D (desc : Texture2DDesc)
  /-- `Release()` of a texture. -/
  | ReleaseTexture (texture : Nat)
  /-- `debugs("Error creating texture resource.")`. -/
  | LogTextureError
  /-- `debugs("Unknown texture type.")`. -/
  | LogUnknownType
  /-- `debugs("Unsupported texture type.")`. -/
  | LogUnsupportedType
  /-- `shaderVars.time->SetFloat(time)` of `newFrame`. -/
  | SetTime
  /-- `swapChain->Present(..)`. -/
  | Present
  deriving DecidableEq, Repr

/-- Is the call a draw? -/
def GpuCall.isDraw : GpuCall → Bool
  | .DrawIndexed _ _ _ => true
  | _ => false

/-- Is the call one of the render or shader state writes of the setters? -/
def GpuCall.isStateWrite : GpuCall → Bool
  | .RSSetViewports _ _ _ _ => true
  | .SetViewportHeight _ => true
  | .SetViewportWidth _ => true
  | .SetProjectionMatrix _ _ => true
  | .SetProjectionMode _ => true
  | .OMSetBlendState _ => true
  | .OMSetDepthStencilState _ => true
  | .SetResourceArray _ _ => true
  | .SetUseTexturePass _ _ _ _ _ => true
  | .SetFlashEnable _ => true
  | .SetFlashColor _ => true
  | .SetFogDist _ => true
  | .SetFogColor _ => true
  | _ => false

/-! ## Constants -/

/-- `const unsigned int I_BUFFER_SIZE = 20000;` -/
def I_BUFFER_SIZE : Nat := 20000

/-- `const unsigned int V_BUFFER_SIZE = I_BUFFER_SIZE;` -/
def V_BUFFER_SIZE : Nat := I_BUFFER_SIZE

/-- The build: the game macros tested by `#ifdef` and the constants of `polyflags.h`, a
header that is not among the sources and is therefore a parameter. -/
structure BuildConfig where
  deusex : Bool
  rune : Bool
  PF_Invisible : Nat
  PF_Masked : Nat
  PF_Translucent : Nat
  PF_Modulated : Nat
  PF_AlphaBlend : Nat
  PF_Occlude : Nat
  deriving DecidableEq, Repr

/-- A build for the examples: no game macro, the flag bits of the Unreal engine headers. -/
def unrealBuild : BuildConfig where
  deusex := false
  rune := false
  PF_Invisible := 0x00000001
  PF_Masked := 0x00000002
  PF_Translucent := 0x00000004
  PF_Modulated := 0x00000040
  PF_AlphaBlend := 0x00020000
  PF_Occlude := 0x80000000

/-! ## State -/

/-- The statics of `d3d.cpp`. -/
structure D3DState where
  /-- `mappedVBuffer.pData != NULL` and `mappedIBuffer.pData != NULL`. -/
  mapped : Bool
  /-- `numVerts`. -/
  numVerts : Nat
  /-- `numIndices`. -/
  numIndices : Nat
  /-- `numUndrawnIndices`. -/
  numUndrawnIndices : Nat
  /-- The memory behind `mappedIBuffer.pData`, as an array of `int`. -/
  iBuf : Nat → Nat
  /-- `currIndex` of `switchToPass`. -/
  currIndex : Int
  /-- `oldX` of `setViewPort`. -/
  oldX : Int
  /-- `oldY` of `setViewPort`. -/
  oldY : Int
  /-- `oldLeft` of `setViewPort`. -/
  oldLeft : Int
  /-- `oldTop` of `setViewPort`. -/
  oldTop : Int
  /-- `oldAspect` of `setProjection`. -/
  oldAspect : FloatVal
  /-- `oldXoverZ` of `setProjection`. -/
  oldXoverZ : FloatVal
  /-- `m` of `setProjectionMode`. -/
  m : ProjectionMode
  /-- `currFlags` of `setFlags`. -/
  currFlags : Nat
  /-- `currD3DFlags` of `setFlags`. -/
  currD3DFlags : Nat
  /-- `texturePasses.boundTextureID`. -/
  boundTextureID : TexturePass → Nat
  /-- `texturePasses.enabled`. -/
  enabled : TexturePass → Bool
  /-- `metadata` of `setTexture`: `none` is `NULL`, `some a` points into the node at `a`. -/
  metadata : TexturePass → Option Nat
  /-- `textureCache`. -/
  textureCache : Nat → Option CacheNode
  /-- The address the next new node of `textureCache` gets. -/
  nextAddr : Nat
  /-- The calls made so far, oldest first. -/
  trace : List GpuCall

/-- The statics at program start: zero-initialised, `currIndex=-1`, empty cache. -/
def D3DState.initial : D3DState where
  mapped := false
  numVerts := 0
  numIndices := 0
  numUndrawnIndices := 0
  iBuf := fun _ => 0
  currIndex := -1
  oldX := 0
  oldY := 0
  oldLeft := 0
  oldTop := 0
  oldAspect := .num 0
  oldXoverZ := .num 0
  m := .PROJ_NORMAL
  currFlags := 0
  currD3DFlags := 0
  boundTextureID := fun _ => 0
  enabled := fun _ => false
  metadata := fun _ => none
  textureCache := fun _ => none
  nextAddr := 1
  trace := []

/-- Append one call to the trace. -/
def D3DState.emit (s : D3DState) (c : GpuCall) : D3DState :=
  { s with trace := s.trace ++ [c] }

/-- `unsigned int + int`: the `int` is converted to `unsigned int`, so a negative sum comes
out as `2^32 + sum`; a sum that is not negative is kept as it is (see the conventions at
the head of the file). -/
def addSigned (a : Nat) (z : Int) : Nat :=
  if 0 ≤ (a : Int) + z then ((a : Int) + z).toNat else ((a : Int) + z + 4294967296).toNat

/-! ## Buffers: `map`, `render`, `commit` -/

/-- `D3D::map`. -/
def map (clear : Bool) (s : D3DState) : D3DState :=
  if s.mapped then s
  else
    let s1 := if clear then { s with numVerts := 0, numIndices := 0, numUndrawnIndices := 0 }
              else s
    { s1 with
      mapped := true
      trace := s1.trace ++ [.Map .vertexBuffer clear, .Map .indexBuffer clear] }

/-- `D3D::switchToPass`, as far as it acts on the state (the returned pass is the one of
the given index). -/
def switchToPass (index : Int) (s : D3DState) : D3DState :=
  if index ≠ s.currIndex then
    let s1 := if index = 0 then s.emit .BindGeometryPass else s
    { s1 with currIndex := index }
  else s

/-- `D3D::render`. -/
def render (s : D3DState) : D3DState :=
  if !s.mapped then s
  else
    let s1 : D3DState :=
      { s with mapped := false
               trace := s.trace ++ [.Unmap .vertexBuffer, .Unmap .indexBuffer] }
    if s1.numIndices < s1.numUndrawnIndices then
      { s1 with numUndrawnIndices := 0, trace := s1.trace ++ [.LogBufferError] }
    else
      let s2 := switchToPass 0 s1
      { s2 with
        numUndrawnIndices := 0
        trace := s2.trace ++
          [.Apply 0, .DrawIndexed s2.numUndrawnIndices (s2.numIndices - s2.numUndrawnIndices) 0] }

/-- `D3D::commit`. -/
def commit (s : D3DState) : D3DState :=
  if 0 < s.numUndrawnIndices then map false (render s) else s

/-! ## Index and vertex generation -/

/-- The statement `iBufPtr[numIndices++] = v;`. -/
def storeIndex (v : Nat) (s : D3DState) : D3DState :=
  { s with iBuf := Function.update s.iBuf s.numIndices v, numIndices := s.numIndices + 1 }

/-- The body of the loop of `indexTriangleFan` for one value of `i`. -/
def fanStep (s : D3DState) (i : Nat) : D3DState :=
  storeIndex (s.numVerts + i + 1) (storeIndex (s.numVerts + i) (storeIndex s.numVerts s))

/-- `D3D::indexTriangleFan`.  The loop `for(int i=1;i<num-1;i++)` runs for
`i = 1, ..., num-2`. -/
def indexTriangleFan (num : Int) (s : D3DState) : D3DState :=
  let newIndices : Int := (num - 2) * 3
  let s1 := if addSigned s.numIndices newIndices > I_BUFFER_SIZE then map true (render s) else s
  let s2 := (List.range' 1 (num - 2).toNat).foldl fanStep s1
  { s2 with numUndrawnIndices := addSigned s2.numUndrawnIndices newIndices }

/-- `D3D::indexQuad`. -/
def indexQuad (s : D3DState) : D3DState :=
  let newIndices : Int := 6
  let s1 := if addSigned s.numIndices newIndices > I_BUFFER_SIZE then map true (render s) else s
  let s2 := storeIndex s1.numVerts (storeIndex (s1.numVerts + 3) (storeIndex (s1.numVerts + 2)
    (storeIndex (s1.numVerts + 2) (storeIndex (s1.numVerts + 1) (storeIndex s1.numVerts s1)))))
  { s2 with numUndrawnIndices := addSigned s2.numUndrawnIndices newIndices }

/-- `D3D::getVertex`: the slot handed out and the state with the cursor advanced. -/
def getVertex (s : D3DState) : Nat × D3DState :=
  (s.numVerts, { s with numVerts := s.numVerts + 1 })

/-! ## State setters -/

/-- `D3D::clearDepth`. -/
def clearDepth (s : D3DState) : D3DState :=
  (commit s).emit .ClearDepthStencilView

/-- `D3D::setViewPort`. -/
def setViewPort (X Y left top : Int) (s : D3DState) : D3DState :=
  let s1 :=
    if X ≠ s.oldX ∨ Y ≠ s.oldY ∨ left ≠ s.oldLeft ∨ top ≠ s.oldTop then
      let s0 := commit s
      { s0 with trace := s0.trace ++
          [.RSSetViewports X Y left top, .SetViewportHeight Y, .SetViewportWidth X] }
    else s
  { s1 with oldLeft := left, oldTop := top, oldX := X, oldY := Y }

/-- `D3D::setProjection`. -/
def setProjection (aspect XoverZ : FloatVal) (s : D3DState) : D3DState :=
  if aspect.ne s.oldAspect || s.oldXoverZ.ne XoverZ then
    let s0 := commit s
    { s0 with
      trace := s0.trace ++ [.SetProjectionMatrix aspect XoverZ]
      oldAspect := aspect
      oldXoverZ := XoverZ }
  else s

/-- `D3D::setProjectionMode`. -/
def setProjectionMode (mode : ProjectionMode) (s : D3DState) : D3DState :=
  if s.m ≠ mode then
    let s0 := commit s
    { s0 with trace := s0.trace ++ [.SetProjectionMode mode], m := mode }
  else s

/-- `BLEND_FLAGS` of `setFlags`. -/
def BLEND_FLAGS (cfg : BuildConfig) : Nat :=
  cfg.PF_Translucent ||| cfg.PF_Modulated ||| cfg.PF_Invisible ||| cfg.PF_Masked |||
    (if cfg.rune then cfg.PF_AlphaBlend else 0)

/-- `RELEVANT_FLAGS` of `setFlags`. -/
def RELEVANT_FLAGS (cfg : BuildConfig) : Nat := BLEND_FLAGS cfg ||| cfg.PF_Occlude

/-- `RELEVANT_D3D_FLAGS` of `setFlags`. -/
def RELEVANT_D3D_FLAGS : Nat := 0

/-- The `if / else if` chain of `setFlags` that picks `blendState`. -/
def blendStateOf (cfg : BuildConfig) (flags : Nat) : BlendState :=
  if flags &&& cfg.PF_Invisible ≠ 0 then .bstate_Invis
  else if cfg.deusex && decide (flags &&& cfg.PF_Modulated ≠ 0) then .bstate_Modulate
  else if flags &&& cfg.PF_Translucent ≠ 0 then .bstate_Translucent
  else if flags &&& cfg.PF_Modulated ≠ 0 then .bstate_Modulate
  else if cfg.rune && decide (flags &&& cfg.PF_AlphaBlend ≠ 0) then .bstate_Alpha
  else if flags &&& cfg.PF_Masked ≠ 0 then .bstate_Masked
  else .bstate_NoBlend

/-- The first statement of `setFlags`: without translucency or modulation, occlude. -/
def normaliseFlags (cfg : BuildConfig) (flags : Nat) : Nat :=
  if flags &&& (cfg.PF_Translucent ||| cfg.PF_Modulated) = 0 then flags ||| cfg.PF_Occlude
  else flags

/-- `D3D::setFlags`; the flag words are the bit patterns of the `int` arguments. -/
def setFlags (cfg : BuildConfig) (flags D3DFlags : Nat) (s : D3DState) : D3DState :=
  let flags := normaliseFlags cfg flags
  let changedFlags := s.currFlags ^^^ flags
  let changedD3DFlags := s.currD3DFlags ^^^ D3DFlags
  if changedFlags &&& RELEVANT_FLAGS cfg ≠ 0 ∨ changedD3DFlags &&& RELEVANT_D3D_FLAGS ≠ 0 then
    let s1 := commit s
    let s2 := if changedFlags &&& BLEND_FLAGS cfg ≠ 0
      then s1.emit (.OMSetBlendState (blendStateOf cfg flags)) else s1
    let s3 := if changedFlags &&& cfg.PF_Occlude ≠ 0
      then s2.emit (.OMSetDepthStencilState (decide (flags &&& cfg.PF_Occlude ≠ 0))) else s2
    { s3 with currFlags := flags, currD3DFlags := D3DFlags }
  else s

/-- `D3D::flash`; the colour is only read when `enable` holds. -/
def flash (enable : Bool) (color : Vec4) (s : D3DState) : D3DState :=
  let s1 := s.emit (.SetFlashEnable enable)
  if enable then s1.emit (.SetFlashColor color) else s1

/-- `D3D::fog`; `color` is a pointer, `none` for `NULL`. -/
def fog (dist : FloatVal) (color : Option Vec4) (s : D3DState) : D3DState :=
  let s1 := (commit s).emit (.SetFogDist dist)
  if dist.gtZero then s1.emit (.SetFogColor color) else s1

/-! ## Texture cache and texture passes -/

/-- `D3D::textureIsCached`. -/
def textureIsCached (id : Nat) (s : D3DState) : Bool :=
  (s.textureCache id).isSome

/-- The value a `CachedTexture()` node starts with. -/
def CachedTexture.zero : CachedTexture :=
  { metadata := { multU := .num 0, multV := .num 0, masked := false }, resourceView := 0 }

/-- The expression `textureCache[id]`: the node of `id`, inserted first when absent. -/
def cacheIndex (id : Nat) (s : D3DState) : CacheNode × D3DState :=
  match s.textureCache id with
  | some n => (n, s)
  | none =>
    let n : CacheNode := { addr := s.nextAddr, value := CachedTexture.zero }
    (n, { s with textureCache := Function.update s.textureCache id (some n)
                 nextAddr := s.nextAddr + 1 })

/-- `D3D::getTextureMetaData`: the returned reference, as the address of the node. -/
def getTextureMetaData (id : Nat) (s : D3DState) : Nat × D3DState :=
  let r := cacheIndex id s
  (r.1.addr, r.2)

/-- The metadata a pointer into the cache refers to, while its node is in the cache
under `id`. -/
def metaDataAt (id : Nat) (p : Nat) (s : D3DState) : Option TextureMetaData :=
  match s.textureCache id with
  | some n => if n.addr = p then some n.value.metadata else none
  | none => none

/-- `D3D::cacheTexture`; `view` is the outcome of `CreateShaderResourceView`, `none` when
it failed. -/
def cacheTexture (id : Nat) (metadata : TextureMetaData) (view : Option Nat) (s : D3DState) :
    D3DState :=
  match view with
  | none => s.emit .LogViewError
  | some r =>
    let c : CachedTexture := { metadata := metadata, resourceView := r }
    let (n, s1) := cacheIndex id s
    { s1 with textureCache := Function.update s1.textureCache id (some { n with value := c }) }

/-- The argument list of `SetBoolArray(texturePasses.enabled,0,DUMMY_NUM_PASSES)`. -/
def useTexturePassCall (enabled : TexturePass → Bool) : GpuCall :=
  .SetUseTexturePass (enabled .PASS_DIFFUSE) (enabled .PASS_LIGHT) (enabled .PASS_DETAIL)
    (enabled .PASS_FOG) (enabled .PASS_MACRO)

/-- `D3D::setTexture`: the returned pointer (`none` for `NULL`) and the new state. -/
def setTexture (pass : TexturePass) (id : Nat) (s : D3DState) : Option Nat × D3DState :=
  if id ≠ s.boundTextureID pass then
    let s1 := commit { s with boundTextureID := Function.update s.boundTextureID pass id }
    if id = 0 then
      let s2 : D3DState :=
        { s1 with enabled := Function.update s1.enabled pass false
                  metadata := Function.update s1.metadata pass none }
      let s3 := s2.emit (useTexturePassCall s2.enabled)
      (s3.metadata pass, s3)
    else
      match s1.textureCache id with
      | none => (none, s1)
      | some tex =>
        let s2 := s1.emit (.SetResourceArray tex.value.resourceView pass)
        let s3 :=
          if !s2.enabled pass then
            let s2a : D3DState := { s2 with enabled := Function.update s2.enabled pass true }
            s2a.emit (useTexturePassCall s2a.enabled)
          else s2
        let s4 : D3DState := { s3 with metadata := Function.update s3.metadata pass (some tex.addr) }
        (s4.metadata pass, s4)
  else (s.metadata pass, s)

/-- `D3D::deleteTexture`. -/
def deleteTexture (id : Nat) (s : D3DState) : D3DState :=
  match s.textureCache id with
  | none => s
  | some n =>
    let s1 := if n.value.resourceView ≠ 0 then s.emit (.Release n.value.resourceView) else s
    { s1 with textureCache := Function.update s1.textureCache id none }

/-- `D3D::updateMip`. -/
def updateMip (id : Nat) (mipNum : Int) (s : D3DState) : D3DState :=
  let s1 := if TexturePass.all.any (fun i => s.boundTextureID i == id) then commit s else s
  let (n, s2) := cacheIndex id s1
  s2.emit (.UpdateSubresource n.value.resourceView mipNum)

/-- `D3D::flush`.  The release loop walks the cache in an order the container does not
fix; the releases are not traced. -/
def flush (s : D3DState) : D3DState :=
  let s1 := TexturePass.all.foldl (fun st i => (setTexture i 0 st).2) s
  { s1 with textureCache := fun _ => none }

/-- The metadata read through the reference that `getTextureMetaData(id)` returns, as in
`getTextureMetaData(id).masked`, with the state after the call. -/
def readTextureMetaData (id : Nat) (s : D3DState) : TextureMetaData × D3DState :=
  ((cacheIndex id s).1.value.metadata, (cacheIndex id s).2)

/-- `D3D::createTexture`; `result` is the outcome of `CreateTexture2D`, the handle of the
new texture or `none` when it failed. -/
def createTexture (desc : Texture2DDesc) (result : Option Nat) (s : D3DState) :
    Option Nat × D3DState :=
  let s1 := s.emit (.CreateTexture2D desc)
  match result with
  | none => (none, s1.emit .LogTextureError)
  | some t => (some t, s1)

/-! ## Texture conversion (`texconversion.cpp`) and `PrecacheTexture` -/

/-- Modelled from the spec: the engine type `FMipmapBase` is declared in a header that is
not among the sources.  One level of the mip pyramid: its dimensions and the bytes at
`DataPtr`. -/
structure FMipmap where
  USize : Nat
  VSize : Nat
  DataPtr : List Nat
  deriving DecidableEq, Repr

/-- Modelled from the spec: the engine type `FTextureInfo` (the source descriptor: format
enum, dimensions, clamp rectangle, mip pyramid, optional palette) is declared in a header
that is not among the sources.  The fields are the ones `texconversion.cpp` and
`d3d12drv.cpp` read.  An entry of `Palette` is one `FColor`, four bytes starting with `R`,
as the `DWORD` the conversion reads it as. -/
structure FTextureInfo where
  CacheID : Nat
  Format : Nat
  USize : Nat
  VSize : Nat
  UClamp : Nat
  VClamp : Nat
  UScale : FloatVal
  VScale : FloatVal
  NumMips : Nat
  Mips : List FMipmap
  Palette : List Nat
  bRealtimeChanged : Bool
  bRealtime : Bool
  bParametric : Bool
  deriving DecidableEq, Repr

/-- `TEXF_P8 = 0x00`, from the comments of `TexConversion::formats`. -/
def TEXF_P8 : Nat := 0

/-- `TEXF_RGBA7 = 0x01`. -/
def TEXF_RGBA7 : Nat := 1

/-- `TEXF_RGB16 = 0x02`. -/
def TEXF_RGB16 : Nat := 2

/-- `TEXF_DXT1 = 0x03`. -/
def TEXF_DXT1 : Nat := 3

/-- `TEXF_RGB8 = 0x04`. -/
def TEXF_RGB8 : Nat := 4

/-- `TEXF_RGBA8 = 0x05`. -/
def TEXF_RGBA8 : Nat := 5

/-- The conversion routines a format can name in `conversionFunc`. -/
inductive ConversionFunc where
  | fromPaletted
  deriving DecidableEq, Repr

/-- `TexConversion::TextureFormat`; `conversionFunc` is `none` for `NULL`. -/
structure TextureFormat where
  supported : Bool
  blocksize : Nat
  directAssign : Bool
  d3dFormat : DxgiFormat
  conversionFunc : Option ConversionFunc
  deriving DecidableEq, Repr

/-- `TexConversion::formats`. -/
def formats : List TextureFormat :=
  [ { supported := true, blocksize := 0, directAssign := false,
      d3dFormat := .R8G8B8A8_UNORM, conversionFunc := some .fromPaletted },
    { supported := true, blocksize := 0, directAssign := true,
      d3dFormat := .R8G8B8A8_UNORM, conversionFunc := none },
    { supported := false, blocksize := 0, directAssign := true,
      d3dFormat := .R8G8B8A8_UNORM, conversionFunc := none },
    { supported := true, blocksize := 4, directAssign := true,
      d3dFormat := .BC1_UNORM, conversionFunc := none },
    { supported := false, blocksize := 0, directAssign := true,
      d3dFormat := .UNKNOWN, conversionFunc := none },
    { supported := true, blocksize := 0, directAssign := true,
      d3dFormat := .R8G8B8A8_UNORM, conversionFunc := none } ]

/-- What an index past the end of `formats` or of `Info.Mips` yields in the embedding (the
code does not check either index). -/
def TextureFormat.outOfRange : TextureFormat :=
  { supported := false, blocksize := 0, directAssign := true, d3dFormat := .UNKNOWN,
    conversionFunc := none }

/-- The expression `formats[Info.Format]`. -/
def formatOf (Format : Nat) : TextureFormat := formats.getD Format TextureFormat.outOfRange

/-- The expression `Info.Mips[mipLevel]`. -/
def FTextureInfo.mip (Info : FTextureInfo) (mipLevel : Nat) : FMipmap :=
  Info.Mips.getD mipLevel { USize := 0, VSize := 0, DataPtr := [] }

/-- `D3D11_SUBRESOURCE_DATA` as `convertMip` fills it.  `pSysMem` holds, for a direct
assignment, the source bytes it aliases, and for a conversion the `DWORD`s the conversion
routine stored, in the order of the stores; `allocated` is the number of `DWORD`s of the
`new DWORD[..]` buffer, `none` when the memory is borrowed. -/
structure SubresourceData where
  pSysMem : List Nat
  SysMemPitch : Nat
  allocated : Option Nat
  deriving DecidableEq, Repr

/-- The loop of `fromPaletted`: `remaining` is `sourceEnd - source`, `i` the offset of
`source` in the mip data; each round stores one `DWORD` at `dest` and advances both. -/
def paletteLoop (palette source : List Nat) : Nat → Nat → List Nat → List Nat
  | 0, _, dest => dest
  | remaining + 1, i, dest =>
    paletteLoop palette source remaining (i + 1) (dest ++ [palette.getD (source.getD i 0) 0])

/-- `TexConversion::fromPaletted`: the descriptor afterwards (the palette is written when
`PF_Masked` is set) and the `DWORD`s stored at `target`. -/
def fromPaletted (cfg : BuildConfig) (Info : FTextureInfo) (PolyFlags : Nat) (mipLevel : Nat) :
    FTextureInfo × List Nat :=
  let Info1 : FTextureInfo :=
    if PolyFlags &&& cfg.PF_Masked ≠ 0 then { Info with Palette := Info.Palette.set 0 0 }
    else Info
  (Info1, paletteLoop Info1.Palette (Info1.mip mipLevel).DataPtr
    ((Info1.mip mipLevel).USize * (Info1.mip mipLevel).VSize) 0 [])

/-- `TexConversion::convertMip`; the allocation is taken to succeed. -/
def convertMip (cfg : BuildConfig) (Info : FTextureInfo) (format : TextureFormat)
    (PolyFlags : Nat) (mipLevel : Nat) : FTextureInfo × SubresourceData :=
  let pitch :=
    if format.blocksize > 0 then (Info.mip mipLevel).USize * format.blocksize / 2
    else (Info.mip mipLevel).USize * 4
  if format.directAssign then
    (Info, { pSysMem := (Info.mip mipLevel).DataPtr, SysMemPitch := pitch, allocated := none })
  else
    let size := (Info.mip mipLevel).USize * max (Info.VClamp >>> mipLevel) 1
    match format.conversionFunc with
    | some .fromPaletted =>
      let r := fromPaletted cfg Info PolyFlags mipLevel
      (r.1, { pSysMem := r.2, SysMemPitch := pitch, allocated := some size })
    | none => (Info, { pSysMem := [], SysMemPitch := pitch, allocated := some size })

/-- The loop `for(int i=0;i<Info.NumMips;i++) convertMip(Info,format,PolyFlags,i,data[i]);`
of `convertAndCache`. -/
def convertMips (cfg : BuildConfig) (Info : FTextureInfo) (format : TextureFormat)
    (PolyFlags : Nat) : FTextureInfo × List SubresourceData :=
  (List.range Info.NumMips).foldl
    (fun acc i =>
      let r := convertMip cfg acc.1 format PolyFlags i
      (r.1, acc.2 ++ [r.2]))
    (Info, [])

/-- What the embedding takes from outside for one `convertAndCache`: the values of the float
expressions `1.0 / (Info.UScale * Info.UClamp)` and `1.0 / (Info.VScale * Info.VClamp)`, and
the outcomes of `CreateTexture2D` and `CreateShaderResourceView` (`none` for failure). -/
structure TexEnv where
  multU : FloatVal
  multV : FloatVal
  texture : Option Nat
  view : Option Nat
  deriving DecidableEq, Repr

/-- The `D3D11_TEXTURE2D_DESC` of `convertAndCache`. -/
def textureDesc (Info : FTextureInfo) (format : TextureFormat) : Texture2DDesc :=
  { Width := if format.blocksize > 0 then Info.UClamp + Info.USize % format.blocksize
             else Info.UClamp
    Height := if format.blocksize > 0 then Info.VClamp + Info.VSize % format.blocksize
              else Info.VClamp
    MipLevels := Info.NumMips
    Format := format.d3dFormat
    dynamic := Info.bRealtimeChanged || Info.bRealtime || Info.bParametric }

/-- `TexConversion::convertAndCache`: the descriptor and the renderer state afterwards. -/
def convertAndCache (cfg : BuildConfig) (env : TexEnv) (Info : FTextureInfo) (PolyFlags : Nat)
    (s : D3DState) : FTextureInfo × D3DState :=
  if Info.Format > TEXF_RGBA8 then (Info, s.emit .LogUnknownType)
  else if (formatOf Info.Format).supported = false then (Info, s.emit .LogUnsupportedType)
  else
    let metadata : TextureMetaData :=
      { multU := env.multU, multV := env.multV
        masked := decide (PolyFlags &&& cfg.PF_Masked ≠ 0) }
    let converted := convertMips cfg Info (formatOf Info.Format) PolyFlags
    let created := createTexture (textureDesc converted.1 (formatOf Info.Format)) env.texture s
    match created.1 with
    | none => (converted.1, created.2)
    | some texture =>
      (converted.1,
        (cacheTexture converted.1.CacheID metadata env.view created.2).emit
          (.ReleaseTexture texture))

/-- `TexConversion::update`. -/
def update (cfg : BuildConfig) (Info : FTextureInfo) (PolyFlags : Nat) (s : D3DState) :
    FTextureInfo × D3DState :=
  let Info1 : FTextureInfo := { Info with bRealtimeChanged := false }
  let r := convertMip cfg Info1 (formatOf Info1.Format) PolyFlags 0
  (r.1, updateMip r.1.CacheID 0 s)

/-- `UD3D12RenderDevice::PrecacheTexture`: the descriptor and the renderer state
afterwards. -/
def PrecacheTexture (cfg : BuildConfig) (env : TexEnv) (Info : FTextureInfo) (PolyFlags : Nat)
    (s : D3DState) : FTextureInfo × D3DState :=
  if textureIsCached Info.CacheID s then
    if Info.bRealtimeChanged then update cfg Info PolyFlags s
    else if PolyFlags &&& cfg.PF_Masked ≠ 0 then
      if (readTextureMetaData Info.CacheID s).1.masked = false then
        convertAndCache cfg env Info PolyFlags
          (deleteTexture Info.CacheID (readTextureMetaData Info.CacheID s).2)
      else (Info, (readTextureMetaData Info.CacheID s).2)
    else (Info, s)
  else convertAndCache cfg env Info PolyFlags s

/-! ## Multisample negotiation (`D3D::findAALevel`) -/

/-- The conversion of an `int` to `unsigned int`. -/
def toUInt (z : Int) : Nat := (z % 4294967296).toNat

/-- The conversion of an `unsigned int` to `int`. -/
def toInt (n : Nat) : Int :=
  if n % 4294967296 < 2147483648 then ((n % 4294967296 : Nat) : Int)
  else ((n % 4294967296 : Nat) : Int) - 4294967296

/-- What the loop of `findAALevel` ends with: whether a `CheckFeatureSupport` failed,
`ms.SampleCount`, and the sample counts handed to `CheckFeatureSupport`, in order. -/
structure AALoop where
  failed : Bool
  SampleCount : Nat
  queried : List Nat
  deriving DecidableEq, Repr

/-- The loop of `findAALevel`, from the test of its condition with `ms.NumQualityLevels == 0`
and `ms.SampleCount` as given.  `query c` is the outcome of `CheckFeatureSupport` for the
sample count `c`: `none` for a failure, else the `NumQualityLevels` it reports. -/
def aaLoop (query : Nat → Option Nat) : Nat → List Nat → AALoop
  | 0, queried => { failed := false, SampleCount := 0, queried := queried }
  | c + 1, queried =>
    match query (c + 1) with
    | none => { failed := true, SampleCount := c + 1, queried := queried ++ [c + 1] }
    | some NumQualityLevels =>
      if NumQualityLevels ≠ 0 then
        { failed := false, SampleCount := c + 1, queried := queried ++ [c + 1] }
      else aaLoop query c (queried ++ [c + 1])

/-- The outcome of `findAALevel`: the value returned, `options.samples` afterwards, the
sample counts queried, and whether "Anti aliasing setting decreased" was logged. -/
structure AAResult where
  ret : Int
  samples : Int
  queried : List Nat
  decreased : Bool
  deriving DecidableEq, Repr

/-- `D3D::findAALevel`, from `options.samples` as given. -/
def findAALevel (query : Nat → Option Nat) (samples : Int) : AAResult :=
  let l := aaLoop query (toUInt samples) []
  if l.failed then { ret := 0, samples := samples, queried := l.queried, decreased := false }
  else if l.SampleCount ≠ toUInt samples then
    { ret := 1, samples := toInt l.SampleCount, queried := l.queried, decreased := true }
  else { ret := 1, samples := samples, queried := l.queried, decreased := false }

/-! ## The render device (`d3d12drv.cpp`) -/

/-- `D3D::newFrame`; the value of the shader time is not modelled. -/
def newFrame (s : D3DState) : D3DState := s.emit .SetTime

/-- `D3D::clear`. -/
def clear (clearColor : Vec4) (s : D3DState) : D3DState :=
  s.emit (.ClearRenderTargetView clearColor)

/-- `D3D::present`; `Present` is taken to succeed. -/
def present (s : D3DState) : D3DState := s.emit .Present

/-- The statics of `d3d.cpp` together with the member `drawingWeapon` of the render
device. -/
structure DeviceState where
  d3d : D3DState
  drawingWeapon : Bool

/-- `UD3D12RenderDevice::Lock`.  `setFlash` is the outcome of the float comparison
`FlashScale!=FVector(.5,.5,.5) || FlashFog!=FVector(0,0,0)` and `color` the `Vec4` built from
the two planes; the field-of-view command at the head of the function goes to the engine and
is left out. -/
def Lock (setFlash : Bool) (color ScreenClear : Vec4) (d : DeviceState) : DeviceState :=
  let s1 := newFrame d.d3d
  let s2 := if setFlash then flash true color s1 else flash false color s1
  let s3 := clear ScreenClear (clearDepth s2)
  { d3d := map true s3, drawingWeapon := false }

/-- `UD3D12RenderDevice::Unlock`. -/
def Unlock (Blit : Bool) (s : D3DState) : D3DState :=
  let s1 := render s
  if Blit then present s1 else s1

/-- `UD3D12RenderDevice::ClearZ`. -/
def ClearZ (s : D3DState) : D3DState := clearDepth s

/-- Modelled from the spec: the engine type `FSceneNode` (the scene, with the viewport
rectangle) is declared in a header that is not among the sources.  The fields are the ones
`SetSceneNode` reads; the floats `FX` and `FY` enter through the quotient `FY/FX` only,
which is the field `aspect`. -/
structure FSceneNode where
  X : Int
  Y : Int
  XB : Int
  YB : Int
  aspect : FloatVal
  deriving DecidableEq, Repr

/-- `UD3D12RenderDevice::SetSceneNode`; `RProjZ` is the value of
`appTan(Viewport->Actor->FovAngle * PI/360.0)`. -/
def SetSceneNode (Frame : FSceneNode) (RProjZ : FloatVal) (s : D3DState) : D3DState :=
  setProjection Frame.aspect RProjZ (setViewPort Frame.X Frame.Y Frame.XB Frame.YB s)

/-- The calls `D3D::getVertex()` of a loop that runs `count` times; what is written to the
vertices is not modelled. -/
def getVertices (count : Nat) (s : D3DState) : D3DState :=
  (List.range count).foldl (fun st _ => (getVertex st).2) s

/-- The four calls `D3D::setTexture(pass,NULL)` for the light, detail, fog and macro passes
in `DrawGouraudPolygon` and `DrawTile`. -/
def unbindExtraPasses (s : D3DState) : D3DState :=
  (setTexture .PASS_MACRO 0 (setTexture .PASS_FOG 0 (setTexture .PASS_DETAIL 0
    (setTexture .PASS_LIGHT 0 s).2).2).2).2

/-- `UD3D12RenderDevice::DrawGouraudPolygon`: the descriptor and the device afterwards.
`weaponFix` is the build condition `UNREALTOURNAMENT || UNREALGOLD`, `nearZ` the outcome of
the float comparison `Pts[0]->Point.Z<12`. -/
def DrawGouraudPolygon (cfg : BuildConfig) (weaponFix : Bool) (env : TexEnv)
    (Info : FTextureInfo) (nearZ : Bool) (NumPts : Int) (PolyFlags : Nat) (d : DeviceState) :
    FTextureInfo × DeviceState :=
  if NumPts < 3 then (Info, d)
  else
    let d1 : DeviceState :=
      if weaponFix && !d.drawingWeapon && nearZ then
        { d3d := clearDepth d.d3d, drawingWeapon := true }
      else d
    let s2 :=
      if !d1.drawingWeapon then setProjectionMode .PROJ_NORMAL d1.d3d
      else setProjectionMode .PROJ_COMPENSATE_Z_NEAR d1.d3d
    let p := PrecacheTexture cfg env Info PolyFlags s2
    let diffuse := setTexture .PASS_DIFFUSE p.1.CacheID p.2
    match diffuse.1 with
    | none => (p.1, { d1 with d3d := diffuse.2 })
    | some _ =>
      let s3 := setFlags cfg PolyFlags 0 (unbindExtraPasses diffuse.2)
      (p.1, { d1 with d3d := getVertices NumPts.toNat (indexTriangleFan NumPts s3) })

/-- `UD3D12RenderDevice::DrawTile`: the descriptor and the renderer state afterwards. -/
def DrawTile (cfg : BuildConfig) (env : TexEnv) (Frame : FSceneNode) (RProjZ : FloatVal)
    (Info : FTextureInfo) (PolyFlags : Nat) (s : D3DState) : FTextureInfo × D3DState :=
  let s1 := SetSceneNode Frame RProjZ (setProjectionMode .PROJ_Z_ONLY s)
  let p := PrecacheTexture cfg env Info PolyFlags s1
  let diffuse := setTexture .PASS_DIFFUSE p.1.CacheID p.2
  match diffuse.1 with
  | none => (p.1, diffuse.2)
  | some _ =>
    let s2 := setFlags cfg PolyFlags 0 (unbindExtraPasses diffuse.2)
    (p.1, getVertices 4 (indexQuad s2))

/-- Modelled from the spec: the engine type `FSurfaceInfo` is declared in a header that is
not among the sources.  The surface flags, the diffuse texture and the four optional
textures (`none` for a `NULL` pointer). -/
structure FSurfaceInfo where
  PolyFlags : Nat
  Texture : FTextureInfo
  LightMap : Option FTextureInfo
  DetailTexture : Option FTextureInfo
  FogMap : Option FTextureInfo
  MacroTexture : Option FTextureInfo
  deriving DecidableEq, Repr

/-- One of the four `if(Surface.X) .. else ..` blocks of `DrawComplexSurface`: the texture
afterwards, whether the function goes on (`false` for the early `return`), and the state. -/
def bindOptional (cfg : BuildConfig) (env : TexEnv) (pass : TexturePass)
    (texture : Option FTextureInfo) (s : D3DState) : Option FTextureInfo × Bool × D3DState :=
  match texture with
  | none => (none, true, (setTexture pass 0 s).2)
  | some Info =>
    let p := PrecacheTexture cfg env Info 0 s
    let r := setTexture pass p.1.CacheID p.2
    (some p.1, r.1.isSome, r.2)

/-- The loop "Draw each polygon" of `DrawComplexSurface` over the values of `Poly->NumPts`
along the list `Facet.Polys`. -/
def drawPolys (Polys : List Int) (s : D3DState) : D3DState :=
  Polys.foldl
    (fun st NumPts =>
      if NumPts < 3 then st else getVertices NumPts.toNat (indexTriangleFan NumPts st))
    s

/-- `UD3D12RenderDevice::DrawComplexSurface`: the surface and the renderer state afterwards.
`env` gives, for each pass, the outcomes of resource creation for the texture of the pass;
`Polys` holds `Poly->NumPts` for the polygons of `Facet.Polys`. -/
def DrawComplexSurface (cfg : BuildConfig) (env : TexturePass → TexEnv)
    (Surface : FSurfaceInfo) (Polys : List Int) (s : D3DState) : FSurfaceInfo × D3DState :=
  let s1 := setFlags cfg Surface.PolyFlags 0 (setProjectionMode .PROJ_NORMAL s)
  let p := PrecacheTexture cfg (env .PASS_DIFFUSE) Surface.Texture Surface.PolyFlags s1
  let diffuse := setTexture .PASS_DIFFUSE p.1.CacheID p.2
  let S1 : FSurfaceInfo := { Surface with Texture := p.1 }
  if diffuse.1.isNone then (S1, diffuse.2)
  else
    let l := bindOptional cfg (env .PASS_LIGHT) .PASS_LIGHT Surface.LightMap diffuse.2
    let S2 : FSurfaceInfo := { S1 with LightMap := l.1 }
    if l.2.1 = false then (S2, l.2.2)
    else
      let dt := bindOptional cfg (env .PASS_DETAIL) .PASS_DETAIL Surface.DetailTexture l.2.2
      let S3 : FSurfaceInfo := { S2 with DetailTexture := dt.1 }
      if dt.2.1 = false then (S3, dt.2.2)
      else
        let f := bindOptional cfg (env .PASS_FOG) .PASS_FOG Surface.FogMap dt.2.2
        let S4 : FSurfaceInfo := { S3 with FogMap := f.1 }
        if f.2.1 = false then (S4, f.2.2)
        else
          let m := bindOptional cfg (env .PASS_MACRO) .PASS_MACRO Surface.MacroTexture f.2.2
          let S5 : FSurfaceInfo := { S4 with MacroTexture := m.1 }
          if m.2.1 = false then (S5, m.2.2)
          else (S5, drawPolys Polys m.2.2)

/-! ## Runs of the renderer -/

/-- The operations of `D3D` that act on the statics modelled here, with those that
`Lock` and `Unlock` call once a frame (`newFrame`, `clear`, `present`). -/
inductive Op where
  | map (clear : Bool)
  | render
  | commit
  | indexTriangleFan (num : Int)
  | indexQuad
  | getVertex
  | clearDepth
  | setViewPort (X Y left top : Int)
  | setProjection (aspect XoverZ : FloatVal)
  | setProjectionMode (mode : ProjectionMode)
  | setFlags (flags D3DFlags : Nat)
  | flash (enable : Bool) (color : Vec4)
  | fog (dist : FloatVal) (color : Option Vec4)
  | cacheTexture (id : Nat) (metadata : TextureMetaData) (view : Option Nat)
  | getTextureMetaData (id : Nat)
  | setTexture (pass : TexturePass) (id : Nat)
  | deleteTexture (id : Nat)
  | updateMip (id : Nat) (mipNum : Int)
  | flush
  | PrecacheTexture (env : TexEnv) (Info : FTextureInfo) (PolyFlags : Nat)
  | newFrame
  | clear (clearColor : Vec4)
  | present
  deriving DecidableEq, Repr

/-- The state after an operation. -/
def Op.run (cfg : BuildConfig) : Op → D3DState → D3DState
  | .map discard, s => D3D12Drv.map discard s
  | .render, s => D3D12Drv.render s
  | .commit, s => D3D12Drv.commit s
  | .indexTriangleFan num, s => D3D12Drv.indexTriangleFan num s
  | .indexQuad, s => D3D12Drv.indexQuad s
  | .getVertex, s => (D3D12Drv.getVertex s).2
  | .clearDepth, s => D3D12Drv.clearDepth s
  | .setViewPort X Y left top, s => D3D12Drv.setViewPort X Y left top s
  | .setProjection aspect XoverZ, s => D3D12Drv.setProjection aspect XoverZ s
  | .setProjectionMode mode, s => D3D12Drv.setProjectionMode mode s
  | .setFlags flags D3DFlags, s => D3D12Drv.setFlags cfg flags D3DFlags s
  | .flash enable color, s => D3D12Drv.flash enable color s
  | .fog dist color, s => D3D12Drv.fog dist color s
  | .cacheTexture id metadata view, s => D3D12Drv.cacheTexture id metadata view s
  | .getTextureMetaData id, s => (D3D12Drv.getTextureMetaData id s).2
  | .setTexture pass id, s => (D3D12Drv.setTexture pass id s).2
  | .deleteTexture id, s => D3D12Drv.deleteTexture id s
  | .updateMip id mipNum, s => D3D12Drv.updateMip id mipNum s
  | .flush, s => D3D12Drv.flush s
  | .PrecacheTexture env Info PolyFlags, s => (D3D12Drv.PrecacheTexture cfg env Info PolyFlags s).2
  | .newFrame, s => D3D12Drv.newFrame s
  | .clear clearColor, s => D3D12Drv.clear clearColor s
  | .present, s => D3D12Drv.present s

/-- What the callers of a run guarantee: fans have at least three points (as in
`DrawComplexSurface` and `DrawGouraudPolygon`, which skip `NumPts < 3`; `DrawFogSurface` of
the Rune build hands `Poly->NumPts` on unchecked, and runs with such a fan of fewer than
three points are not among the runs), indices and vertices are written through a mapped
pointer, and `updateMip` is given a cached texture. -/
def Op.ok : Op → D3DState → Bool
  | .indexTriangleFan num, s =>
    decide (3 ≤ num) && (s.mapped || decide (addSigned s.numIndices ((num - 2) * 3) > I_BUFFER_SIZE))
  | .indexQuad, s => s.mapped || decide (addSigned s.numIndices 6 > I_BUFFER_SIZE)
  | .getVertex, s => s.mapped
  | .updateMip id _, s => textureIsCached id s
  | _, _ => true

/-- The states the renderer passes through, from program start. -/
inductive Reachable (cfg : BuildConfig) : D3DState → Prop where
  | initial : Reachable cfg D3DState.initial
  | step (op : Op) (s : D3DState) : Reachable cfg s → op.ok s = true →
      Reachable cfg (op.run cfg s)

/-- The state after a list of operations, first operation first. -/
def runOps (cfg : BuildConfig) (ops : List Op) (s : D3DState) : D3DState :=
  ops.foldl (fun st op => op.run cfg st) s

/-- A fan the index buffer can hold: at least three points, `3*(n-2)` indices within
`I_BUFFER_SIZE`.  Every other operation counts as fitting. -/
def Op.fits : Op → Bool
  | .indexTriangleFan num => decide (3 ≤ num) && decide (3 * (num - 2).toNat ≤ I_BUFFER_SIZE)
  | _ => true

/-- Buffers mapped and empty at program start: `map(true)` alone.  The cursors and the
mapping are the ones `Lock` leaves; the calls `Lock` makes before it maps are in
`frameStart`. -/
def lockedState : D3DState := map true D3DState.initial

/-- The relation between the cursors that `render` tests for (`numIndices<numUndrawnIndices`
is its "Buffer error"), together with: nothing is pending while the buffers are unmapped. -/
def BufferInv (s : D3DState) : Prop :=
  s.numUndrawnIndices ≤ s.numIndices ∧ (s.mapped = false → s.numUndrawnIndices = 0)

/-- The calls of one `render` that draws: unmap, bind the geometry pass if it is not the
current one, apply, draw the undrawn range. -/
def drawCalls (s : D3DState) : List GpuCall :=
  [.Unmap .vertexBuffer, .Unmap .indexBuffer] ++
  (if (0 : Int) ≠ s.currIndex then [.BindGeometryPass] else []) ++
  [.Apply 0, .DrawIndexed s.numUndrawnIndices (s.numIndices - s.numUndrawnIndices) 0]

/-- The calls of one `map`. -/
def mapCalls (clear : Bool) : List GpuCall :=
  [.Map .vertexBuffer clear, .Map .indexBuffer clear]

/-- Two states agree on the mapping flag, the cursors and the index buffer. -/
def SameCursors (a b : D3DState) : Prop :=
  a.mapped = b.mapped ∧ a.numVerts = b.numVerts ∧ a.numIndices = b.numIndices ∧
  a.numUndrawnIndices = b.numUndrawnIndices ∧ a.iBuf = b.iBuf

/-- The number of draws in a trace. -/
def countDraws (t : List GpuCall) : Nat := t.countP GpuCall.isDraw

/-- The index call that took `s` to `r` flushed before admitting its `required` indices:
when the flush step `render(); map(true);` is over, the trace has grown by one draw of the
old undrawn range followed by a discarding map, and no index has been stored yet; the
result differs from there by index stores only, with both index counters equal to
`required`, the vertex cursor at zero and the first new index, at position `0`, equal
to `0`. -/
def FlushedFirst (s r : D3DState) (required : Nat) : Prop :=
  (map true (render s)).trace = s.trace ++ drawCalls s ++ mapCalls true ∧
  (map true (render s)).iBuf = s.iBuf ∧
  r.trace = (map true (render s)).trace ∧
  countDraws r.trace = countDraws s.trace + 1 ∧
  r.mapped = true ∧ r.numVerts = 0 ∧ r.numIndices = required ∧
  r.numUndrawnIndices = required ∧ r.iBuf 0 = 0

/-- The index call that took `s` to `r` appended its `required` indices without a flush:
no call to the graphics API, the indices buffered before and the vertex cursor are kept, and
both index counters grow by `required`, the first new index being the vertex cursor. -/
def AppendedOnly (s r : D3DState) (required : Nat) : Prop :=
  r.trace = s.trace ∧ r.mapped = s.mapped ∧ r.numVerts = s.numVerts ∧
  r.numIndices = s.numIndices + required ∧
  r.numUndrawnIndices = s.numUndrawnIndices + required ∧
  (∀ p, p < s.numIndices → r.iBuf p = s.iBuf p) ∧ r.iBuf s.numIndices = s.numVerts

/-- The setter call that took `s` to `r` drew the pending geometry of `s` before writing
state: the trace has grown by the calls of one drawing `render`, the calls of `map(false)`,
and only then the state writes `writes`; nothing is left undrawn. -/
def DrewBeforeWriting (s r : D3DState) (writes : List GpuCall) : Prop :=
  r.trace = s.trace ++ drawCalls s ++ mapCalls false ++ writes ∧
  (∀ c, c ∈ writes → c.isStateWrite = true ∧ c.isDraw = false) ∧
  r.numUndrawnIndices = 0

/-- One quad pending on the mapped, empty buffers of `lockedState`. -/
def quadPending : D3DState := indexQuad lockedState

/-- A metadata value for the examples. -/
def sampleMetaData : TextureMetaData := { multU := .num 2, multV := .num 3, masked := false }

/-- A colour for the examples. -/
def sampleColor : Vec4 := { x := .num 1, y := .num 0, z := .num 0, w := .num 1 }

/-- A run for the examples: texture `7` is cached (view handle `100`) and bound to the
diffuse pass, then the key `9`, which is not cached, is bound to the same pass. -/
def boundThenMissing : D3DState :=
  (setTexture .PASS_DIFFUSE 9
    (setTexture .PASS_DIFFUSE 7 (cacheTexture 7 sampleMetaData (some 100) lockedState)).2).2

/-- Two states agree on the texture pass table and on the pointer cache of `setTexture`. -/
def SameBindings (a b : D3DState) : Prop :=
  a.boundTextureID = b.boundTextureID ∧ a.enabled = b.enabled ∧ a.metadata = b.metadata

/-- A pass without a bound key is disabled. -/
def PassInv (s : D3DState) : Prop :=
  ∀ p : TexturePass, s.boundTextureID p = 0 → s.enabled p = false

/-- The mapped, empty buffers of `lockedState` with texture `7` cached (view handle `100`,
not masked). -/
def oneCached : D3DState := cacheTexture 7 sampleMetaData (some 100) lockedState

/-- A palette of 256 entries for the examples: entry `i` is the word `1000 + i`. -/
def samplePalette : List Nat := (List.range 256).map (fun i => 1000 + i)

/-- A static paletted texture of 2 by 2 pixels with the cache key `7`, for the examples. -/
def sampleTexture : FTextureInfo where
  CacheID := 7
  Format := TEXF_P8
  USize := 2
  VSize := 2
  UClamp := 2
  VClamp := 2
  UScale := .num 1
  VScale := .num 1
  NumMips := 1
  Mips := [{ USize := 2, VSize := 2, DataPtr := [0, 1, 2, 0] }]
  Palette := samplePalette
  bRealtimeChanged := false
  bRealtime := false
  bParametric := false

/-- A paletted texture of 4 by 4 pixels whose clamp rectangle is 4 by 2, for the examples. -/
def clampedTexture : FTextureInfo where
  CacheID := 8
  Format := TEXF_P8
  USize := 4
  VSize := 4
  UClamp := 4
  VClamp := 2
  UScale := .num 1
  VScale := .num 1
  NumMips := 1
  Mips := [{ USize := 4, VSize := 4, DataPtr := [0, 1, 2, 3, 0, 1, 2, 3, 0, 1, 2, 3, 0, 1, 2, 3] }]
  Palette := samplePalette
  bRealtimeChanged := false
  bRealtime := false
  bParametric := false

/-- The descriptor `a` is the descriptor `b` up to the palette. -/
def SameButPalette (a b : FTextureInfo) : Prop := a = { b with Palette := a.Palette }

/-- Resource creation succeeds: texture handle `50`, view handle `100`. -/
def sampleEnv : TexEnv := { multU := .num 2, multV := .num 3, texture := some 50, view := some 100 }

/-- `CreateTexture2D` fails. -/
def failingEnv : TexEnv := { multU := .num 2, multV := .num 3, texture := none, view := none }

/-- The number of `CreateTexture2D` calls in a trace. -/
def countCreates (t : List GpuCall) : Nat :=
  t.countP (fun c => match c with
    | .CreateTexture2D _ => true
    | _ => false)

/-- What the draw functions hand to the buffers in one go, or another operation in
between: `indexTriangleFan(NumPts)` followed by `NumPts` calls of `getVertex` (as in
`DrawGouraudPolygon` and `DrawComplexSurface`), `indexQuad()` followed by four calls of
`getVertex` (as in `DrawTile`), or an operation that is none of the three. -/
inductive Submission where
  | fan (NumPts : Int)
  | quad
  | other (op : Op)
  deriving DecidableEq, Repr

/-- The state after a submission. -/
def Submission.run (cfg : BuildConfig) : Submission → D3DState → D3DState
  | .fan NumPts, s => getVertices NumPts.toNat (indexTriangleFan NumPts s)
  | .quad, s => getVertices 4 (indexQuad s)
  | .other op, s => op.run cfg s

/-- Is the operation one of `indexTriangleFan`, `indexQuad` and `getVertex`? -/
def Op.isGeometry : Op → Bool
  | .indexTriangleFan _ => true
  | .indexQuad => true
  | .getVertex => true
  | _ => false

/-- A fan of at least three points whose `3*(n-2)` indices fit `I_BUFFER_SIZE`, a quad, or
an operation in between that is not an index or vertex call by itself. -/
def Submission.ok : Submission → Bool
  | .fan NumPts => decide (3 ≤ NumPts) && decide (3 * (NumPts - 2).toNat ≤ I_BUFFER_SIZE)
  | .quad => true
  | .other op => !op.isGeometry

/-- The state after a list of submissions, first one first. -/
def runSubmissions (cfg : BuildConfig) (l : List Submission) (s : D3DState) : D3DState :=
  l.foldl (fun st b => b.run cfg st) s

/-- The vertex cursor is within the index cursor, the index cursor within the vertex
buffer, and every buffered index names a vertex slot below the vertex cursor. -/
def VertexInv (s : D3DState) : Prop :=
  s.numVerts ≤ s.numIndices ∧ s.numIndices ≤ V_BUFFER_SIZE ∧
  ∀ p : Nat, p < s.numIndices → s.iBuf p < s.numVerts

/-- Fans have at least three points; every other operation passes. -/
def Op.fanValid : Op → Bool
  | .indexTriangleFan num => decide (3 ≤ num)
  | _ => true

/-- Is the call a blend state write or the "Buffer error" log line? -/
def GpuCall.isSignal : GpuCall → Bool
  | .OMSetBlendState _ => true
  | .LogBufferError => true
  | _ => false

/-- The blend state writes and "Buffer error" lines of a trace, in order. -/
def signals (t : List GpuCall) : List GpuCall := t.filter GpuCall.isSignal

/-- The blend state in force after a trace: the one of the last `OMSetBlendState`, and
`start` when there is none. -/
def blendAfter (start : BlendState) (t : List GpuCall) : BlendState :=
  t.foldl (fun b c => match c with
    | .OMSetBlendState x => x
    | _ => b) start

/-- The blend state applied after a trace, taking the state applied at program start
as `bstate_NoBlend`. -/
def appliedBlend (t : List GpuCall) : BlendState := blendAfter .bstate_NoBlend t

/-- The operation leaves the flag cache of `setFlags` alone and adds neither a blend state
write nor a "Buffer error" line to the trace. -/
def Calm (s r : D3DState) : Prop :=
  r.currFlags = s.currFlags ∧ signals r.trace = signals s.trace

/-- The calls of `flash`. -/
def flashCalls (enable : Bool) (color : Vec4) : List GpuCall :=
  if enable then [.SetFlashEnable true, .SetFlashColor color] else [.SetFlashEnable false]

/-- The Rune build with the flag bits of `unrealBuild`. -/
def runeBuild : BuildConfig := { unrealBuild with rune := true }

/-- The Deus Ex build with the flag bits of `unrealBuild`. -/
def deusexBuild : BuildConfig := { unrealBuild with deusex := true }

/-- A scene for the examples. -/
def sampleFrame : FSceneNode := { X := 640, Y := 480, XB := 0, YB := 0, aspect := .num 3 }

/-- A texture of the unsupported format `TEXF_RGB16` with the cache key `9`. -/
def unsupportedTexture : FTextureInfo := { sampleTexture with CacheID := 9, Format := TEXF_RGB16 }

/-- A compressed texture of 8 by 8 pixels whose clamp rectangle is 6 by 6. -/
def dxt1Texture : FTextureInfo :=
  { sampleTexture with Format := TEXF_DXT1, USize := 8, VSize := 8, UClamp := 6, VClamp := 6,
                       Mips := [{ USize := 8, VSize := 8, DataPtr := List.replicate 32 0 }] }

/-- A compressed texture of 5 by 5 pixels, clamp rectangle included. -/
def oddDxt1Texture : FTextureInfo :=
  { sampleTexture with Format := TEXF_DXT1, USize := 5, VSize := 5, UClamp := 5, VClamp := 5,
                       Mips := [{ USize := 5, VSize := 5, DataPtr := List.replicate 32 0 }] }

/-- Resource creation succeeds a second time: texture handle `51`, view handle `101`. -/
def secondEnv : TexEnv := { multU := .num 2, multV := .num 3, texture := some 51, view := some 101 }

/-- Texture `7` cached unmasked and bound to the diffuse pass. -/
def boundUnmasked : D3DState := (setTexture .PASS_DIFFUSE 7 oneCached).2

/-- Texture `7` bound to the diffuse pass and then cached again as masked. -/
def recachedWhileBound : D3DState :=
  (PrecacheTexture unrealBuild secondEnv sampleTexture unrealBuild.PF_Masked boundUnmasked).2

/-- No sample count is supported: every `CheckFeatureSupport` reports zero quality levels. -/
def noSupport : Nat → Option Nat := fun _ => some 0

/-- Sample counts 1, 2 and 4 are supported with one quality level, no other. -/
def upToFour : Nat → Option Nat := fun c => some (if c = 1 ∨ c = 2 ∨ c = 4 then 1 else 0)

/-- The state the first `Lock` of the program leaves: no flash, `sampleColor` as the
clear colour. -/
def frameStart : D3DState :=
  (Lock false sampleColor sampleColor { d3d := D3DState.initial, drawingWeapon := false }).d3d

/-- One quad pending in the first frame. -/
def frameQuad : D3DState := indexQuad frameStart

/-- The first frame with the buffer eight indices short of full: one fan of 6666 points. -/
def frameNearlyFull : D3DState := indexTriangleFan 6666 frameStart

/-- In the first frame texture `7` is cached (view handle `100`) and bound to the diffuse
pass, then the key `9`, which is not cached, is bound to the same pass. -/
def frameBoundThenMissing : D3DState :=
  (setTexture .PASS_DIFFUSE 9
    (setTexture .PASS_DIFFUSE 7 (cacheTexture 7 sampleMetaData (some 100) frameStart)).2).2

/-- In the first frame texture `7` is cached and bound to the diffuse pass, with one quad
pending. -/
def frameBoundAndPending : D3DState :=
  indexQuad (setTexture .PASS_DIFFUSE 7 (cacheTexture 7 sampleMetaData (some 100) frameStart)).2

/-- The first frame with one tile of the sample texture drawn: `Lock`, then `DrawTile`. -/
def tileDrawn : D3DState :=
  (DrawTile unrealBuild sampleEnv sampleFrame (.num 1) sampleTexture 0 frameStart).2

/-! ## Lemmas on the index stores -/

theorem addSigned_natCast (a b : Nat) : addSigned a (b : Int) = a + b := by
  unfold addSigned
  have h : (0 : Int) ≤ (a : Int) + (b : Int) := by omega
  rw [if_pos h]
  omega

theorem fan_newIndices (n : Int) (hn : 3 ≤ n) : (n - 2) * 3 = ((3 * (n - 2).toNat : Nat) : Int) := by
  have h : ((n - 2).toNat : Int) = n - 2 := Int.toNat_of_nonneg (by omega)
  push_cast
  omega

/-- The loop of `indexTriangleFan` moves the index cursor by three per round and touches
nothing but the index buffer. -/
theorem fanLoop_frame (k : Nat) : ∀ (i0 : Nat) (s : D3DState),
    ∃ buf, (List.range' i0 k).foldl fanStep s =
      { s with iBuf := buf, numIndices := s.numIndices + 3 * k } := by
  induction k with
  | zero => intro i0 s; exact ⟨s.iBuf, rfl⟩
  | succ k ih =>
    intro i0 s
    obtain ⟨buf, h⟩ := ih (i0 + 1) (fanStep s i0)
    refine ⟨buf, ?_⟩
    rw [List.range'_succ, List.foldl_cons, h]
    simp only [fanStep, storeIndex]
    congr 1
    omega

/-- The contents of the index buffer after the loop of `indexTriangleFan`. -/
theorem fanLoop_iBuf (k : Nat) : ∀ (i0 : Nat) (s : D3DState),
    (∀ j, j < k →
      ((List.range' i0 k).foldl fanStep s).iBuf (s.numIndices + 3 * j) = s.numVerts ∧
      ((List.range' i0 k).foldl fanStep s).iBuf (s.numIndices + 3 * j + 1)
        = s.numVerts + (i0 + j) ∧
      ((List.range' i0 k).foldl fanStep s).iBuf (s.numIndices + 3 * j + 2)
        = s.numVerts + (i0 + j) + 1) ∧
    (∀ p, p < s.numIndices ∨ s.numIndices + 3 * k ≤ p →
      ((List.range' i0 k).foldl fanStep s).iBuf p = s.iBuf p) := by
  induction k with
  | zero =>
    intro i0 s
    exact ⟨fun j hj => absurd hj (Nat.not_lt_zero j), fun p _ => rfl⟩
  | succ k ih =>
    intro i0 s
    obtain ⟨ih1, ih2⟩ := ih (i0 + 1) (fanStep s i0)
    have hni : (fanStep s i0).numIndices = s.numIndices + 3 := by
      simp [fanStep, storeIndex]
    have hnv : (fanStep s i0).numVerts = s.numVerts := by
      simp [fanStep, storeIndex]
    have hb0 : (fanStep s i0).iBuf s.numIndices = s.numVerts := by
      simp only [fanStep, storeIndex, Function.update_apply]
      split_ifs <;> omega
    have hb1 : (fanStep s i0).iBuf (s.numIndices + 1) = s.numVerts + i0 := by
      simp only [fanStep, storeIndex, Function.update_apply]
      split_ifs <;> omega
    have hb2 : (fanStep s i0).iBuf (s.numIndices + 2) = s.numVerts + i0 + 1 := by
      simp only [fanStep, storeIndex, Function.update_apply]
      split_ifs <;> rfl
    have hbo : ∀ p, p < s.numIndices ∨ s.numIndices + 3 ≤ p →
        (fanStep s i0).iBuf p = s.iBuf p := by
      intro p hp
      simp only [fanStep, storeIndex, Function.update_apply]
      split_ifs <;> omega
    rw [List.range'_succ, List.foldl_cons]
    rw [hni, hnv] at ih1
    rw [hni] at ih2
    constructor
    · intro j hj
      cases j with
      | zero =>
        refine ⟨?_, ?_, ?_⟩
        · rw [Nat.mul_zero, Nat.add_zero, ih2 _ (Or.inl (by omega))]; exact hb0
        · rw [Nat.mul_zero, Nat.add_zero, ih2 _ (Or.inl (by omega))]; simpa using hb1
        · rw [Nat.mul_zero, Nat.add_zero, ih2 _ (Or.inl (by omega))]; simpa using hb2
      | succ j =>
        obtain ⟨a, b, c⟩ := ih1 j (by omega)
        have e : s.numIndices + 3 * (j + 1) = s.numIndices + 3 + 3 * j := by omega
        have e2 : i0 + (j + 1) = i0 + 1 + j := by omega
        rw [e, e2]
        exact ⟨a, b, c⟩
    · intro p hp
      rw [ih2 p (by omega)]
      exact hbo p (by omega)

/-- After `render(); map(true);` the cursors are zero and the buffers are mapped. -/
theorem restart_cursors (s : D3DState) :
    (map true (render s)).numVerts = 0 ∧ (map true (render s)).numIndices = 0 ∧
    (map true (render s)).numUndrawnIndices = 0 ∧ (map true (render s)).mapped = true ∧
    (map true (render s)).iBuf = s.iBuf := by
  cases hm : s.mapped
  · have hr : render s = s := by simp [render, hm]
    rw [hr]
    simp [map, hm]
  · by_cases hlt : s.numIndices < s.numUndrawnIndices
    · simp [render, map, hm, hlt]
    · by_cases hc : (0 : Int) = s.currIndex
      · simp [render, map, hm, hlt, switchToPass, D3DState.emit, hc]
      · simp [render, map, hm, hlt, switchToPass, D3DState.emit, hc]

/-- The result of `indexTriangleFan` for a fan of at least three points, in terms of the
state `s1` the indices are generated in. -/
theorem indexTriangleFan_frame (s : D3DState) (n : Int) (hn : 3 ≤ n) :
    ∃ buf, indexTriangleFan n s =
      { (if I_BUFFER_SIZE < s.numIndices + 3 * (n - 2).toNat then map true (render s) else s) with
        iBuf := buf
        numIndices := (if I_BUFFER_SIZE < s.numIndices + 3 * (n - 2).toNat
          then map true (render s) else s).numIndices + 3 * (n - 2).toNat
        numUndrawnIndices := (if I_BUFFER_SIZE < s.numIndices + 3 * (n - 2).toNat
          then map true (render s) else s).numUndrawnIndices + 3 * (n - 2).toNat } := by
  unfold indexTriangleFan
  simp only [fan_newIndices n hn, addSigned_natCast, gt_iff_lt]
  obtain ⟨buf, h⟩ := fanLoop_frame (n - 2).toNat 1
    (if I_BUFFER_SIZE < s.numIndices + 3 * (n - 2).toNat then map true (render s) else s)
  exact ⟨buf, by rw [h]⟩

/-- C1: for every fan size `n ≥ 3` and every state, `indexTriangleFan(n)` moves the index
cursor by exactly `3*(n-2)`, and for `i = 1..n-2` the `i`-th appended triple is
`(b, b+i, b+i+1)`, where `b` is `numVerts` when the indices are generated: `0` (with the
index cursor restarted at `0`) if the call flushed first, the old `numVerts` otherwise.
Indices outside the appended range and the vertex cursor `b` are left as they are. -/
theorem indexTriangleFan_appends_fan (s : D3DState) (n : Int) (hn : 3 ≤ n) :
    ∃ b base : Nat,
      b = (if I_BUFFER_SIZE < s.numIndices + 3 * (n - 2).toNat then 0 else s.numVerts) ∧
      base = (if I_BUFFER_SIZE < s.numIndices + 3 * (n - 2).toNat then 0 else s.numIndices) ∧
      (indexTriangleFan n s).numIndices = base + 3 * (n - 2).toNat ∧
      (indexTriangleFan n s).numVerts = b ∧
      (∀ i : Nat, 1 ≤ i → i ≤ (n - 2).toNat →
        (indexTriangleFan n s).iBuf (base + 3 * (i - 1)) = b ∧
        (indexTriangleFan n s).iBuf (base + 3 * (i - 1) + 1) = b + i ∧
        (indexTriangleFan n s).iBuf (base + 3 * (i - 1) + 2) = b + i + 1) ∧
      (∀ p : Nat, p < base ∨ base + 3 * (n - 2).toNat ≤ p →
        (indexTriangleFan n s).iBuf p = s.iBuf p) := by
  obtain ⟨r0, r1, _, _, r4⟩ := restart_cursors s
  have hb : (if I_BUFFER_SIZE < s.numIndices + 3 * (n - 2).toNat
      then map true (render s) else s).numVerts
      = (if I_BUFFER_SIZE < s.numIndices + 3 * (n - 2).toNat then 0 else s.numVerts) := by
    split_ifs <;> simp [r0]
  have hbase : (if I_BUFFER_SIZE < s.numIndices + 3 * (n - 2).toNat
      then map true (render s) else s).numIndices
      = (if I_BUFFER_SIZE < s.numIndices + 3 * (n - 2).toNat then 0 else s.numIndices) := by
    split_ifs <;> simp [r1]
  have hbuf : (if I_BUFFER_SIZE < s.numIndices + 3 * (n - 2).toNat
      then map true (render s) else s).iBuf = s.iBuf := by
    split_ifs <;> simp [r4]
  obtain ⟨buf, hfr⟩ := fanLoop_frame (n - 2).toNat 1
    (if I_BUFFER_SIZE < s.numIndices + 3 * (n - 2).toNat then map true (render s) else s)
  obtain ⟨h1, h2⟩ := fanLoop_iBuf (n - 2).toNat 1
    (if I_BUFFER_SIZE < s.numIndices + 3 * (n - 2).toNat then map true (render s) else s)
  have hI : (indexTriangleFan n s).iBuf = ((List.range' 1 (n - 2).toNat).foldl fanStep
      (if I_BUFFER_SIZE < s.numIndices + 3 * (n - 2).toNat
        then map true (render s) else s)).iBuf := by
    unfold indexTriangleFan
    simp only [fan_newIndices n hn, addSigned_natCast, gt_iff_lt]
  obtain ⟨buf2, hfr2⟩ := indexTriangleFan_frame s n hn
  refine ⟨_, _, rfl, rfl, ?_, ?_, ?_, ?_⟩
  · rw [hfr2]; simp only []; rw [hbase]
  · rw [hfr2]; simp only []; rw [hb]
  · intro i hi1 hi2
    obtain ⟨a, b, c⟩ := h1 (i - 1) (by omega)
    rw [hb, hbase] at a b c
    rw [hI]
    have e : 1 + (i - 1) = i := by omega
    rw [e] at b c
    exact ⟨a, b, c⟩
  · intro p hp
    rw [hI, h2 p (by rw [hbase]; exact hp), hbuf]

/-- C1, at a five-point fan submitted to the freshly locked buffers. -/
theorem indexTriangleFan_appends_fan_witness :
    (3 : Int) ≤ 5 ∧ (indexTriangleFan 5 lockedState).numIndices = 9 ∧
      (indexTriangleFan 5 lockedState).iBuf 6 = 0 ∧
      (indexTriangleFan 5 lockedState).iBuf 7 = 3 ∧
      (indexTriangleFan 5 lockedState).iBuf 8 = 4 := by
  obtain ⟨b, base, hb, hbase, hn, _, htri, _⟩ :=
    indexTriangleFan_appends_fan lockedState 5 (by decide)
  have e1 : b = 0 := by rw [hb]; decide
  have e2 : base = 0 := by rw [hbase]; decide
  subst e1; subst e2
  obtain ⟨a, b, c⟩ := htri 3 (by decide) (by decide)
  exact ⟨by decide, by simpa using hn, by simpa using a, by simpa using b, by simpa using c⟩

theorem addSigned_six (a : Nat) : addSigned a 6 = a + 6 := addSigned_natCast a 6

/-- The six stores of `indexQuad` and its cursor updates, from the state `s1` the indices
are generated in. -/
theorem quadStores (s1 : D3DState) :
    ∀ r : D3DState, r = { storeIndex s1.numVerts (storeIndex (s1.numVerts + 3)
        (storeIndex (s1.numVerts + 2) (storeIndex (s1.numVerts + 2)
        (storeIndex (s1.numVerts + 1) (storeIndex s1.numVerts s1))))) with
        numUndrawnIndices := addSigned (storeIndex s1.numVerts (storeIndex (s1.numVerts + 3)
        (storeIndex (s1.numVerts + 2) (storeIndex (s1.numVerts + 2)
        (storeIndex (s1.numVerts + 1) (storeIndex s1.numVerts s1)))))).numUndrawnIndices 6 } →
      r = { s1 with iBuf := r.iBuf, numIndices := s1.numIndices + 6,
                    numUndrawnIndices := s1.numUndrawnIndices + 6 } ∧
      r.iBuf s1.numIndices = s1.numVerts ∧
      r.iBuf (s1.numIndices + 1) = s1.numVerts + 1 ∧
      r.iBuf (s1.numIndices + 2) = s1.numVerts + 2 ∧
      r.iBuf (s1.numIndices + 3) = s1.numVerts + 2 ∧
      r.iBuf (s1.numIndices + 4) = s1.numVerts + 3 ∧
      r.iBuf (s1.numIndices + 5) = s1.numVerts ∧
      (∀ p : Nat, p < s1.numIndices ∨ s1.numIndices + 6 ≤ p → r.iBuf p = s1.iBuf p) := by
  intro r hr
  subst hr
  simp only [storeIndex, addSigned_six, Function.update_apply]
  refine ⟨trivial, ?_, ?_, ?_, ?_, ?_, ?_, ?_⟩
  · split_ifs <;> omega
  · split_ifs <;> omega
  · split_ifs <;> omega
  · split_ifs <;> omega
  · split_ifs <;> omega
  · split_ifs <;> omega
  · intro p hp
    split_ifs <;> omega

/-- The result of `indexQuad`, in terms of the state the indices are generated in. -/
theorem indexQuad_frame (s : D3DState) :
    indexQuad s =
      { (if I_BUFFER_SIZE < s.numIndices + 6 then map true (render s) else s) with
        iBuf := (indexQuad s).iBuf
        numIndices := (if I_BUFFER_SIZE < s.numIndices + 6
          then map true (render s) else s).numIndices + 6
        numUndrawnIndices := (if I_BUFFER_SIZE < s.numIndices + 6
          then map true (render s) else s).numUndrawnIndices + 6 } := by
  have h := (quadStores (if I_BUFFER_SIZE < s.numIndices + 6 then map true (render s) else s)
    (indexQuad s) (by simp only [indexQuad, addSigned_six, gt_iff_lt])).1
  exact h

/-- C2: in every state `indexQuad()` appends exactly the six indices
`b, b+1, b+2, b+2, b+3, b`, where `b` is `numVerts` when the indices are generated (`0`
after a flush, the old cursor otherwise), that is the triangles `(0,1,2)` and `(2,3,0)` over
the next four vertex slots; `numIndices` and `numUndrawnIndices` both grow by six from their
values after the flush step, and no other index and no vertex cursor is changed. -/
theorem indexQuad_appends_quad (s : D3DState) :
    ∃ b base u : Nat,
      b = (if I_BUFFER_SIZE < s.numIndices + 6 then 0 else s.numVerts) ∧
      base = (if I_BUFFER_SIZE < s.numIndices + 6 then 0 else s.numIndices) ∧
      u = (if I_BUFFER_SIZE < s.numIndices + 6 then 0 else s.numUndrawnIndices) ∧
      (indexQuad s).numIndices = base + 6 ∧
      (indexQuad s).numUndrawnIndices = u + 6 ∧
      (indexQuad s).numVerts = b ∧
      (indexQuad s).iBuf base = b ∧
      (indexQuad s).iBuf (base + 1) = b + 1 ∧
      (indexQuad s).iBuf (base + 2) = b + 2 ∧
      (indexQuad s).iBuf (base + 3) = b + 2 ∧
      (indexQuad s).iBuf (base + 4) = b + 3 ∧
      (indexQuad s).iBuf (base + 5) = b ∧
      (∀ p : Nat, p < base ∨ base + 6 ≤ p → (indexQuad s).iBuf p = s.iBuf p) := by
  obtain ⟨r0, r1, r2, _, r4⟩ := restart_cursors s
  obtain ⟨h0, h1, h2, h3, h4, h5, h6, h7⟩ :=
    quadStores (if I_BUFFER_SIZE < s.numIndices + 6 then map true (render s) else s)
      (indexQuad s) (by simp only [indexQuad, addSigned_six, gt_iff_lt])
  have hni := congrArg D3DState.numIndices h0
  have hnu := congrArg D3DState.numUndrawnIndices h0
  have hnv := congrArg D3DState.numVerts h0
  simp only [] at hni hnu hnv
  refine ⟨_, _, _, rfl, rfl, rfl, ?_⟩
  by_cases hf : I_BUFFER_SIZE < s.numIndices + 6
  · simp only [if_pos hf, r0, r1, r2, r4] at h1 h2 h3 h4 h5 h6 h7 hni hnu hnv ⊢
    exact ⟨hni, hnu, hnv, h1, h2, h3, h4, h5, h6, h7⟩
  · simp only [if_neg hf] at h1 h2 h3 h4 h5 h6 h7 hni hnu hnv ⊢
    exact ⟨hni, hnu, hnv, h1, h2, h3, h4, h5, h6, h7⟩

/-! ## `render`, `map`, `commit` -/

theorem countDraws_append (a b : List GpuCall) :
    countDraws (a ++ b) = countDraws a + countDraws b := by
  simp [countDraws, List.countP_append]

theorem countDraws_drawCalls (s : D3DState) : countDraws (drawCalls s) = 1 := by
  unfold countDraws drawCalls
  split_ifs <;> simp [List.countP_cons, GpuCall.isDraw]

theorem countDraws_mapCalls (clear : Bool) : countDraws (mapCalls clear) = 0 := by
  simp [countDraws, mapCalls, List.countP_cons, GpuCall.isDraw]

/-- `render` on mapped buffers with consistent cursors: one draw of the undrawn range. -/
theorem render_draws (s : D3DState) (hm : s.mapped = true)
    (hu : s.numUndrawnIndices ≤ s.numIndices) :
    render s = { s with mapped := false, numUndrawnIndices := 0, currIndex := 0
                        trace := s.trace ++ drawCalls s } := by
  have hlt : ¬ s.numIndices < s.numUndrawnIndices := by omega
  by_cases hc : (0 : Int) = s.currIndex
  · have hc2 : s.currIndex = 0 := hc.symm
    simp [render, hm, hlt, switchToPass, D3DState.emit, drawCalls, hc2]
  · simp [render, hm, hlt, switchToPass, D3DState.emit, drawCalls, hc]

/-- `render(); map(true);` on mapped buffers with consistent cursors. -/
theorem restart_draws (s : D3DState) (hm : s.mapped = true)
    (hu : s.numUndrawnIndices ≤ s.numIndices) :
    map true (render s) = { s with numVerts := 0, numIndices := 0, numUndrawnIndices := 0
                                   currIndex := 0
                                   trace := s.trace ++ drawCalls s ++ mapCalls true } := by
  rw [render_draws s hm hu]
  simp [map, mapCalls, hm]

/-- `commit` with nothing pending does nothing. -/
theorem commit_idle (s : D3DState) (h : s.numUndrawnIndices = 0) : commit s = s := by
  simp [commit, h]

/-- `commit` with pending indices on mapped buffers: one draw of the undrawn range, then the
buffers are mapped again for appending. -/
theorem commit_pending (s : D3DState) (hm : s.mapped = true)
    (hu : s.numUndrawnIndices ≤ s.numIndices) (hpos : 0 < s.numUndrawnIndices) :
    commit s = { s with numUndrawnIndices := 0, currIndex := 0
                        trace := s.trace ++ drawCalls s ++ mapCalls false } := by
  unfold commit
  rw [if_pos hpos, render_draws s hm hu]
  simp [map, mapCalls, hm]

theorem SameCursors.refl (s : D3DState) : SameCursors s s := ⟨rfl, rfl, rfl, rfl, rfl⟩

theorem SameCursors.trans {a b c : D3DState} (h1 : SameCursors a b) (h2 : SameCursors b c) :
    SameCursors a c :=
  ⟨h1.1.trans h2.1, h1.2.1.trans h2.2.1, h1.2.2.1.trans h2.2.2.1,
    h1.2.2.2.1.trans h2.2.2.2.1, h1.2.2.2.2.trans h2.2.2.2.2⟩

theorem BufferInv.of_sameCursors {a b : D3DState} (h : SameCursors a b) (hb : BufferInv b) :
    BufferInv a := by
  obtain ⟨h1, _, h3, h4, _⟩ := h
  unfold BufferInv at *
  rw [h1, h3, h4]
  exact hb

/-- What `commit` does to the cursors depends on the cursors only. -/
theorem commit_sameCursors {a b : D3DState} (h : SameCursors a b) :
    SameCursors (commit a) (commit b) := by
  obtain ⟨h1, h2, h3, h4, h5⟩ := h
  unfold SameCursors commit render map switchToPass D3DState.emit
  rw [h1, h3, h4]
  cases hm : b.mapped <;> simp <;> split_ifs <;> simp_all

/-- `commit` keeps the cursor invariant. -/
theorem commit_inv (s : D3DState) (h : BufferInv s) : BufferInv (commit s) := by
  by_cases hpos : 0 < s.numUndrawnIndices
  · have hm : s.mapped = true := by
      cases hm : s.mapped
      · have := h.2 hm; omega
      · rfl
    rw [commit_pending s hm h.1 hpos]
    exact ⟨Nat.zero_le _, fun _ => rfl⟩
  · rw [commit_idle s (by omega)]
    exact h

/-- `commit` leaves the vertex cursor, the index cursor and the index buffer alone. -/
theorem commit_keeps (s : D3DState) :
    (commit s).numVerts = s.numVerts ∧ (commit s).numIndices = s.numIndices ∧
    (commit s).iBuf = s.iBuf := by
  unfold commit render map switchToPass D3DState.emit
  cases hm : s.mapped <;> simp <;> split_ifs <;> simp_all

/-! ## The cursor invariant along every run -/

theorem BufferInv.of_cursors {r s : D3DState}
    (h : SameCursors r s ∨ SameCursors r (commit s)) (hi : BufferInv s) : BufferInv r := by
  rcases h with h | h
  · exact BufferInv.of_sameCursors h hi
  · exact BufferInv.of_sameCursors h (commit_inv s hi)

theorem map_inv (clear : Bool) (s : D3DState) (h : BufferInv s) : BufferInv (map clear s) := by
  cases hm : s.mapped
  · cases clear
    · simp only [map, hm, BufferInv]
      exact ⟨h.1, fun hf => by simp at hf⟩
    · simp only [map, hm, BufferInv]
      exact ⟨Nat.le_refl _, fun hf => by simp at hf⟩
  · simp only [map, hm, if_true]
    exact h

theorem render_inv (s : D3DState) (h : BufferInv s) : BufferInv (render s) := by
  cases hm : s.mapped
  · have hr : render s = s := by simp [render, hm]
    rw [hr]; exact h
  · rw [render_draws s hm h.1]
    exact ⟨Nat.zero_le _, fun _ => rfl⟩

theorem clearDepth_cursors (s : D3DState) : SameCursors (clearDepth s) (commit s) :=
  ⟨rfl, rfl, rfl, rfl, rfl⟩

theorem setViewPort_cursors (X Y left top : Int) (s : D3DState) :
    SameCursors (setViewPort X Y left top s) s ∨
    SameCursors (setViewPort X Y left top s) (commit s) := by
  unfold setViewPort
  split_ifs
  · right; exact ⟨rfl, rfl, rfl, rfl, rfl⟩
  · left; exact ⟨rfl, rfl, rfl, rfl, rfl⟩

theorem setProjection_cursors (aspect XoverZ : FloatVal) (s : D3DState) :
    SameCursors (setProjection aspect XoverZ s) s ∨
    SameCursors (setProjection aspect XoverZ s) (commit s) := by
  unfold setProjection
  split_ifs
  · right; exact ⟨rfl, rfl, rfl, rfl, rfl⟩
  · left; exact ⟨rfl, rfl, rfl, rfl, rfl⟩

theorem setProjectionMode_cursors (mode : ProjectionMode) (s : D3DState) :
    SameCursors (setProjectionMode mode s) s ∨
    SameCursors (setProjectionMode mode s) (commit s) := by
  unfold setProjectionMode
  split_ifs
  · right; exact ⟨rfl, rfl, rfl, rfl, rfl⟩
  · left; exact ⟨rfl, rfl, rfl, rfl, rfl⟩

theorem setFlags_cursors (cfg : BuildConfig) (flags D3DFlags : Nat) (s : D3DState) :
    SameCursors (setFlags cfg flags D3DFlags s) s ∨
    SameCursors (setFlags cfg flags D3DFlags s) (commit s) := by
  unfold setFlags
  simp only []
  split_ifs
  all_goals first
    | (right; exact ⟨rfl, rfl, rfl, rfl, rfl⟩)
    | (left; exact ⟨rfl, rfl, rfl, rfl, rfl⟩)

theorem flash_cursors (enable : Bool) (color : Vec4) (s : D3DState) :
    SameCursors (flash enable color s) s := by
  unfold flash
  cases enable <;> exact ⟨rfl, rfl, rfl, rfl, rfl⟩

theorem fog_cursors (dist : FloatVal) (color : Option Vec4) (s : D3DState) :
    SameCursors (fog dist color s) (commit s) := by
  unfold fog
  simp only []
  split_ifs <;> exact ⟨rfl, rfl, rfl, rfl, rfl⟩

theorem cacheIndex_cursors (id : Nat) (s : D3DState) : SameCursors (cacheIndex id s).2 s := by
  unfold cacheIndex
  cases h : s.textureCache id <;> exact ⟨rfl, rfl, rfl, rfl, rfl⟩

theorem cacheTexture_cursors (id : Nat) (metadata : TextureMetaData) (view : Option Nat)
    (s : D3DState) : SameCursors (cacheTexture id metadata view s) s := by
  cases view with
  | none => exact ⟨rfl, rfl, rfl, rfl, rfl⟩
  | some r =>
    have h := cacheIndex_cursors id s
    unfold cacheTexture
    exact ⟨h.1, h.2.1, h.2.2.1, h.2.2.2.1, h.2.2.2.2⟩

theorem deleteTexture_cursors (id : Nat) (s : D3DState) :
    SameCursors (deleteTexture id s) s := by
  unfold deleteTexture
  cases h : s.textureCache id with
  | none => exact ⟨rfl, rfl, rfl, rfl, rfl⟩
  | some n =>
    simp only []
    split_ifs <;> exact ⟨rfl, rfl, rfl, rfl, rfl⟩

theorem setTexture_cursors (pass : TexturePass) (id : Nat) (s : D3DState) :
    SameCursors (setTexture pass id s).2 s ∨ SameCursors (setTexture pass id s).2 (commit s) := by
  have hc : SameCursors (commit { s with boundTextureID := Function.update s.boundTextureID pass id })
      (commit s) := commit_sameCursors ⟨rfl, rfl, rfl, rfl, rfl⟩
  unfold setTexture
  by_cases h1 : id ≠ s.boundTextureID pass
  · right
    rw [if_pos h1]
    simp only []
    by_cases h2 : id = 0
    · rw [if_pos h2]
      exact SameCursors.trans ⟨rfl, rfl, rfl, rfl, rfl⟩ hc
    · rw [if_neg h2]
      cases h3 : (commit { s with
          boundTextureID := Function.update s.boundTextureID pass id }).textureCache id with
      | none => exact hc
      | some tex =>
        simp only []
        split_ifs <;> exact SameCursors.trans ⟨rfl, rfl, rfl, rfl, rfl⟩ hc
  · left
    rw [if_neg h1]
    exact SameCursors.refl s

theorem updateMip_cursors (id : Nat) (mipNum : Int) (s : D3DState) :
    SameCursors (updateMip id mipNum s) s ∨ SameCursors (updateMip id mipNum s) (commit s) := by
  unfold updateMip
  simp only []
  split_ifs
  · right
    exact SameCursors.trans ⟨rfl, rfl, rfl, rfl, rfl⟩ (cacheIndex_cursors id (commit s))
  · left
    exact SameCursors.trans ⟨rfl, rfl, rfl, rfl, rfl⟩ (cacheIndex_cursors id s)

theorem createTexture_cursors (desc : Texture2DDesc) (result : Option Nat) (s : D3DState) :
    SameCursors (createTexture desc result s).2 s := by
  cases result <;> exact ⟨rfl, rfl, rfl, rfl, rfl⟩

theorem convertAndCache_cursors (cfg : BuildConfig) (env : TexEnv) (Info : FTextureInfo)
    (PolyFlags : Nat) (s : D3DState) :
    SameCursors (convertAndCache cfg env Info PolyFlags s).2 s := by
  unfold convertAndCache
  split_ifs
  · exact ⟨rfl, rfl, rfl, rfl, rfl⟩
  · exact ⟨rfl, rfl, rfl, rfl, rfl⟩
  · simp only []
    have hc := createTexture_cursors
      (textureDesc (convertMips cfg Info (formatOf Info.Format) PolyFlags).1
        (formatOf Info.Format)) env.texture s
    cases h : (createTexture (textureDesc (convertMips cfg Info (formatOf Info.Format)
        PolyFlags).1 (formatOf Info.Format)) env.texture s).1 with
    | none => exact hc
    | some texture =>
      simp only []
      exact SameCursors.trans (SameCursors.trans ⟨rfl, rfl, rfl, rfl, rfl⟩
        (cacheTexture_cursors _ _ _ _)) hc

theorem update_cursors (cfg : BuildConfig) (Info : FTextureInfo) (PolyFlags : Nat)
    (s : D3DState) :
    SameCursors (update cfg Info PolyFlags s).2 s ∨
    SameCursors (update cfg Info PolyFlags s).2 (commit s) := by
  unfold update
  exact updateMip_cursors _ _ s

theorem readTextureMetaData_cursors (id : Nat) (s : D3DState) :
    SameCursors (readTextureMetaData id s).2 s := cacheIndex_cursors id s

theorem PrecacheTexture_cursors (cfg : BuildConfig) (env : TexEnv) (Info : FTextureInfo)
    (PolyFlags : Nat) (s : D3DState) :
    SameCursors (PrecacheTexture cfg env Info PolyFlags s).2 s ∨
    SameCursors (PrecacheTexture cfg env Info PolyFlags s).2 (commit s) := by
  unfold PrecacheTexture
  split_ifs
  · exact update_cursors cfg Info PolyFlags s
  · left
    exact SameCursors.trans (convertAndCache_cursors _ _ _ _ _)
      (SameCursors.trans (deleteTexture_cursors _ _) (readTextureMetaData_cursors _ _))
  · left
    exact readTextureMetaData_cursors _ _
  · left
    exact SameCursors.refl s
  · left
    exact convertAndCache_cursors _ _ _ _ _

theorem unbindAll_inv (l : List TexturePass) : ∀ s : D3DState, BufferInv s →
    BufferInv (l.foldl (fun st i => (setTexture i 0 st).2) s) := by
  induction l with
  | nil => intro s h; exact h
  | cons p l ih =>
    intro s h
    rw [List.foldl_cons]
    exact ih _ (BufferInv.of_cursors (setTexture_cursors p 0 s) h)

theorem flush_inv (s : D3DState) (h : BufferInv s) : BufferInv (flush s) := by
  have h1 := unbindAll_inv TexturePass.all s h
  unfold flush
  generalize TexturePass.all.foldl (fun st i => (setTexture i 0 st).2) s = t at h1
  exact ⟨h1.1, h1.2⟩

theorem indexTriangleFan_inv (n : Int) (s : D3DState) (h : BufferInv s)
    (hok : (Op.indexTriangleFan n).ok s = true) : BufferInv (indexTriangleFan n s) := by
  simp only [Op.ok, Bool.and_eq_true, Bool.or_eq_true, decide_eq_true_eq] at hok
  obtain ⟨hn, hok⟩ := hok
  rw [fan_newIndices n hn, addSigned_natCast] at hok
  obtain ⟨buf, hfr⟩ := indexTriangleFan_frame s n hn
  obtain ⟨_, r1, r2, r3, _⟩ := restart_cursors s
  rw [hfr]
  by_cases hf : I_BUFFER_SIZE < s.numIndices + 3 * (n - 2).toNat
  · simp only [if_pos hf, BufferInv, r1, r2, r3]
    exact ⟨Nat.le_refl _, fun hc => by simp at hc⟩
  · simp only [if_neg hf, BufferInv]
    have hm : s.mapped = true := by
      rcases hok with hm | hm
      · exact hm
      · exact absurd hm hf
    exact ⟨by have := h.1; omega, fun hc => by rw [hm] at hc; simp at hc⟩

theorem indexQuad_inv (s : D3DState) (h : BufferInv s)
    (hok : Op.indexQuad.ok s = true) : BufferInv (indexQuad s) := by
  simp only [Op.ok, Bool.or_eq_true, decide_eq_true_eq, addSigned_six] at hok
  obtain ⟨_, r1, r2, r3, _⟩ := restart_cursors s
  rw [indexQuad_frame s]
  by_cases hf : I_BUFFER_SIZE < s.numIndices + 6
  · simp only [if_pos hf, BufferInv, r1, r2, r3]
    exact ⟨Nat.le_refl _, fun hc => by simp at hc⟩
  · simp only [if_neg hf, BufferInv]
    have hm : s.mapped = true := by
      rcases hok with hm | hm
      · exact hm
      · exact absurd hm hf
    exact ⟨by have := h.1; omega, fun hc => by rw [hm] at hc; simp at hc⟩

/-- Every operation the callers may make keeps the cursor invariant. -/
theorem Op.run_inv (cfg : BuildConfig) (op : Op) (s : D3DState) (h : BufferInv s)
    (hok : op.ok s = true) : BufferInv (op.run cfg s) := by
  cases op with
  | map clear => exact map_inv clear s h
  | render => exact render_inv s h
  | commit => exact commit_inv s h
  | indexTriangleFan num => exact indexTriangleFan_inv num s h hok
  | indexQuad => exact indexQuad_inv s h hok
  | getVertex => exact ⟨h.1, h.2⟩
  | clearDepth => exact BufferInv.of_cursors (Or.inr (clearDepth_cursors s)) h
  | setViewPort X Y left top => exact BufferInv.of_cursors (setViewPort_cursors X Y left top s) h
  | setProjection aspect XoverZ =>
    exact BufferInv.of_cursors (setProjection_cursors aspect XoverZ s) h
  | setProjectionMode mode => exact BufferInv.of_cursors (setProjectionMode_cursors mode s) h
  | setFlags flags D3DFlags => exact BufferInv.of_cursors (setFlags_cursors cfg flags D3DFlags s) h
  | flash enable color => exact BufferInv.of_sameCursors (flash_cursors enable color s) h
  | fog dist color => exact BufferInv.of_cursors (Or.inr (fog_cursors dist color s)) h
  | cacheTexture id metadata view =>
    exact BufferInv.of_sameCursors (cacheTexture_cursors id metadata view s) h
  | getTextureMetaData id => exact BufferInv.of_sameCursors (cacheIndex_cursors id s) h
  | setTexture pass id => exact BufferInv.of_cursors (setTexture_cursors pass id s) h
  | deleteTexture id => exact BufferInv.of_sameCursors (deleteTexture_cursors id s) h
  | updateMip id mipNum => exact BufferInv.of_cursors (updateMip_cursors id mipNum s) h
  | flush => exact flush_inv s h
  | PrecacheTexture env Info PolyFlags =>
    exact BufferInv.of_cursors (PrecacheTexture_cursors cfg env Info PolyFlags s) h
  | newFrame => exact ⟨h.1, h.2⟩
  | clear clearColor => exact ⟨h.1, h.2⟩
  | present => exact ⟨h.1, h.2⟩

/-- In every state of a run the undrawn indices are among the buffered ones, and nothing is
pending while the buffers are unmapped. -/
theorem Reachable.inv {cfg : BuildConfig} {s : D3DState} (h : Reachable cfg s) :
    BufferInv s := by
  induction h with
  | initial => exact ⟨Nat.le_refl _, fun _ => rfl⟩
  | step op s _ hok ih => exact Op.run_inv cfg op s ih hok

/-! ## Overflow and flush -/

theorem indexTriangleFan_iBuf (s : D3DState) (n : Int) (hn : 3 ≤ n) :
    (indexTriangleFan n s).iBuf = ((List.range' 1 (n - 2).toNat).foldl fanStep
      (if I_BUFFER_SIZE < s.numIndices + 3 * (n - 2).toNat
        then map true (render s) else s)).iBuf := by
  unfold indexTriangleFan
  simp only [fan_newIndices n hn, addSigned_natCast, gt_iff_lt]

theorem flushedFirst_of_restart (s r : D3DState) (required : Nat) (hm : s.mapped = true)
    (hu : s.numUndrawnIndices ≤ s.numIndices)
    (hr : r = { map true (render s) with
                iBuf := r.iBuf
                numIndices := (map true (render s)).numIndices + required
                numUndrawnIndices := (map true (render s)).numUndrawnIndices + required })
    (h0 : r.iBuf 0 = 0) : FlushedFirst s r required := by
  have hd := restart_draws s hm hu
  have ht : (map true (render s)).trace = s.trace ++ drawCalls s ++ mapCalls true := by
    rw [hd]
  obtain ⟨r0, r1, r2, r3, r4⟩ := restart_cursors s
  have e1 : r.trace = (map true (render s)).trace := by rw [hr]
  have e2 : r.mapped = (map true (render s)).mapped := by rw [hr]
  have e3 : r.numVerts = (map true (render s)).numVerts := by rw [hr]
  have e4 : r.numIndices = (map true (render s)).numIndices + required := by rw [hr]
  have e5 : r.numUndrawnIndices = (map true (render s)).numUndrawnIndices + required := by
    rw [hr]
  refine ⟨ht, r4, e1, ?_, by rw [e2, r3], by rw [e3, r0], by rw [e4, r1, Nat.zero_add],
    by rw [e5, r2, Nat.zero_add], h0⟩
  rw [e1, ht, countDraws_append, countDraws_append, countDraws_drawCalls, countDraws_mapCalls]

/-- C3: from every state in which the buffers are mapped and the undrawn indices are among
the buffered ones (`numUndrawnIndices ≤ numIndices`, which holds in every state of a run,
`Reachable.inv`), `indexTriangleFan(n)`
(`n ≥ 3`, `required = 3*(n-2)`) and `indexQuad()` (`required = 6`) flush exactly when
`numIndices + required > I_BUFFER_SIZE`.  In that case one draw is issued before any new
index is stored, the cursors restart from zero, `numIndices = numUndrawnIndices = required`
afterwards and the first new index is `0` (`FlushedFirst`); when
`numIndices + required ≤ I_BUFFER_SIZE`, equality included, there is no draw and the new
indices follow the ones already buffered (`AppendedOnly`). -/
theorem overflow_triggers_flush (s : D3DState) (hu : s.numUndrawnIndices ≤ s.numIndices)
    (hm : s.mapped = true) :
    (∀ n : Int, 3 ≤ n →
      (I_BUFFER_SIZE < s.numIndices + 3 * (n - 2).toNat →
        FlushedFirst s (indexTriangleFan n s) (3 * (n - 2).toNat)) ∧
      (s.numIndices + 3 * (n - 2).toNat ≤ I_BUFFER_SIZE →
        AppendedOnly s (indexTriangleFan n s) (3 * (n - 2).toNat)) ∧
      (countDraws (indexTriangleFan n s).trace = countDraws s.trace + 1 ↔
        I_BUFFER_SIZE < s.numIndices + 3 * (n - 2).toNat)) ∧
    (I_BUFFER_SIZE < s.numIndices + 6 → FlushedFirst s (indexQuad s) 6) ∧
    (s.numIndices + 6 ≤ I_BUFFER_SIZE → AppendedOnly s (indexQuad s) 6) ∧
    (countDraws (indexQuad s).trace = countDraws s.trace + 1 ↔
      I_BUFFER_SIZE < s.numIndices + 6) := by
  obtain ⟨r0, r1, r2, r3, r4⟩ := restart_cursors s
  have fanFlush : ∀ n : Int, 3 ≤ n → I_BUFFER_SIZE < s.numIndices + 3 * (n - 2).toNat →
      FlushedFirst s (indexTriangleFan n s) (3 * (n - 2).toNat) := by
    intro n hn hf
    obtain ⟨buf, hfr⟩ := indexTriangleFan_frame s n hn
    rw [if_pos hf] at hfr
    have hI := indexTriangleFan_iBuf s n hn
    rw [if_pos hf] at hI
    have h1 := (fanLoop_iBuf (n - 2).toNat 1 (map true (render s))).1 0 (by omega)
    apply flushedFirst_of_restart s _ _ hm hu
    · rw [hfr]
    · rw [hI]
      have := h1.1
      rw [r1, r0] at this
      exact this
  have fanAppend : ∀ n : Int, 3 ≤ n → s.numIndices + 3 * (n - 2).toNat ≤ I_BUFFER_SIZE →
      AppendedOnly s (indexTriangleFan n s) (3 * (n - 2).toNat) := by
    intro n hn hf
    have hnf : ¬ I_BUFFER_SIZE < s.numIndices + 3 * (n - 2).toNat := by omega
    obtain ⟨buf, hfr⟩ := indexTriangleFan_frame s n hn
    rw [if_neg hnf] at hfr
    have hI := indexTriangleFan_iBuf s n hn
    rw [if_neg hnf] at hI
    obtain ⟨h1, h2⟩ := fanLoop_iBuf (n - 2).toNat 1 s
    refine ⟨by rw [hfr], by rw [hfr], by rw [hfr], by rw [hfr], by rw [hfr], ?_, ?_⟩
    · intro p hp
      rw [hI]
      exact h2 p (Or.inl hp)
    · rw [hI]
      exact (h1 0 (by omega)).1
  have quadFlush : I_BUFFER_SIZE < s.numIndices + 6 → FlushedFirst s (indexQuad s) 6 := by
    intro hf
    have hfr := indexQuad_frame s
    rw [if_pos hf] at hfr
    have hq := (quadStores (if I_BUFFER_SIZE < s.numIndices + 6 then map true (render s) else s)
      (indexQuad s) (by simp only [indexQuad, addSigned_six, gt_iff_lt])).2.1
    rw [if_pos hf, r0, r1] at hq
    exact flushedFirst_of_restart s _ _ hm hu hfr hq
  have quadAppend : s.numIndices + 6 ≤ I_BUFFER_SIZE → AppendedOnly s (indexQuad s) 6 := by
    intro hf
    have hnf : ¬ I_BUFFER_SIZE < s.numIndices + 6 := by omega
    have hfr := indexQuad_frame s
    rw [if_neg hnf] at hfr
    obtain ⟨_, hq0, _, _, _, _, _, hq7⟩ :=
      quadStores (if I_BUFFER_SIZE < s.numIndices + 6 then map true (render s) else s)
        (indexQuad s) (by simp only [indexQuad, addSigned_six, gt_iff_lt])
    rw [if_neg hnf] at hq0 hq7
    exact ⟨by rw [hfr], by rw [hfr], by rw [hfr], by rw [hfr], by rw [hfr],
      fun p hp => hq7 p (Or.inl hp), hq0⟩
  refine ⟨fun n hn => ⟨fanFlush n hn, fanAppend n hn, ?_⟩, quadFlush, quadAppend, ?_⟩
  · constructor
    · intro hc
      by_contra hnf
      have := (fanAppend n hn (by omega)).1
      rw [this] at hc
      omega
    · intro hf
      exact (fanFlush n hn hf).2.2.2.1
  · constructor
    · intro hc
      by_contra hnf
      have := (quadAppend (by omega)).1
      rw [this] at hc
      omega
    · intro hf
      exact (quadFlush hf).2.2.2.1

theorem lockedState_reachable (cfg : BuildConfig) : Reachable cfg lockedState :=
  Reachable.step (Op.map true) D3DState.initial Reachable.initial rfl

/-- The state after the first `Lock` is a state of a run: `newFrame`, `flash`,
`clearDepth`, `clear`, `map(true)`. -/
theorem frameStart_reachable (cfg : BuildConfig) : Reachable cfg frameStart :=
  Reachable.step (Op.map true) _
    (Reachable.step (Op.clear sampleColor) _
      (Reachable.step Op.clearDepth _
        (Reachable.step (Op.flash false sampleColor) _
          (Reachable.step Op.newFrame _ Reachable.initial rfl) rfl) rfl) rfl) rfl

theorem frameNearlyFull_reachable (cfg : BuildConfig) : Reachable cfg frameNearlyFull :=
  Reachable.step (Op.indexTriangleFan 6666) frameStart (frameStart_reachable cfg) (by decide)

theorem frameNearlyFull_cursors :
    frameNearlyFull.mapped = true ∧ frameNearlyFull.numVerts = 0 ∧
    frameNearlyFull.numIndices = 19992 ∧ frameNearlyFull.numUndrawnIndices = 19992 := by
  obtain ⟨buf, h⟩ := indexTriangleFan_frame frameStart 6666 (by decide)
  have hnf : ¬ I_BUFFER_SIZE < frameStart.numIndices + 3 * ((6666 : Int) - 2).toNat := by
    decide
  rw [if_neg hnf] at h
  have f1 : frameStart.mapped = true := by decide
  have f2 : frameStart.numVerts = 0 := by decide
  have f3 : frameStart.numIndices = 0 := by decide
  have f4 : frameStart.numUndrawnIndices = 0 := by decide
  unfold frameNearlyFull
  rw [h]
  refine ⟨f1, f2, ?_, ?_⟩
  · show frameStart.numIndices + 3 * ((6666 : Int) - 2).toNat = 19992
    rw [f3]
    decide
  · show frameStart.numUndrawnIndices + 3 * ((6666 : Int) - 2).toNat = 19992
    rw [f4]
    decide

/-- C3, in the first frame (after `Lock`) with the buffer eight indices short of full: a
quad still fits and is appended, a fan of five points overflows the buffer and flushes
first. -/
theorem overflow_triggers_flush_witness :
    Reachable unrealBuild frameNearlyFull ∧
    (frameNearlyFull.numUndrawnIndices ≤ frameNearlyFull.numIndices ∧
      frameNearlyFull.mapped = true) ∧
    AppendedOnly frameNearlyFull (indexQuad frameNearlyFull) 6 ∧
    FlushedFirst frameNearlyFull (indexTriangleFan 5 frameNearlyFull)
      (3 * ((5 : Int) - 2).toNat) := by
  have hu : frameNearlyFull.numUndrawnIndices ≤ frameNearlyFull.numIndices := by
    rw [frameNearlyFull_cursors.2.2.1, frameNearlyFull_cursors.2.2.2]
  have h := overflow_triggers_flush frameNearlyFull hu frameNearlyFull_cursors.1
  have hni := frameNearlyFull_cursors.2.2.1
  refine ⟨frameNearlyFull_reachable unrealBuild, ⟨hu, frameNearlyFull_cursors.1⟩, ?_, ?_⟩
  · exact h.2.2.1 (by rw [hni]; decide)
  · exact (h.1 5 (by decide)).1 (by rw [hni]; decide)

/-! ## Occupancy of the index buffer -/

/-- C4 fails on the code: one fan of 6670 points, submitted to the empty mapped buffers right
after `Lock`, needs `3*6668 = 20004` indices; the overflow test flushes the (empty) buffer
and the loop then stores all 20004 indices, so `numIndices` ends above
`I_BUFFER_SIZE = 20000`. -/
theorem oversized_fan_exceeds_capacity :
    lockedState.mapped = true ∧ lockedState.numIndices = 0 ∧
    (runOps unrealBuild [Op.indexTriangleFan 6670] lockedState).numIndices = 20004 ∧
    I_BUFFER_SIZE < (runOps unrealBuild [Op.indexTriangleFan 6670] lockedState).numIndices := by
  obtain ⟨buf, h⟩ := indexTriangleFan_frame lockedState 6670 (by decide)
  have hf : I_BUFFER_SIZE < lockedState.numIndices + 3 * ((6670 : Int) - 2).toNat := by decide
  rw [if_pos hf] at h
  have hn : (runOps unrealBuild [Op.indexTriangleFan 6670] lockedState).numIndices = 20004 := by
    show (indexTriangleFan 6670 lockedState).numIndices = 20004
    rw [h]
    show (map true (render lockedState)).numIndices + 3 * ((6670 : Int) - 2).toNat = 20004
    rw [(restart_cursors lockedState).2.1]
    rfl
  refine ⟨rfl, rfl, hn, ?_⟩
  rw [hn]
  decide

/-! ## `commit` -/

/-- C5: `commit()` with `numUndrawnIndices = 0` does nothing at all.  With
`numUndrawnIndices = u > 0`, the buffers mapped and `u ≤ numIndices`, it issues exactly one
draw, `DrawIndexed(u, numIndices - u, 0)`, over the indices appended since the previous draw,
maps the buffers again without discarding (append mode), sets `numUndrawnIndices` to `0` and
leaves `numVerts`, `numIndices` and the index buffer as they are. -/
theorem commit_draws_undrawn_range (s : D3DState) :
    (s.numUndrawnIndices = 0 → commit s = s) ∧
    (0 < s.numUndrawnIndices → s.mapped = true → s.numUndrawnIndices ≤ s.numIndices →
      (∃ pre : List GpuCall, countDraws pre = 0 ∧
        (commit s).trace = s.trace ++ pre ++
          [GpuCall.DrawIndexed s.numUndrawnIndices (s.numIndices - s.numUndrawnIndices) 0] ++
          [GpuCall.Map Buffer.vertexBuffer false, GpuCall.Map Buffer.indexBuffer false]) ∧
      countDraws (commit s).trace = countDraws s.trace + 1 ∧
      (commit s).numUndrawnIndices = 0 ∧
      (commit s).numVerts = s.numVerts ∧
      (commit s).numIndices = s.numIndices ∧
      (commit s).iBuf = s.iBuf ∧
      (commit s).mapped = true) := by
  refine ⟨commit_idle s, fun hpos hm hu => ?_⟩
  have h := commit_pending s hm hu hpos
  have ht : (commit s).trace = s.trace ++ drawCalls s ++ mapCalls false := by rw [h]
  refine ⟨⟨[.Unmap .vertexBuffer, .Unmap .indexBuffer] ++
      (if (0 : Int) ≠ s.currIndex then [.BindGeometryPass] else []) ++ [.Apply 0], ?_, ?_⟩,
    ?_, by rw [h], by rw [h], by rw [h], by rw [h], by rw [h]; exact hm⟩
  · unfold countDraws
    split_ifs <;> simp [List.countP_cons, GpuCall.isDraw]
  · rw [ht]
    simp [drawCalls, mapCalls]
  · rw [ht, countDraws_append, countDraws_append, countDraws_drawCalls, countDraws_mapCalls]

/-- C5, at the state with one quad pending after `Lock`. -/
theorem commit_draws_undrawn_range_witness :
    0 < (indexQuad lockedState).numUndrawnIndices ∧ (indexQuad lockedState).mapped = true ∧
    (indexQuad lockedState).numUndrawnIndices ≤ (indexQuad lockedState).numIndices ∧
    (commit (indexQuad lockedState)).numUndrawnIndices = 0 ∧
    (commit (indexQuad lockedState)).numIndices = 6 ∧
    countDraws (commit (indexQuad lockedState)).trace = 1 := by
  have h0 : 0 < (indexQuad lockedState).numUndrawnIndices := by decide
  have h1 : (indexQuad lockedState).mapped = true := by decide
  have h2 : (indexQuad lockedState).numUndrawnIndices ≤ (indexQuad lockedState).numIndices := by
    decide
  obtain ⟨_, hc, hu, _, hn, _, _⟩ :=
    (commit_draws_undrawn_range (indexQuad lockedState)).2 h0 h1 h2
  refine ⟨h0, h1, h2, hu, ?_, ?_⟩
  · rw [hn]; decide
  · rw [hc]; decide

/-! ## State setters: repeated calls -/

theorem FloatVal.ne_self (a : FloatVal) (h : a ≠ .nan) : a.ne a = false := by
  cases a with
  | nan => exact absurd rfl h
  | num q => simp [FloatVal.ne]

theorem setViewPort_twice (X Y left top : Int) (s : D3DState) :
    setViewPort X Y left top (setViewPort X Y left top s) = setViewPort X Y left top s := by
  simp [setViewPort]

theorem setProjectionMode_twice (mode : ProjectionMode) (s : D3DState) :
    setProjectionMode mode (setProjectionMode mode s) = setProjectionMode mode s := by
  by_cases h : s.m ≠ mode
  · simp [setProjectionMode, h]
  · simp [setProjectionMode, h]

theorem setProjection_twice (aspect XoverZ : FloatVal) (ha : aspect ≠ .nan)
    (hx : XoverZ ≠ .nan) (s : D3DState) :
    setProjection aspect XoverZ (setProjection aspect XoverZ s)
      = setProjection aspect XoverZ s := by
  have h1 := FloatVal.ne_self aspect ha
  have h2 := FloatVal.ne_self XoverZ hx
  by_cases h : (aspect.ne s.oldAspect || s.oldXoverZ.ne XoverZ) = true
  · simp [setProjection, h, h1, h2]
  · simp [setProjection, h]

theorem setFlags_twice (cfg : BuildConfig) (flags D3DFlags : Nat) (s : D3DState) :
    setFlags cfg flags D3DFlags (setFlags cfg flags D3DFlags s)
      = setFlags cfg flags D3DFlags s := by
  by_cases h : (s.currFlags ^^^ normaliseFlags cfg flags) &&& RELEVANT_FLAGS cfg ≠ 0 ∨
      (s.currD3DFlags ^^^ D3DFlags) &&& RELEVANT_D3D_FLAGS ≠ 0
  · have e : ∀ t : D3DState, t.currFlags = normaliseFlags cfg flags →
        t.currD3DFlags = D3DFlags → setFlags cfg flags D3DFlags t = t := by
      intro t h1 h2
      simp [setFlags, h1, h2]
    apply e
    · simp only [setFlags, if_pos h]
    · simp only [setFlags, if_pos h]
  · have e : setFlags cfg flags D3DFlags s = s := by
      simp only [setFlags, if_neg h]
    rw [e, e]

/-- C6 fails as stated: `setProjection` compares floats with `!=`, and not-a-number differs
from itself, so the second of two identical calls with a not-a-number aspect writes the
projection matrix again. -/
theorem setProjection_nan_repeats_write :
    (setProjection .nan (.num 1) D3DState.initial).trace
      = [GpuCall.SetProjectionMatrix .nan (.num 1)] ∧
    (setProjection .nan (.num 1) (setProjection .nan (.num 1) D3DState.initial)).trace
      = [GpuCall.SetProjectionMatrix .nan (.num 1), GpuCall.SetProjectionMatrix .nan (.num 1)] ∧
    setProjection .nan (.num 1) (setProjection .nan (.num 1) D3DState.initial)
      ≠ setProjection .nan (.num 1) D3DState.initial := by
  refine ⟨by decide, by decide, ?_⟩
  intro h
  have ht := congrArg D3DState.trace h
  revert ht
  decide

/-- C6, amended: for `setFlags`, `setProjectionMode` and `setViewPort` with any arguments, and
for `setProjection` with arguments that are not not-a-number, in every state the second of
two identical calls changes nothing: the state after it, trace of graphics calls and cached
values included, is the state after the first call (no draw, no state write). -/
theorem setters_idempotent (cfg : BuildConfig) (s : D3DState) :
    (∀ flags D3DFlags : Nat,
      setFlags cfg flags D3DFlags (setFlags cfg flags D3DFlags s)
        = setFlags cfg flags D3DFlags s) ∧
    (∀ mode : ProjectionMode,
      setProjectionMode mode (setProjectionMode mode s) = setProjectionMode mode s) ∧
    (∀ X Y left top : Int,
      setViewPort X Y left top (setViewPort X Y left top s) = setViewPort X Y left top s) ∧
    (∀ aspect XoverZ : FloatVal, aspect ≠ .nan → XoverZ ≠ .nan →
      setProjection aspect XoverZ (setProjection aspect XoverZ s)
        = setProjection aspect XoverZ s) :=
  ⟨fun flags D3DFlags => setFlags_twice cfg flags D3DFlags s,
   fun mode => setProjectionMode_twice mode s,
   fun X Y left top => setViewPort_twice X Y left top s,
   fun aspect XoverZ ha hx => setProjection_twice aspect XoverZ ha hx s⟩

/-- C6, amended, at a projection with aspect code `3` and `XoverZ` code `4` set twice while a
quad is pending: the first call draws and writes the matrix, the second adds nothing. -/
theorem setters_idempotent_witness :
    FloatVal.num 3 ≠ .nan ∧ FloatVal.num 4 ≠ .nan ∧
    (setProjection (.num 3) (.num 4) (indexQuad lockedState)).trace.length = 10 ∧
    (setProjection (.num 3) (.num 4)
      (setProjection (.num 3) (.num 4) (indexQuad lockedState))).trace.length = 10 := by
  have h := (setters_idempotent unrealBuild (indexQuad lockedState)).2.2.2 (.num 3) (.num 4)
    (by decide) (by decide)
  refine ⟨by decide, by decide, by decide, ?_⟩
  rw [h]
  decide

/-! ## Draw before state change -/

theorem drawCalls_mapCalls_no_write (s : D3DState) (clear : Bool) :
    ∀ c, c ∈ drawCalls s ++ mapCalls clear → c.isStateWrite = false := by
  have h : (drawCalls s ++ mapCalls clear).all (fun c => !c.isStateWrite) = true := by
    unfold drawCalls mapCalls
    split_ifs <;> rfl
  intro c hc
  have := List.all_eq_true.mp h c hc
  simpa using this

theorem drawCalls_has_draw (s : D3DState) :
    GpuCall.DrawIndexed s.numUndrawnIndices (s.numIndices - s.numUndrawnIndices) 0
      ∈ drawCalls s := by
  unfold drawCalls
  simp

/-- C7: in every state with undrawn indices (`numUndrawnIndices > 0`) that satisfies the
cursor invariant of the runs (`BufferInv`: the undrawn indices are among the buffered ones,
and nothing is undrawn while the buffers are unmapped; every state of a run satisfies it,
`Reachable.inv`), each setter call that changes its state draws first and writes after.  The pending range is drawn by
`DrawIndexed(numUndrawnIndices, numIndices - numUndrawnIndices, 0)`, the draw and the
re-mapping contain no state write, and every state write of `setFlags` (when a relevant
flag bit changes), `setProjectionMode`, `setProjection`, `setViewPort` (when an argument
differs from the cached one), `setTexture` (when the key differs from the bound key of the
pass) and `fog` comes after them in the trace, with `numUndrawnIndices = 0` from the draw
on. -/
theorem draw_before_state_change (cfg : BuildConfig) (s : D3DState) (hinv : BufferInv s)
    (hpos : 0 < s.numUndrawnIndices) :
    (GpuCall.DrawIndexed s.numUndrawnIndices (s.numIndices - s.numUndrawnIndices) 0
        ∈ drawCalls s ∧
      countDraws (drawCalls s) = 1 ∧
      (∀ c, c ∈ drawCalls s ++ mapCalls false → c.isStateWrite = false) ∧
      (commit s).trace = s.trace ++ drawCalls s ++ mapCalls false ∧
      (commit s).numUndrawnIndices = 0) ∧
    (∀ flags D3DFlags : Nat,
      (s.currFlags ^^^ normaliseFlags cfg flags) &&& RELEVANT_FLAGS cfg ≠ 0 →
      DrewBeforeWriting s (setFlags cfg flags D3DFlags s)
        ((if (s.currFlags ^^^ normaliseFlags cfg flags) &&& BLEND_FLAGS cfg ≠ 0
            then [GpuCall.OMSetBlendState (blendStateOf cfg (normaliseFlags cfg flags))]
            else []) ++
         (if (s.currFlags ^^^ normaliseFlags cfg flags) &&& cfg.PF_Occlude ≠ 0
            then [GpuCall.OMSetDepthStencilState
              (decide (normaliseFlags cfg flags &&& cfg.PF_Occlude ≠ 0))]
            else []))) ∧
    (∀ mode : ProjectionMode, s.m ≠ mode →
      DrewBeforeWriting s (setProjectionMode mode s) [GpuCall.SetProjectionMode mode]) ∧
    (∀ aspect XoverZ : FloatVal, (aspect.ne s.oldAspect || s.oldXoverZ.ne XoverZ) = true →
      DrewBeforeWriting s (setProjection aspect XoverZ s)
        [GpuCall.SetProjectionMatrix aspect XoverZ]) ∧
    (∀ X Y left top : Int, X ≠ s.oldX ∨ Y ≠ s.oldY ∨ left ≠ s.oldLeft ∨ top ≠ s.oldTop →
      DrewBeforeWriting s (setViewPort X Y left top s)
        [GpuCall.RSSetViewports X Y left top, GpuCall.SetViewportHeight Y,
          GpuCall.SetViewportWidth X]) ∧
    (∀ (pass : TexturePass) (id : Nat), id ≠ s.boundTextureID pass →
      ∃ writes, DrewBeforeWriting s (setTexture pass id s).2 writes) ∧
    (∀ (dist : FloatVal) (color : Option Vec4),
      DrewBeforeWriting s (fog dist color s)
        (GpuCall.SetFogDist dist :: (if dist.gtZero then [GpuCall.SetFogColor color] else []))) := by
  have hm : s.mapped = true := by
    cases hm : s.mapped
    · have := hinv.2 hm; omega
    · rfl
  have hc := commit_pending s hm hinv.1 hpos
  have hct : (commit s).trace = s.trace ++ drawCalls s ++ mapCalls false := by rw [hc]
  have hcu : (commit s).numUndrawnIndices = 0 := by rw [hc]
  refine ⟨⟨drawCalls_has_draw s, countDraws_drawCalls s, drawCalls_mapCalls_no_write s false,
    hct, hcu⟩, ?_, ?_, ?_, ?_, ?_, ?_⟩
  · intro flags D3DFlags hch
    have hif : (s.currFlags ^^^ normaliseFlags cfg flags) &&& RELEVANT_FLAGS cfg ≠ 0 ∨
        (s.currD3DFlags ^^^ D3DFlags) &&& RELEVANT_D3D_FLAGS ≠ 0 := Or.inl hch
    refine ⟨?_, ?_, ?_⟩
    · simp only [setFlags, if_pos hif, D3DState.emit]
      split_ifs <;> simp [hct]
    · intro c hcw
      split_ifs at hcw <;> simp at hcw
      · rcases hcw with h | h <;> subst h <;> exact ⟨rfl, rfl⟩
      · subst hcw; exact ⟨rfl, rfl⟩
      · subst hcw; exact ⟨rfl, rfl⟩
    · simp only [setFlags, if_pos hif, D3DState.emit]
      split_ifs <;> exact hcu
  · intro mode hmode
    refine ⟨?_, ?_, ?_⟩
    · simp only [setProjectionMode, if_pos hmode, hct]
    · intro c hcw
      simp at hcw
      subst hcw; exact ⟨rfl, rfl⟩
    · simp only [setProjectionMode, if_pos hmode, hcu]
  · intro aspect XoverZ hch
    refine ⟨?_, ?_, ?_⟩
    · simp only [setProjection, if_pos hch, hct]
    · intro c hcw
      simp at hcw
      subst hcw; exact ⟨rfl, rfl⟩
    · simp only [setProjection, if_pos hch, hcu]
  · intro X Y left top hch
    refine ⟨?_, ?_, ?_⟩
    · simp only [setViewPort, if_pos hch, hct]
    · intro c hcw
      simp at hcw
      rcases hcw with h | h | h <;> subst h <;> exact ⟨rfl, rfl⟩
    · simp only [setViewPort, if_pos hch, hcu]
  · intro pass id hid
    have hc2 := commit_pending { s with boundTextureID := Function.update s.boundTextureID pass id }
      hm hinv.1 hpos
    have hct2 : (commit { s with
        boundTextureID := Function.update s.boundTextureID pass id }).trace
        = s.trace ++ drawCalls s ++ mapCalls false := by rw [hc2]; rfl
    have hcu2 : (commit { s with
        boundTextureID := Function.update s.boundTextureID pass id }).numUndrawnIndices = 0 := by
      rw [hc2]
    unfold setTexture
    rw [if_pos hid]
    simp only []
    by_cases h0 : id = 0
    · rw [if_pos h0]
      refine ⟨[useTexturePassCall (Function.update (commit { s with
        boundTextureID := Function.update s.boundTextureID pass id }).enabled pass false)],
        ?_, ?_, ?_⟩
      · simp only [D3DState.emit, hct2]
      · intro c hcw
        simp at hcw
        subst hcw; exact ⟨rfl, rfl⟩
      · exact hcu2
    · rw [if_neg h0]
      cases h3 : (commit { s with
          boundTextureID := Function.update s.boundTextureID pass id }).textureCache id with
      | none =>
        refine ⟨[], ?_, ?_, hcu2⟩
        · simp only [hct2, List.append_nil]
        · intro c hcw; simp at hcw
      | some tex =>
        simp only []
        by_cases he : (commit { s with
          boundTextureID := Function.update s.boundTextureID pass id }).enabled pass = true
        · refine ⟨[GpuCall.SetResourceArray tex.value.resourceView pass], ?_, ?_, ?_⟩
          · simp [D3DState.emit, he, hct2]
          · intro c hcw
            simp at hcw
            subst hcw; exact ⟨rfl, rfl⟩
          · simp [D3DState.emit, he, hcu2]
        · refine ⟨[GpuCall.SetResourceArray tex.value.resourceView pass,
            useTexturePassCall (Function.update (commit { s with
              boundTextureID := Function.update s.boundTextureID pass id }).enabled pass true)],
            ?_, ?_, ?_⟩
          · simp [D3DState.emit, he, hct2]
          · intro c hcw
            simp at hcw
            rcases hcw with h | h <;> subst h <;> exact ⟨rfl, rfl⟩
          · simp [D3DState.emit, he, hcu2]
  · intro dist color
    refine ⟨?_, ?_, ?_⟩
    · simp only [fog, D3DState.emit]
      split_ifs <;> simp [hct]
    · intro c hcw
      split_ifs at hcw <;> simp at hcw
      · rcases hcw with h | h <;> subst h <;> exact ⟨rfl, rfl⟩
      · subst hcw; exact ⟨rfl, rfl⟩
    · simp only [fog, D3DState.emit]
      split_ifs <;> exact hcu

theorem quadPending_reachable (cfg : BuildConfig) : Reachable cfg quadPending :=
  Reachable.step Op.indexQuad lockedState (lockedState_reachable cfg) (by decide)

theorem frameQuad_reachable (cfg : BuildConfig) : Reachable cfg frameQuad :=
  Reachable.step Op.indexQuad frameStart (frameStart_reachable cfg) (by decide)

theorem frameQuad_inv : BufferInv frameQuad := ⟨by decide, by decide⟩

/-- C7, at one quad pending in the first frame (after `Lock`): switching the projection
mode, the viewport or the fog draws the quad first. -/
theorem draw_before_state_change_witness :
    Reachable unrealBuild frameQuad ∧
    (BufferInv frameQuad ∧ 0 < frameQuad.numUndrawnIndices) ∧
    DrewBeforeWriting frameQuad (setProjectionMode .PROJ_Z_ONLY frameQuad)
      [GpuCall.SetProjectionMode .PROJ_Z_ONLY] ∧
    DrewBeforeWriting frameQuad (setViewPort 640 480 0 0 frameQuad)
      [GpuCall.RSSetViewports 640 480 0 0, GpuCall.SetViewportHeight 480,
        GpuCall.SetViewportWidth 640] ∧
    GpuCall.DrawIndexed 6 0 0 ∈ drawCalls frameQuad := by
  have h := draw_before_state_change unrealBuild frameQuad frameQuad_inv (by decide)
  refine ⟨frameQuad_reachable unrealBuild, ⟨frameQuad_inv, by decide⟩, ?_, ?_, ?_⟩
  · exact h.2.2.1 .PROJ_Z_ONLY (by decide)
  · exact h.2.2.2.2.1 640 480 0 0 (by decide)
  · exact h.1.1

/-! ## `fog` and `flash` -/

/-- C8 fails on the code: neither `fog` nor `flash` keeps a cached value.  With a quad
pending in the first frame (after `Lock`), `flash` writes the overlay without drawing it
(no flush, still six undrawn indices), and the second of two identical `flash` calls, like
the second of two identical `fog` calls, writes its shader variables again. -/
theorem fog_flash_repeat_writes :
    (flash true sampleColor frameQuad).numUndrawnIndices = 6 ∧
    countDraws (flash true sampleColor frameQuad).trace = countDraws frameQuad.trace ∧
    (flash true sampleColor frameQuad).trace = frameQuad.trace ++
      [GpuCall.SetFlashEnable true, GpuCall.SetFlashColor sampleColor] ∧
    (flash true sampleColor (flash true sampleColor frameQuad)).trace =
      (flash true sampleColor frameQuad).trace ++
        [GpuCall.SetFlashEnable true, GpuCall.SetFlashColor sampleColor] ∧
    (fog (.num 5) (some sampleColor) (fog (.num 5) (some sampleColor) frameQuad)).trace =
      (fog (.num 5) (some sampleColor) frameQuad).trace ++
        [GpuCall.SetFogDist (.num 5), GpuCall.SetFogColor (some sampleColor)] := by
  decide

/-- C8, amended: `fog` and `flash` compare with no cached value.  In every state that
satisfies the cursor invariant of the runs (`BufferInv`; every state of a run satisfies it,
`Reachable.inv`), `fog(dist, color)` commits first, so pending indices are drawn before the writes
(`DrewBeforeWriting`) and nothing is undrawn afterwards, then writes the fog distance, and
the colour when `dist > 0`, on every call; `flash(enable, color)` never draws or flushes
and writes the enable flag, and the colour when enabled, on every call.  The second of two
identical calls of either issues no draw and repeats the same shader writes. -/
theorem fog_flash_write_every_call (s : D3DState) (hinv : BufferInv s) :
    (∀ (dist : FloatVal) (color : Option Vec4),
      (fog dist color s).trace = (commit s).trace ++
        GpuCall.SetFogDist dist :: (if dist.gtZero then [GpuCall.SetFogColor color] else []) ∧
      (0 < s.numUndrawnIndices → DrewBeforeWriting s (fog dist color s)
        (GpuCall.SetFogDist dist :: (if dist.gtZero then [GpuCall.SetFogColor color] else []))) ∧
      (fog dist color s).numUndrawnIndices = 0 ∧
      (fog dist color (fog dist color s)).trace = (fog dist color s).trace ++
        GpuCall.SetFogDist dist :: (if dist.gtZero then [GpuCall.SetFogColor color] else [])) ∧
    (∀ (enable : Bool) (color : Vec4),
      (flash enable color s).trace = s.trace ++
        GpuCall.SetFlashEnable enable :: (if enable then [GpuCall.SetFlashColor color] else []) ∧
      (flash enable color s).numUndrawnIndices = s.numUndrawnIndices ∧
      (flash enable color (flash enable color s)).trace = (flash enable color s).trace ++
        GpuCall.SetFlashEnable enable :: (if enable then [GpuCall.SetFlashColor color] else [])) := by
  have hcu : (commit s).numUndrawnIndices = 0 := by
    by_cases hpos : 0 < s.numUndrawnIndices
    · have hm : s.mapped = true := by
        cases hm : s.mapped
        · have := hinv.2 hm; omega
        · rfl
      rw [commit_pending s hm hinv.1 hpos]
    · rw [commit_idle s (by omega)]; omega
  have fogTrace : ∀ (dist : FloatVal) (color : Option Vec4) (t : D3DState),
      (fog dist color t).trace = (commit t).trace ++
        GpuCall.SetFogDist dist :: (if dist.gtZero then [GpuCall.SetFogColor color] else []) := by
    intro dist color t
    simp only [fog, D3DState.emit]
    split_ifs <;> simp
  have fogU : ∀ (dist : FloatVal) (color : Option Vec4),
      (fog dist color s).numUndrawnIndices = 0 := by
    intro dist color
    simp only [fog, D3DState.emit]
    split_ifs <;> exact hcu
  have flashTrace : ∀ (enable : Bool) (color : Vec4) (t : D3DState),
      (flash enable color t).trace = t.trace ++
        GpuCall.SetFlashEnable enable :: (if enable then [GpuCall.SetFlashColor color] else []) := by
    intro enable color t
    cases enable <;> simp [flash, D3DState.emit]
  refine ⟨fun dist color => ⟨fogTrace dist color s, ?_, fogU dist color, ?_⟩,
    fun enable color => ⟨flashTrace enable color s, ?_, flashTrace enable color _⟩⟩
  · intro hpos
    have hm : s.mapped = true := by
      cases hm : s.mapped
      · have := hinv.2 hm; omega
      · rfl
    have hc := commit_pending s hm hinv.1 hpos
    refine ⟨?_, ?_, fogU dist color⟩
    · rw [fogTrace, hc]
    · intro c hcw
      split_ifs at hcw <;> simp at hcw
      · rcases hcw with h | h <;> subst h <;> exact ⟨rfl, rfl⟩
      · subst hcw; exact ⟨rfl, rfl⟩
  · rw [fogTrace dist color (fog dist color s), commit_idle _ (fogU dist color)]
  · cases enable <;> rfl

/-- C8, amended, at one quad pending in the first frame (after `Lock`). -/
theorem fog_flash_write_every_call_witness :
    Reachable unrealBuild frameQuad ∧ BufferInv frameQuad ∧
    (fog (.num 5) (some sampleColor) frameQuad).numUndrawnIndices = 0 ∧
    (flash false sampleColor frameQuad).numUndrawnIndices = 6 :=
  ⟨frameQuad_reachable unrealBuild, frameQuad_inv,
   ((fog_flash_write_every_call frameQuad frameQuad_inv).1
      (.num 5) (some sampleColor)).2.2.1,
   by decide⟩

/-! ## `setTexture` with a key that is not cached -/

theorem boundThenMissing_reachable (cfg : BuildConfig) : Reachable cfg boundThenMissing :=
  Reachable.step (Op.setTexture .PASS_DIFFUSE 9) _
    (Reachable.step (Op.setTexture .PASS_DIFFUSE 7) _
      (Reachable.step (Op.cacheTexture 7 sampleMetaData (some 100)) _
        (lockedState_reachable cfg) rfl) rfl) rfl

/-- C9 fails on the code: binding the uncached key `9` to the diffuse pass, which holds the
cached texture `7`, returns `NULL` the first time; the same call made again right away
issues no call to the graphics API and leaves the state as it is, but returns the pointer
to the metadata of texture `7` instead of `NULL`. -/
theorem setTexture_repeat_uncached_result_differs :
    textureIsCached 9 boundThenMissing = false ∧
    (setTexture .PASS_DIFFUSE 9
      (setTexture .PASS_DIFFUSE 7
        (cacheTexture 7 sampleMetaData (some 100) lockedState)).2).1 = none ∧
    (setTexture .PASS_DIFFUSE 9 boundThenMissing).1 = some 1 ∧
    (setTexture .PASS_DIFFUSE 9 boundThenMissing).2.trace = boundThenMissing.trace := by
  decide

/-- C10 fails on the code: in the run `boundThenMissing` the key `9` is not in the cache,
yet `setTexture(PASS_DIFFUSE, 9)` returns a pointer that is not `NULL`, namely the metadata
of the texture `7` bound before; the pass stays enabled, showing the resource of texture
`7`, with `9` recorded as its bound key. -/
theorem setTexture_uncached_returns_stale_metadata :
    textureIsCached 9 boundThenMissing = false ∧
    (setTexture .PASS_DIFFUSE 9 boundThenMissing).1 = some 1 ∧
    metaDataAt 7 1 boundThenMissing = some sampleMetaData ∧
    (setTexture .PASS_DIFFUSE 9 boundThenMissing).2.enabled .PASS_DIFFUSE = true ∧
    (setTexture .PASS_DIFFUSE 9 boundThenMissing).2.boundTextureID .PASS_DIFFUSE = 9 := by
  decide

/-- `commit` leaves the texture pass table, the pointer cache of `setTexture` and the
texture cache alone. -/
theorem commit_texture_fields (s : D3DState) :
    (commit s).boundTextureID = s.boundTextureID ∧ (commit s).enabled = s.enabled ∧
    (commit s).metadata = s.metadata ∧ (commit s).textureCache = s.textureCache := by
  unfold commit render map switchToPass D3DState.emit
  cases hm : s.mapped <;> simp <;> split_ifs <;> simp_all

/-- What does hold of a repeated bind, for every state, pass and key: the second of two
identical `setTexture` calls changes nothing (no call to the graphics API, same bound keys
and enabled flags) and returns the cached pointer of the pass; that is the result of the
first call whenever the key is `0`, is cached, or was the bound key already, and it is the
pointer left from the previous texture when the key is new to the pass and not cached. -/
theorem setTexture_repeat (pass : TexturePass) (id : Nat) (s : D3DState) :
    (setTexture pass id (setTexture pass id s).2).2 = (setTexture pass id s).2 ∧
    (id = 0 ∨ textureIsCached id s = true ∨ id = s.boundTextureID pass →
      (setTexture pass id (setTexture pass id s).2).1 = (setTexture pass id s).1) ∧
    (id ≠ 0 → textureIsCached id s = false → id ≠ s.boundTextureID pass →
      (setTexture pass id s).1 = none ∧
      (setTexture pass id (setTexture pass id s).2).1 = s.metadata pass) := by
  obtain ⟨c1, c2, c3, c4⟩ := commit_texture_fields
    { s with boundTextureID := Function.update s.boundTextureID pass id }
  simp only [] at c1 c2 c3 c4
  have skip : ∀ t : D3DState, t.boundTextureID pass = id →
      setTexture pass id t = (t.metadata pass, t) := by
    intro t ht
    simp [setTexture, ht]
  by_cases hb : id = s.boundTextureID pass
  · rw [skip s hb.symm, skip s hb.symm]
    exact ⟨rfl, fun _ => rfl, fun _ _ h => absurd hb h⟩
  · have hb2 : id ≠ s.boundTextureID pass := hb
    by_cases h0 : id = 0
    · have hbound : (setTexture pass id s).2.boundTextureID pass = id := by
        simp only [setTexture, if_pos hb2, if_pos h0, D3DState.emit]
        rw [c1]
        simp
      have hfirst : (setTexture pass id s).1 = none := by
        simp only [setTexture, if_pos hb2, if_pos h0, D3DState.emit]
        simp
      have hmeta : (setTexture pass id s).2.metadata pass = none := by
        simp only [setTexture, if_pos hb2, if_pos h0, D3DState.emit]
        simp
      rw [skip _ hbound]
      exact ⟨rfl, fun _ => by rw [hmeta, hfirst], fun h => absurd h0 h⟩
    · cases hc : s.textureCache id with
      | none =>
        have hc2 : (commit { s with
            boundTextureID := Function.update s.boundTextureID pass id }).textureCache id
            = none := by rw [c4]; exact hc
        have hbound : (setTexture pass id s).2.boundTextureID pass = id := by
          simp only [setTexture, if_pos hb2, if_neg h0, hc2]
          rw [c1]
          simp
        have hfirst : (setTexture pass id s).1 = none := by
          simp only [setTexture, if_pos hb2, if_neg h0, hc2]
        have hmeta : (setTexture pass id s).2.metadata pass = s.metadata pass := by
          simp only [setTexture, if_pos hb2, if_neg h0, hc2]
          rw [c3]
        rw [skip _ hbound]
        refine ⟨rfl, ?_, fun _ _ _ => ⟨hfirst, hmeta⟩⟩
        intro h
        rcases h with h | h | h
        · exact absurd h h0
        · simp [textureIsCached, hc] at h
        · exact absurd h hb
      | some tex =>
        have hc2 : (commit { s with
            boundTextureID := Function.update s.boundTextureID pass id }).textureCache id
            = some tex := by rw [c4]; exact hc
        have hbound : (setTexture pass id s).2.boundTextureID pass = id := by
          simp only [setTexture, if_pos hb2, if_neg h0, hc2, D3DState.emit]
          split_ifs <;> simp [c1]
        have hmeta : (setTexture pass id s).2.metadata pass = (setTexture pass id s).1 := by
          simp only [setTexture, if_pos hb2, if_neg h0, hc2, D3DState.emit]
        rw [skip _ hbound]
        refine ⟨rfl, fun _ => hmeta, fun _ h => ?_⟩
        simp [textureIsCached, hc] at h

/-! ## Fans that fit -/

/-- The index cursor stays within `I_BUFFER_SIZE` along every sequence of operations whose
fans fit the buffer (`3*(n-2) ≤ I_BUFFER_SIZE`). -/
theorem numIndices_le_of_fitting (cfg : BuildConfig) (ops : List Op) :
    ∀ s : D3DState, s.numIndices ≤ I_BUFFER_SIZE → (∀ op, op ∈ ops → op.fits = true) →
      (runOps cfg ops s).numIndices ≤ I_BUFFER_SIZE := by
  induction ops with
  | nil => intro s h _; exact h
  | cons op ops ih =>
    intro s h hfit
    have hop := hfit op (List.mem_cons_self op ops)
    have hrest : ∀ o, o ∈ ops → o.fits = true := fun o ho => hfit o (List.mem_cons_of_mem op ho)
    have same : ∀ r : D3DState, (SameCursors r s ∨ SameCursors r (commit s)) →
        r.numIndices ≤ I_BUFFER_SIZE := by
      intro r hr
      rcases hr with hr | hr
      · rw [hr.2.2.1]; exact h
      · rw [hr.2.2.1, (commit_keeps s).2.1]; exact h
    have step : (op.run cfg s).numIndices ≤ I_BUFFER_SIZE := by
      cases op with
      | map clear =>
        show (map clear s).numIndices ≤ I_BUFFER_SIZE
        unfold map
        cases clear <;> split_ifs <;> first | exact h | exact Nat.zero_le _
      | render =>
        show (render s).numIndices ≤ I_BUFFER_SIZE
        unfold render switchToPass D3DState.emit
        simp only []
        split_ifs <;> exact h
      | commit => exact same _ (Or.inr (SameCursors.refl _))
      | indexTriangleFan num =>
        simp only [Op.fits, Bool.and_eq_true, decide_eq_true_eq] at hop
        obtain ⟨buf, hfr⟩ := indexTriangleFan_frame s num hop.1
        show (indexTriangleFan num s).numIndices ≤ I_BUFFER_SIZE
        rw [hfr]
        by_cases hf : I_BUFFER_SIZE < s.numIndices + 3 * (num - 2).toNat
        · simp only [if_pos hf, (restart_cursors s).2.1]
          omega
        · simp only [if_neg hf]
          omega
      | indexQuad =>
        show (indexQuad s).numIndices ≤ I_BUFFER_SIZE
        rw [indexQuad_frame s]
        by_cases hf : I_BUFFER_SIZE < s.numIndices + 6
        · simp only [if_pos hf, (restart_cursors s).2.1]
          decide
        · simp only [if_neg hf]
          omega
      | getVertex => exact h
      | clearDepth => exact same _ (Or.inr (clearDepth_cursors s))
      | setViewPort X Y left top => exact same _ (setViewPort_cursors X Y left top s)
      | setProjection aspect XoverZ => exact same _ (setProjection_cursors aspect XoverZ s)
      | setProjectionMode mode => exact same _ (setProjectionMode_cursors mode s)
      | setFlags flags D3DFlags => exact same _ (setFlags_cursors cfg flags D3DFlags s)
      | flash enable color => exact same _ (Or.inl (flash_cursors enable color s))
      | fog dist color => exact same _ (Or.inr (fog_cursors dist color s))
      | cacheTexture id metadata view =>
        exact same _ (Or.inl (cacheTexture_cursors id metadata view s))
      | getTextureMetaData id => exact same _ (Or.inl (cacheIndex_cursors id s))
      | setTexture pass id => exact same _ (setTexture_cursors pass id s)
      | deleteTexture id => exact same _ (Or.inl (deleteTexture_cursors id s))
      | updateMip id mipNum => exact same _ (updateMip_cursors id mipNum s)
      | flush =>
        have hfl : ∀ (l : List TexturePass) (t : D3DState), t.numIndices ≤ I_BUFFER_SIZE →
            (l.foldl (fun st i => (setTexture i 0 st).2) t).numIndices ≤ I_BUFFER_SIZE := by
          intro l
          induction l with
          | nil => intro t ht; exact ht
          | cons p l ihl =>
            intro t ht
            rw [List.foldl_cons]
            apply ihl
            rcases setTexture_cursors p 0 t with hr | hr
            · rw [hr.2.2.1]; exact ht
            · rw [hr.2.2.1, (commit_keeps t).2.1]; exact ht
        have hall := hfl TexturePass.all s h
        show (flush s).numIndices ≤ I_BUFFER_SIZE
        unfold flush
        generalize TexturePass.all.foldl (fun st i => (setTexture i 0 st).2) s = t at hall
        exact hall
      | PrecacheTexture env Info PolyFlags =>
        exact same _ (PrecacheTexture_cursors cfg env Info PolyFlags s)
      | newFrame => exact h
      | clear clearColor => exact h
      | present => exact h
    have hcons : runOps cfg (op :: ops) s = runOps cfg ops (op.run cfg s) := by
      simp only [runOps, List.foldl_cons]
    rw [hcons]
    exact ih _ step hrest

/-! ## The texture cache: lookup, insertion, deletion -/

theorem cacheIndex_present (id : Nat) (s : D3DState) (n : CacheNode)
    (h : s.textureCache id = some n) : cacheIndex id s = (n, s) := by
  simp [cacheIndex, h]

theorem cacheIndex_others (id : Nat) (s : D3DState) (k : Nat) (hk : k ≠ id) :
    (cacheIndex id s).2.textureCache k = s.textureCache k := by
  unfold cacheIndex
  cases h : s.textureCache id with
  | none => simp [Function.update_apply, hk]
  | some n => rfl

/-- C11 fails on the code: for the key `5`, absent from the empty cache at program start,
`getTextureMetaData(5)` returns a reference to (zeroed) metadata, not a not-found signal,
and the key is cached afterwards. -/
theorem getTextureMetaData_absent_creates_entry :
    textureIsCached 5 D3DState.initial = false ∧
    textureIsCached 5 (getTextureMetaData 5 D3DState.initial).2 = true ∧
    metaDataAt 5 (getTextureMetaData 5 D3DState.initial).1
        (getTextureMetaData 5 D3DState.initial).2
      = some { multU := .num 0, multV := .num 0, masked := false } := by
  decide

/-- C11, amended: `getTextureMetaData(key)` has no not-found signal: for every key and
state it returns a reference to metadata held in the cache after the call.  For a key that
is cached it returns the metadata stored for it and changes nothing; for every key, the
entries of all other keys are as before. -/
theorem getTextureMetaData_returns_reference (id : Nat) (s : D3DState) :
    (∃ m, metaDataAt id (getTextureMetaData id s).1 (getTextureMetaData id s).2 = some m) ∧
    (∀ n : CacheNode, s.textureCache id = some n →
      (getTextureMetaData id s).2 = s ∧
      metaDataAt id (getTextureMetaData id s).1 s = some n.value.metadata) ∧
    (∀ k : Nat, k ≠ id →
      (getTextureMetaData id s).2.textureCache k = s.textureCache k) := by
  refine ⟨?_, ?_, fun k hk => cacheIndex_others id s k hk⟩
  · cases h : s.textureCache id with
    | none =>
      exact ⟨CachedTexture.zero.metadata, by simp [getTextureMetaData, cacheIndex, metaDataAt, h]⟩
    | some n =>
      exact ⟨n.value.metadata, by simp [getTextureMetaData, cacheIndex, metaDataAt, h]⟩
  · intro n h
    simp [getTextureMetaData, cacheIndex, metaDataAt, h]

/-- C11, amended, at the cached texture `7`. -/
theorem getTextureMetaData_returns_reference_witness :
    oneCached.textureCache 7 = some { addr := 1, value :=
      { metadata := sampleMetaData, resourceView := 100 } } ∧
    metaDataAt 7 (getTextureMetaData 7 oneCached).1 oneCached = some sampleMetaData :=
  ⟨by decide,
   ((getTextureMetaData_returns_reference 7 oneCached).2.1
      { addr := 1, value := { metadata := sampleMetaData, resourceView := 100 } }
      (by decide)).2⟩

/-- The entry `cacheTexture` leaves under its key when the resource view was created. -/
theorem cacheTexture_entry (id : Nat) (m : TextureMetaData) (r : Nat) (s : D3DState) :
    (cacheTexture id m (some r) s).textureCache id
      = some { addr := (cacheIndex id s).1.addr,
               value := { metadata := m, resourceView := r } } ∧
    (readTextureMetaData id (cacheTexture id m (some r) s)).1 = m ∧
    textureIsCached id (cacheTexture id m (some r) s) = true := by
  have hc : (cacheTexture id m (some r) s).textureCache id
      = some { addr := (cacheIndex id s).1.addr,
               value := { metadata := m, resourceView := r } } := by
    simp [cacheTexture]
  refine ⟨hc, ?_, ?_⟩
  · simp [readTextureMetaData, cacheIndex_present _ _ _ hc]
  · simp [textureIsCached, hc]

/-- C12: for every state, key `id`, metadata `m` and view handle `r` (the resource view
was created), after `cacheTexture(id, m, tex)` the call `getTextureMetaData(id)` changes
nothing and returns a reference to exactly `m`, `textureIsCached(id)` is true, whether or not
`id` was cached before, and the entry of every other key is as before. -/
theorem cacheTexture_round_trip (id : Nat) (m : TextureMetaData) (r : Nat) (s : D3DState) :
    (getTextureMetaData id (cacheTexture id m (some r) s)).2 = cacheTexture id m (some r) s ∧
    metaDataAt id (getTextureMetaData id (cacheTexture id m (some r) s)).1
      (cacheTexture id m (some r) s) = some m ∧
    (readTextureMetaData id (cacheTexture id m (some r) s)).1 = m ∧
    textureIsCached id (cacheTexture id m (some r) s) = true ∧
    (∀ k : Nat, k ≠ id →
      (cacheTexture id m (some r) s).textureCache k = s.textureCache k) := by
  have hc : (cacheTexture id m (some r) s).textureCache id
      = some { addr := (cacheIndex id s).1.addr,
               value := { metadata := m, resourceView := r } } := by
    simp [cacheTexture]
  refine ⟨?_, ?_, ?_, ?_, ?_⟩
  · simp [getTextureMetaData, cacheIndex_present _ _ _ hc]
  · simp [getTextureMetaData, cacheIndex_present _ _ _ hc, metaDataAt, hc]
  · simp [readTextureMetaData, cacheIndex_present _ _ _ hc]
  · simp [textureIsCached, hc]
  · intro k hk
    have := cacheIndex_others id s k hk
    simp only [cacheTexture, Function.update_apply, if_neg hk]
    exact this

/-- C14: `deleteTexture(id)` changes nothing when `id` is not cached; when it is cached,
`textureIsCached(id)` is false afterwards and the entry of every other key (membership,
metadata, view) is as before. -/
theorem deleteTexture_evicts_only_key (id : Nat) (s : D3DState) :
    (textureIsCached id s = false → deleteTexture id s = s) ∧
    (textureIsCached id s = true →
      textureIsCached id (deleteTexture id s) = false ∧
      (∀ k : Nat, k ≠ id → (deleteTexture id s).textureCache k = s.textureCache k)) := by
  unfold textureIsCached deleteTexture
  cases h : s.textureCache id with
  | none => simp
  | some n =>
    simp only [Option.isSome_some, Bool.true_eq_false, false_implies, true_implies, true_and]
    refine ⟨by simp, fun k hk => ?_⟩
    simp only [Function.update_apply, if_neg hk]
    split_ifs <;> rfl

/-- C14, at the cache holding texture `7` only: deleting `9` is a no-op, deleting `7`
evicts it. -/
theorem deleteTexture_evicts_only_key_witness :
    textureIsCached 9 oneCached = false ∧ deleteTexture 9 oneCached = oneCached ∧
    textureIsCached 7 oneCached = true ∧ textureIsCached 7 (deleteTexture 7 oneCached) = false :=
  ⟨by decide, (deleteTexture_evicts_only_key 9 oneCached).1 (by decide), by decide,
   ((deleteTexture_evicts_only_key 7 oneCached).2 (by decide)).1⟩

/-! ## The texture pass table along every run -/

theorem sameBindings_refl (s : D3DState) : SameBindings s s := ⟨rfl, rfl, rfl⟩

theorem sameBindings_trans {a b c : D3DState} (h1 : SameBindings a b) (h2 : SameBindings b c) :
    SameBindings a c :=
  ⟨h1.1.trans h2.1, h1.2.1.trans h2.2.1, h1.2.2.trans h2.2.2⟩

theorem PassInv.of_sameBindings {a b : D3DState} (h : SameBindings a b) (hb : PassInv b) :
    PassInv a := by
  intro p hp
  rw [h.1] at hp
  rw [h.2.1]
  exact hb p hp

theorem commit_bindings (s : D3DState) : SameBindings (commit s) s :=
  ⟨(commit_texture_fields s).1, (commit_texture_fields s).2.1, (commit_texture_fields s).2.2.1⟩

theorem map_bindings (clear : Bool) (s : D3DState) : SameBindings (map clear s) s := by
  unfold map
  cases clear <;> split_ifs <;> exact ⟨rfl, rfl, rfl⟩

theorem render_bindings (s : D3DState) : SameBindings (render s) s := by
  unfold render switchToPass D3DState.emit
  simp only []
  split_ifs <;> exact ⟨rfl, rfl, rfl⟩

theorem restart_bindings (s : D3DState) : SameBindings (map true (render s)) s :=
  sameBindings_trans (map_bindings true _) (render_bindings s)

theorem indexTriangleFan_bindings (num : Int) (s : D3DState) :
    SameBindings (indexTriangleFan num s) s := by
  unfold indexTriangleFan
  simp only []
  obtain ⟨buf, h⟩ := fanLoop_frame (num - 2).toNat 1
    (if addSigned s.numIndices ((num - 2) * 3) > I_BUFFER_SIZE then map true (render s) else s)
  rw [h]
  split_ifs
  · exact restart_bindings s
  · exact ⟨rfl, rfl, rfl⟩

theorem indexQuad_bindings (s : D3DState) : SameBindings (indexQuad s) s := by
  rw [indexQuad_frame s]
  split_ifs
  · exact restart_bindings s
  · exact ⟨rfl, rfl, rfl⟩

theorem clearDepth_bindings (s : D3DState) : SameBindings (clearDepth s) s :=
  sameBindings_trans ⟨rfl, rfl, rfl⟩ (commit_bindings s)

theorem setViewPort_bindings (X Y left top : Int) (s : D3DState) :
    SameBindings (setViewPort X Y left top s) s := by
  unfold setViewPort
  split_ifs
  · exact sameBindings_trans ⟨rfl, rfl, rfl⟩ (commit_bindings s)
  · exact ⟨rfl, rfl, rfl⟩

theorem setProjection_bindings (aspect XoverZ : FloatVal) (s : D3DState) :
    SameBindings (setProjection aspect XoverZ s) s := by
  unfold setProjection
  split_ifs
  · exact sameBindings_trans ⟨rfl, rfl, rfl⟩ (commit_bindings s)
  · exact ⟨rfl, rfl, rfl⟩

theorem setProjectionMode_bindings (mode : ProjectionMode) (s : D3DState) :
    SameBindings (setProjectionMode mode s) s := by
  unfold setProjectionMode
  split_ifs
  · exact sameBindings_trans ⟨rfl, rfl, rfl⟩ (commit_bindings s)
  · exact ⟨rfl, rfl, rfl⟩

theorem setFlags_bindings (cfg : BuildConfig) (flags D3DFlags : Nat) (s : D3DState) :
    SameBindings (setFlags cfg flags D3DFlags s) s := by
  unfold setFlags
  simp only []
  split_ifs
  all_goals first
    | exact ⟨rfl, rfl, rfl⟩
    | exact sameBindings_trans ⟨rfl, rfl, rfl⟩ (commit_bindings s)

theorem flash_bindings (enable : Bool) (color : Vec4) (s : D3DState) :
    SameBindings (flash enable color s) s := by
  unfold flash
  cases enable <;> exact ⟨rfl, rfl, rfl⟩

theorem fog_bindings (dist : FloatVal) (color : Option Vec4) (s : D3DState) :
    SameBindings (fog dist color s) s := by
  unfold fog
  simp only []
  split_ifs <;> exact sameBindings_trans ⟨rfl, rfl, rfl⟩ (commit_bindings s)

theorem cacheIndex_bindings (id : Nat) (s : D3DState) : SameBindings (cacheIndex id s).2 s := by
  unfold cacheIndex
  cases h : s.textureCache id <;> exact ⟨rfl, rfl, rfl⟩

theorem cacheTexture_bindings (id : Nat) (metadata : TextureMetaData) (view : Option Nat)
    (s : D3DState) : SameBindings (cacheTexture id metadata view s) s := by
  cases view with
  | none => exact ⟨rfl, rfl, rfl⟩
  | some r =>
    have h := cacheIndex_bindings id s
    unfold cacheTexture
    exact ⟨h.1, h.2.1, h.2.2⟩

theorem deleteTexture_bindings (id : Nat) (s : D3DState) :
    SameBindings (deleteTexture id s) s := by
  unfold deleteTexture
  cases h : s.textureCache id with
  | none => exact ⟨rfl, rfl, rfl⟩
  | some n =>
    simp only []
    split_ifs <;> exact ⟨rfl, rfl, rfl⟩

theorem updateMip_bindings (id : Nat) (mipNum : Int) (s : D3DState) :
    SameBindings (updateMip id mipNum s) s := by
  unfold updateMip
  simp only []
  split_ifs
  · exact sameBindings_trans ⟨rfl, rfl, rfl⟩
      (sameBindings_trans (cacheIndex_bindings id (commit s)) (commit_bindings s))
  · exact sameBindings_trans ⟨rfl, rfl, rfl⟩ (cacheIndex_bindings id s)

theorem createTexture_bindings (desc : Texture2DDesc) (result : Option Nat) (s : D3DState) :
    SameBindings (createTexture desc result s).2 s := by
  cases result <;> exact ⟨rfl, rfl, rfl⟩

theorem convertAndCache_bindings (cfg : BuildConfig) (env : TexEnv) (Info : FTextureInfo)
    (PolyFlags : Nat) (s : D3DState) :
    SameBindings (convertAndCache cfg env Info PolyFlags s).2 s := by
  unfold convertAndCache
  split_ifs
  · exact ⟨rfl, rfl, rfl⟩
  · exact ⟨rfl, rfl, rfl⟩
  · simp only []
    have hc := createTexture_bindings
      (textureDesc (convertMips cfg Info (formatOf Info.Format) PolyFlags).1
        (formatOf Info.Format)) env.texture s
    cases h : (createTexture (textureDesc (convertMips cfg Info (formatOf Info.Format)
        PolyFlags).1 (formatOf Info.Format)) env.texture s).1 with
    | none => exact hc
    | some texture =>
      simp only []
      exact sameBindings_trans (sameBindings_trans ⟨rfl, rfl, rfl⟩
        (cacheTexture_bindings _ _ _ _)) hc

theorem PrecacheTexture_bindings (cfg : BuildConfig) (env : TexEnv) (Info : FTextureInfo)
    (PolyFlags : Nat) (s : D3DState) :
    SameBindings (PrecacheTexture cfg env Info PolyFlags s).2 s := by
  unfold PrecacheTexture
  split_ifs
  · exact updateMip_bindings _ _ s
  · exact sameBindings_trans (convertAndCache_bindings _ _ _ _ _)
      (sameBindings_trans (deleteTexture_bindings _ _) (cacheIndex_bindings _ _))
  · exact cacheIndex_bindings _ _
  · exact sameBindings_refl s
  · exact convertAndCache_bindings _ _ _ _ _

/-- What `setTexture` does to the pass table: the bound key of the pass becomes `id`, the
other passes keep their enabled flags, and unbinding (`id = 0`) a pass that had a key
disables it. -/
theorem setTexture_table (pass : TexturePass) (id : Nat) (s : D3DState) :
    (setTexture pass id s).2.boundTextureID = Function.update s.boundTextureID pass id ∧
    (∀ q : TexturePass, q ≠ pass → (setTexture pass id s).2.enabled q = s.enabled q) ∧
    (id = s.boundTextureID pass → (setTexture pass id s).2.enabled = s.enabled) ∧
    (id = 0 → id ≠ s.boundTextureID pass → (setTexture pass id s).2.enabled pass = false) := by
  obtain ⟨c1, c2, c3, c4⟩ := commit_texture_fields
    { s with boundTextureID := Function.update s.boundTextureID pass id }
  simp only [] at c1 c2 c3 c4
  by_cases hb : id = s.boundTextureID pass
  · have e : setTexture pass id s = (s.metadata pass, s) := by
      simp [setTexture, hb.symm]
    rw [e]
    refine ⟨?_, fun _ _ => rfl, fun _ => rfl, fun _ h => absurd hb h⟩
    simp only []
    rw [hb]
    exact (Function.update_eq_self pass s.boundTextureID).symm
  · have hb2 : id ≠ s.boundTextureID pass := hb
    by_cases h0 : id = 0
    · simp only [setTexture, if_pos hb2, if_pos h0, D3DState.emit]
      rw [c1, c2]
      refine ⟨rfl, fun q hq => ?_, fun h => absurd h hb, fun _ _ => ?_⟩
      · simp [Function.update_apply, hq]
      · simp
    · cases hc : (commit { s with
          boundTextureID := Function.update s.boundTextureID pass id }).textureCache id with
      | none =>
        simp only [setTexture, if_pos hb2, if_neg h0, hc]
        rw [c1, c2]
        exact ⟨rfl, fun _ _ => rfl, fun h => absurd h hb, fun h => absurd h h0⟩
      | some tex =>
        simp only [setTexture, if_pos hb2, if_neg h0, hc, D3DState.emit]
        refine ⟨?_, fun q hq => ?_, fun h => absurd h hb, fun h => absurd h h0⟩
        · split_ifs <;> exact c1
        · split_ifs
          · simp only [Function.update_apply, if_neg hq]
            rw [c2]
          · rw [c2]

theorem setTexture_passInv (pass : TexturePass) (id : Nat) (s : D3DState) (h : PassInv s) :
    PassInv (setTexture pass id s).2 := by
  obtain ⟨t1, t2, t3, t4⟩ := setTexture_table pass id s
  intro q hq
  rw [t1] at hq
  by_cases hqp : q = pass
  · subst hqp
    simp only [Function.update_same] at hq
    by_cases hb : id = s.boundTextureID q
    · rw [t3 hb]
      exact h q (by rw [← hb]; exact hq)
    · exact t4 hq hb
  · rw [Function.update_apply, if_neg hqp] at hq
    rw [t2 q hqp]
    exact h q hq

/-- Unbinding a list of passes, as the first loop of `flush` does. -/
theorem unbindAll_table (l : List TexturePass) : ∀ s : D3DState, PassInv s →
    PassInv (l.foldl (fun st i => (setTexture i 0 st).2) s) ∧
    (∀ q : TexturePass, q ∈ l ∨ s.boundTextureID q = 0 →
      (l.foldl (fun st i => (setTexture i 0 st).2) s).boundTextureID q = 0) := by
  induction l with
  | nil =>
    intro s h
    refine ⟨h, fun q hq => ?_⟩
    rcases hq with hq | hq
    · exact absurd hq (List.not_mem_nil q)
    · exact hq
  | cons p l ih =>
    intro s h
    rw [List.foldl_cons]
    obtain ⟨i1, i2⟩ := ih _ (setTexture_passInv p 0 s h)
    refine ⟨i1, fun q hq => ?_⟩
    apply i2
    have t1 := (setTexture_table p 0 s).1
    by_cases hqp : q = p
    · right
      rw [t1, hqp]
      simp
    · rcases hq with hq | hq
      · rcases List.mem_cons.mp hq with hq | hq
        · exact absurd hq hqp
        · exact Or.inl hq
      · right
        rw [t1, Function.update_apply, if_neg hqp]
        exact hq

theorem flush_passInv (s : D3DState) (h : PassInv s) : PassInv (flush s) := by
  have h1 := (unbindAll_table TexturePass.all s h).1
  unfold flush
  generalize TexturePass.all.foldl (fun st i => (setTexture i 0 st).2) s = t at h1
  exact h1

theorem Op.run_passInv (cfg : BuildConfig) (op : Op) (s : D3DState) (h : PassInv s) :
    PassInv (op.run cfg s) := by
  cases op with
  | map clear => exact PassInv.of_sameBindings (map_bindings clear s) h
  | render => exact PassInv.of_sameBindings (render_bindings s) h
  | commit => exact PassInv.of_sameBindings (commit_bindings s) h
  | indexTriangleFan num => exact PassInv.of_sameBindings (indexTriangleFan_bindings num s) h
  | indexQuad => exact PassInv.of_sameBindings (indexQuad_bindings s) h
  | getVertex => exact h
  | clearDepth => exact PassInv.of_sameBindings (clearDepth_bindings s) h
  | setViewPort X Y left top =>
    exact PassInv.of_sameBindings (setViewPort_bindings X Y left top s) h
  | setProjection aspect XoverZ =>
    exact PassInv.of_sameBindings (setProjection_bindings aspect XoverZ s) h
  | setProjectionMode mode => exact PassInv.of_sameBindings (setProjectionMode_bindings mode s) h
  | setFlags flags D3DFlags =>
    exact PassInv.of_sameBindings (setFlags_bindings cfg flags D3DFlags s) h
  | flash enable color => exact PassInv.of_sameBindings (flash_bindings enable color s) h
  | fog dist color => exact PassInv.of_sameBindings (fog_bindings dist color s) h
  | cacheTexture id metadata view =>
    exact PassInv.of_sameBindings (cacheTexture_bindings id metadata view s) h
  | getTextureMetaData id => exact PassInv.of_sameBindings (cacheIndex_bindings id s) h
  | setTexture pass id => exact setTexture_passInv pass id s h
  | deleteTexture id => exact PassInv.of_sameBindings (deleteTexture_bindings id s) h
  | updateMip id mipNum => exact PassInv.of_sameBindings (updateMip_bindings id mipNum s) h
  | flush => exact flush_passInv s h
  | PrecacheTexture env Info PolyFlags =>
    exact PassInv.of_sameBindings (PrecacheTexture_bindings cfg env Info PolyFlags s) h
  | newFrame => exact fun p hp => h p hp
  | clear clearColor => exact fun p hp => h p hp
  | present => exact fun p hp => h p hp

/-- In every state of a run, a pass without a bound key is disabled. -/
theorem Reachable.passInv {cfg : BuildConfig} {s : D3DState} (h : Reachable cfg s) :
    PassInv s := by
  induction h with
  | initial => intro p _; rfl
  | step op s _ _ ih => exact Op.run_passInv cfg op s ih

/-- C13: after `D3D::flush()`, from every state in which a pass without a bound key is
disabled (`PassInv`, which holds at program start and is kept by every operation, so in
every state of a run, `Reachable.passInv`): `textureIsCached(key)` is false for every key,
and every pass has the bound key `0` (none) and is disabled. -/
theorem flush_clears_cache_and_passes (s : D3DState) (hp : PassInv s) :
    (∀ key : Nat, textureIsCached key (flush s) = false) ∧
    (∀ pass : TexturePass,
      (flush s).boundTextureID pass = 0 ∧ (flush s).enabled pass = false) := by
  obtain ⟨h1, h2⟩ := unbindAll_table TexturePass.all s hp
  have hall : ∀ pass : TexturePass, pass ∈ TexturePass.all := by
    intro pass
    cases pass <;> simp [TexturePass.all]
  unfold flush
  generalize TexturePass.all.foldl (fun st i => (setTexture i 0 st).2) s = t at h1 h2
  refine ⟨fun key => rfl, fun pass => ?_⟩
  have hb := h2 pass (Or.inl (hall pass))
  exact ⟨hb, h1 pass hb⟩

theorem frameBoundThenMissing_reachable (cfg : BuildConfig) :
    Reachable cfg frameBoundThenMissing :=
  Reachable.step (Op.setTexture .PASS_DIFFUSE 9) _
    (Reachable.step (Op.setTexture .PASS_DIFFUSE 7) _
      (Reachable.step (Op.cacheTexture 7 sampleMetaData (some 100)) _
        (frameStart_reachable cfg) rfl) rfl) rfl

theorem frameBoundThenMissing_passInv : PassInv frameBoundThenMissing := by
  intro p
  cases p <;> decide

/-- C13, in the first frame (after `Lock`), after texture `7` was cached and bound and the
uncached key `9` was tried. -/
theorem flush_clears_cache_and_passes_witness :
    Reachable unrealBuild frameBoundThenMissing ∧ PassInv frameBoundThenMissing ∧
    textureIsCached 7 frameBoundThenMissing = true ∧
    frameBoundThenMissing.enabled .PASS_DIFFUSE = true ∧
    textureIsCached 7 (flush frameBoundThenMissing) = false ∧
    (flush frameBoundThenMissing).boundTextureID .PASS_DIFFUSE = 0 ∧
    (flush frameBoundThenMissing).enabled .PASS_DIFFUSE = false := by
  have h := flush_clears_cache_and_passes frameBoundThenMissing frameBoundThenMissing_passInv
  exact ⟨frameBoundThenMissing_reachable unrealBuild, frameBoundThenMissing_passInv,
    by decide, by decide, h.1 7, (h.2 .PASS_DIFFUSE).1, (h.2 .PASS_DIFFUSE).2⟩

/-! ## `updateMip` -/

theorem anyBound_iff (id : Nat) (s : D3DState) :
    TexturePass.all.any (fun i => s.boundTextureID i == id) = true ↔
      ∃ p : TexturePass, s.boundTextureID p = id := by
  constructor
  · intro h
    obtain ⟨p, _, hp⟩ := List.any_eq_true.mp h
    exact ⟨p, by simpa using hp⟩
  · intro h
    obtain ⟨p, hp⟩ := h
    apply List.any_eq_true.mpr
    refine ⟨p, ?_, by simpa using hp⟩
    cases p <;> simp [TexturePass.all]

/-- C15: in every state that satisfies the cursor invariant of the runs (`BufferInv`; every
state of a run satisfies it, `Reachable.inv`) and for every cached key `id`,
`updateMip(id, mip, data)` draws the pending geometry before the copy exactly when `id` is the bound key of one of
the five passes and indices are undrawn: then the trace grows by the draw of the undrawn
range, the re-mapping and only then `UpdateSubresource`, with `numUndrawnIndices = 0`;
otherwise it grows by `UpdateSubresource` alone and the cursors are unchanged.  In both
cases the copy goes into the resource of the existing entry, and the texture cache (keys,
metadata, views) and the pass bindings are unchanged. -/
theorem updateMip_flushes_iff_bound (s : D3DState) (id : Nat)
    (mipNum : Int) (hinv : BufferInv s) (hc : textureIsCached id s = true) :
    ∃ n : CacheNode, s.textureCache id = some n ∧
      (((∃ p : TexturePass, s.boundTextureID p = id) ∧ 0 < s.numUndrawnIndices) →
        (updateMip id mipNum s).trace = s.trace ++ drawCalls s ++ mapCalls false ++
          [GpuCall.UpdateSubresource n.value.resourceView mipNum] ∧
        countDraws (updateMip id mipNum s).trace = countDraws s.trace + 1 ∧
        (updateMip id mipNum s).numUndrawnIndices = 0) ∧
      (¬ ((∃ p : TexturePass, s.boundTextureID p = id) ∧ 0 < s.numUndrawnIndices) →
        (updateMip id mipNum s).trace = s.trace ++
          [GpuCall.UpdateSubresource n.value.resourceView mipNum] ∧
        SameCursors (updateMip id mipNum s) s) ∧
      (updateMip id mipNum s).textureCache = s.textureCache ∧
      (updateMip id mipNum s).nextAddr = s.nextAddr ∧
      SameBindings (updateMip id mipNum s) s := by
  cases hn : s.textureCache id with
  | none => simp [textureIsCached, hn] at hc
  | some n =>
    refine ⟨n, rfl, ?_, ?_, ?_, ?_, updateMip_bindings id mipNum s⟩
    · intro hb
      obtain ⟨hbound, hpos⟩ := hb
      have hany := (anyBound_iff id s).mpr hbound
      have hm : s.mapped = true := by
        cases hm : s.mapped
        · have := hinv.2 hm; omega
        · rfl
      have hcm := commit_pending s hm hinv.1 hpos
      have hcache : (commit s).textureCache id = some n := by
        rw [(commit_texture_fields s).2.2.2]; exact hn
      have e : updateMip id mipNum s = (commit s).emit
          (GpuCall.UpdateSubresource n.value.resourceView mipNum) := by
        simp only [updateMip, hany, if_true, cacheIndex_present id (commit s) n hcache]
      rw [e]
      refine ⟨?_, ?_, ?_⟩
      · simp only [D3DState.emit, hcm]
      · simp only [D3DState.emit, hcm, countDraws_append, countDraws_drawCalls,
          countDraws_mapCalls]
        simp [countDraws, List.countP_cons, GpuCall.isDraw]
      · simp only [D3DState.emit, hcm]
    · intro hnb
      by_cases hany : TexturePass.all.any (fun i => s.boundTextureID i == id) = true
      · have hu : s.numUndrawnIndices = 0 := by
          by_contra hne
          exact hnb ⟨(anyBound_iff id s).mp hany, by omega⟩
        have e : updateMip id mipNum s = s.emit
            (GpuCall.UpdateSubresource n.value.resourceView mipNum) := by
          simp only [updateMip, hany, if_true, commit_idle s hu, cacheIndex_present id s n hn]
        rw [e]
        exact ⟨rfl, ⟨rfl, rfl, rfl, rfl, rfl⟩⟩
      · have e : updateMip id mipNum s = s.emit
            (GpuCall.UpdateSubresource n.value.resourceView mipNum) := by
          simp only [updateMip, if_neg hany, cacheIndex_present id s n hn]
        rw [e]
        exact ⟨rfl, ⟨rfl, rfl, rfl, rfl, rfl⟩⟩
    · by_cases hany : TexturePass.all.any (fun i => s.boundTextureID i == id) = true
      · have hcache : (commit s).textureCache id = some n := by
          rw [(commit_texture_fields s).2.2.2]; exact hn
        simp only [updateMip, hany, if_true, cacheIndex_present id (commit s) n hcache,
          D3DState.emit]
        exact (commit_texture_fields s).2.2.2
      · simp only [updateMip, if_neg hany, cacheIndex_present id s n hn, D3DState.emit]
    · by_cases hany : TexturePass.all.any (fun i => s.boundTextureID i == id) = true
      · have hcache : (commit s).textureCache id = some n := by
          rw [(commit_texture_fields s).2.2.2]; exact hn
        simp only [updateMip, hany, if_true, cacheIndex_present id (commit s) n hcache,
          D3DState.emit]
        unfold commit render map switchToPass D3DState.emit
        cases hm : s.mapped <;> simp <;> split_ifs <;> simp_all
      · simp only [updateMip, if_neg hany, cacheIndex_present id s n hn, D3DState.emit]

theorem frameBoundAndPending_reachable (cfg : BuildConfig) :
    Reachable cfg frameBoundAndPending :=
  Reachable.step Op.indexQuad _
    (Reachable.step (Op.setTexture .PASS_DIFFUSE 7) _
      (Reachable.step (Op.cacheTexture 7 sampleMetaData (some 100)) _
        (frameStart_reachable cfg) rfl) rfl) (by decide)

/-- C15, in the first frame (after `Lock`) at texture `7` bound to the diffuse pass with a
quad pending: updating it draws the quad first. -/
theorem updateMip_flushes_iff_bound_witness :
    Reachable unrealBuild frameBoundAndPending ∧
    (BufferInv frameBoundAndPending ∧ textureIsCached 7 frameBoundAndPending = true) ∧
    (updateMip 7 0 frameBoundAndPending).numUndrawnIndices = 0 ∧
    countDraws (updateMip 7 0 frameBoundAndPending).trace
      = countDraws frameBoundAndPending.trace + 1 ∧
    (updateMip 7 0 frameBoundAndPending).textureCache = frameBoundAndPending.textureCache := by
  have hinv : BufferInv frameBoundAndPending := ⟨by decide, by decide⟩
  obtain ⟨n, _, h1, _, h3, _, _⟩ := updateMip_flushes_iff_bound frameBoundAndPending 7 0
    hinv (by decide)
  obtain ⟨_, a2, a3⟩ := h1 ⟨⟨.PASS_DIFFUSE, by decide⟩, by decide⟩
  exact ⟨frameBoundAndPending_reachable unrealBuild, ⟨hinv, by decide⟩, a3, a2, h3⟩

/-! ## Paletted conversion -/

/-- The loop of `fromPaletted` stores, one after the other, the palette words of the source
bytes at offsets `i, ..., i + remaining - 1`. -/
theorem paletteLoop_eq (palette source : List Nat) (remaining : Nat) :
    ∀ (i : Nat) (dest : List Nat),
      paletteLoop palette source remaining i dest
        = dest ++ (List.range remaining).map (fun j => palette.getD (source.getD (i + j) 0) 0) := by
  induction remaining with
  | zero => intro i dest; simp [paletteLoop]
  | succ n ih =>
    intro i dest
    have e : (fun j => palette.getD (source.getD (i + 1 + j) 0) 0)
        = ((fun j => palette.getD (source.getD (i + j) 0) 0) ∘ Nat.succ) := by
      funext j
      simp only [Function.comp_apply]
      congr 2
      omega
    rw [paletteLoop, ih, List.range_succ_eq_map, List.map_cons, List.map_map,
      List.append_assoc, e]
    rfl

/-- The words `fromPaletted` stores, in order: one palette entry per index byte of the
mip, looked up in the palette as it is after the write to entry `0`. -/
theorem fromPaletted_output (cfg : BuildConfig) (Info : FTextureInfo) (PolyFlags : Nat)
    (mipLevel : Nat) :
    (fromPaletted cfg Info PolyFlags mipLevel).2 =
      (List.range ((Info.mip mipLevel).USize * (Info.mip mipLevel).VSize)).map
        (fun j => (if PolyFlags &&& cfg.PF_Masked ≠ 0 then Info.Palette.set 0 0
          else Info.Palette).getD ((Info.mip mipLevel).DataPtr.getD j 0) 0) := by
  have hmip : ∀ I : FTextureInfo, I.Mips = Info.Mips → I.mip mipLevel = Info.mip mipLevel := by
    intro I hI
    simp [FTextureInfo.mip, hI]
  unfold fromPaletted
  simp only [paletteLoop_eq, List.nil_append, Nat.zero_add]
  by_cases hm : PolyFlags &&& cfg.PF_Masked ≠ 0
  · have e := hmip { Info with Palette := Info.Palette.set 0 0 } rfl
    simp only [if_pos hm, e]
  · simp only [if_neg hm]

/-- C19: for every descriptor and mip level, `fromPaletted` stores exactly `USize*VSize`
words, and the word at position `i` is `P'[src[i]]`, where `src` is the mip data and `P'`
is the palette with entry `0` replaced by the all-zero colour when `PF_Masked` is set and
the palette itself when it is not.  So with the mask set every pixel of index `0` is the
all-zero colour, and without it every pixel of index `0` has the colour of palette entry
`0`. -/
theorem fromPaletted_is_palette_lookup (cfg : BuildConfig) (Info : FTextureInfo)
    (PolyFlags : Nat) (mipLevel : Nat) :
    (fromPaletted cfg Info PolyFlags mipLevel).2.length
      = (Info.mip mipLevel).USize * (Info.mip mipLevel).VSize ∧
    (∀ i : Nat, i < (Info.mip mipLevel).USize * (Info.mip mipLevel).VSize →
      (fromPaletted cfg Info PolyFlags mipLevel).2[i]? =
        some ((if PolyFlags &&& cfg.PF_Masked ≠ 0 then Info.Palette.set 0 0
          else Info.Palette).getD ((Info.mip mipLevel).DataPtr.getD i 0) 0)) ∧
    (∀ i : Nat, i < (Info.mip mipLevel).USize * (Info.mip mipLevel).VSize →
      (Info.mip mipLevel).DataPtr.getD i 0 = 0 →
      (PolyFlags &&& cfg.PF_Masked ≠ 0 →
        (fromPaletted cfg Info PolyFlags mipLevel).2[i]? = some 0) ∧
      (PolyFlags &&& cfg.PF_Masked = 0 →
        (fromPaletted cfg Info PolyFlags mipLevel).2[i]? = some (Info.Palette.getD 0 0))) := by
  have hout := fromPaletted_output cfg Info PolyFlags mipLevel
  have hget : ∀ i : Nat, i < (Info.mip mipLevel).USize * (Info.mip mipLevel).VSize →
      (fromPaletted cfg Info PolyFlags mipLevel).2[i]? =
        some ((if PolyFlags &&& cfg.PF_Masked ≠ 0 then Info.Palette.set 0 0
          else Info.Palette).getD ((Info.mip mipLevel).DataPtr.getD i 0) 0) := by
    intro i hi
    rw [hout, List.getElem?_map, List.getElem?_range hi]
    rfl
  refine ⟨by rw [hout]; simp, hget, ?_⟩
  intro i hi h0
  constructor
  · intro hm
    rw [hget i hi, h0, if_pos hm]
    cases hp : Info.Palette with
    | nil => rfl
    | cons a l => rfl
  · intro hm
    have hm2 : ¬ (PolyFlags &&& cfg.PF_Masked ≠ 0) := by
      intro h; exact h hm
    rw [hget i hi, h0, if_neg hm2]

/-- C19, at the sample texture: pixel `0` has index `0`, pixel `1` has index `1`. -/
theorem fromPaletted_is_palette_lookup_witness :
    (0 : Nat) < (sampleTexture.mip 0).USize * (sampleTexture.mip 0).VSize ∧
    (sampleTexture.mip 0).DataPtr.getD 0 0 = 0 ∧
    (fromPaletted unrealBuild sampleTexture unrealBuild.PF_Masked 0).2[0]? = some 0 ∧
    (fromPaletted unrealBuild sampleTexture 0 0).2[0]? = some 1000 ∧
    (fromPaletted unrealBuild sampleTexture unrealBuild.PF_Masked 0).2[1]? = some 1001 := by
  have h := (fromPaletted_is_palette_lookup unrealBuild sampleTexture unrealBuild.PF_Masked 0).2
  have h2 := (fromPaletted_is_palette_lookup unrealBuild sampleTexture 0 0).2
  refine ⟨by decide, by decide, ?_, ?_, ?_⟩
  · exact ((h.2 0 (by decide) (by decide)).1 (by decide))
  · exact ((h2.2 0 (by decide) (by decide)).2 (by decide))
  · rw [h.1 1 (by decide)]
    decide

/-! ## `convertMip`: allocation and stores -/

/-- For the paletted format `convertMip` allocates `USize * max(VClamp >> mipLevel, 1)` words
and `fromPaletted` stores `USize * VSize` words, `USize` and `VSize` being those of the
mip. -/
theorem convertMip_paletted_sizes (cfg : BuildConfig) (Info : FTextureInfo) (PolyFlags : Nat)
    (mipLevel : Nat) :
    (convertMip cfg Info (formatOf TEXF_P8) PolyFlags mipLevel).2.allocated
      = some ((Info.mip mipLevel).USize * max (Info.VClamp >>> mipLevel) 1) ∧
    (convertMip cfg Info (formatOf TEXF_P8) PolyFlags mipLevel).2.pSysMem.length
      = (Info.mip mipLevel).USize * (Info.mip mipLevel).VSize := by
  have hd : (formatOf TEXF_P8).directAssign = false := rfl
  have hc : (formatOf TEXF_P8).conversionFunc = some .fromPaletted := rfl
  have hl : (fromPaletted cfg Info PolyFlags mipLevel).2.length
      = (Info.mip mipLevel).USize * (Info.mip mipLevel).VSize := by
    rw [fromPaletted_output]
    simp
  simp only [convertMip, hd, hc, Bool.false_eq_true, if_false]
  exact ⟨trivial, hl⟩

/-- C20 fails on the code: for the paletted texture of 4 by 4 pixels with the clamp
rectangle 4 by 2, `convertMip` allocates `4 * max(2 >> 0, 1) = 8` words for mip `0` and the
conversion stores `4 * 4 = 16` words, eight of them past the end of the buffer. -/
theorem convertMip_stores_past_allocation :
    clampedTexture.Format = TEXF_P8 ∧ (formatOf TEXF_P8).directAssign = false ∧
    (convertMip unrealBuild clampedTexture (formatOf clampedTexture.Format) 0 0).2.allocated
      = some 8 ∧
    (convertMip unrealBuild clampedTexture (formatOf clampedTexture.Format) 0 0).2.pSysMem.length
      = 16 := by
  decide

/-! ## `convertAndCache` -/

theorem sameButPalette_refl (a : FTextureInfo) : SameButPalette a a := rfl

theorem sameButPalette_trans {a b c : FTextureInfo} (h1 : SameButPalette a b)
    (h2 : SameButPalette b c) : SameButPalette a c := by
  unfold SameButPalette at *
  rw [h1, h2]

theorem fromPaletted_info (cfg : BuildConfig) (Info : FTextureInfo) (PolyFlags : Nat)
    (mipLevel : Nat) : SameButPalette (fromPaletted cfg Info PolyFlags mipLevel).1 Info := by
  unfold fromPaletted SameButPalette
  simp only []
  split_ifs <;> rfl

theorem convertMip_info (cfg : BuildConfig) (Info : FTextureInfo) (format : TextureFormat)
    (PolyFlags : Nat) (mipLevel : Nat) :
    SameButPalette (convertMip cfg Info format PolyFlags mipLevel).1 Info := by
  unfold convertMip
  cases hd : format.directAssign
  · simp only [Bool.false_eq_true, if_false]
    cases h : format.conversionFunc with
    | none => exact sameButPalette_refl Info
    | some f =>
      cases f
      exact fromPaletted_info cfg Info PolyFlags mipLevel
  · simp only [if_true]
    exact sameButPalette_refl Info

theorem convertMips_info (cfg : BuildConfig) (Info : FTextureInfo) (format : TextureFormat)
    (PolyFlags : Nat) : SameButPalette (convertMips cfg Info format PolyFlags).1 Info := by
  have h : ∀ (l : List Nat) (acc : FTextureInfo × List SubresourceData),
      SameButPalette (l.foldl (fun acc i =>
        ((convertMip cfg acc.1 format PolyFlags i).1,
          acc.2 ++ [(convertMip cfg acc.1 format PolyFlags i).2])) acc).1 acc.1 := by
    intro l
    induction l with
    | nil => intro acc; exact sameButPalette_refl _
    | cons i l ih =>
      intro acc
      rw [List.foldl_cons]
      exact sameButPalette_trans (ih _) (convertMip_info cfg acc.1 format PolyFlags i)
  exact h (List.range Info.NumMips) (Info, [])

/-- `convertAndCache` on a supported format with both creations succeeding: one
`CreateTexture2D`, the entry of the key is written, the texture is released. -/
theorem convertAndCache_success (cfg : BuildConfig) (env : TexEnv) (Info : FTextureInfo)
    (PolyFlags : Nat) (s : D3DState) (t r : Nat) (hf : Info.Format ≤ TEXF_RGBA8)
    (hs : (formatOf Info.Format).supported = true) (ht : env.texture = some t)
    (hv : env.view = some r) :
    (convertAndCache cfg env Info PolyFlags s).2 =
      (cacheTexture Info.CacheID
        { multU := env.multU, multV := env.multV
          masked := decide (PolyFlags &&& cfg.PF_Masked ≠ 0) } (some r)
        (s.emit (.CreateTexture2D (textureDesc
          (convertMips cfg Info (formatOf Info.Format) PolyFlags).1
          (formatOf Info.Format))))).emit (.ReleaseTexture t) := by
  have h1 : ¬ Info.Format > TEXF_RGBA8 := by omega
  have h2 : ¬ (formatOf Info.Format).supported = false := by rw [hs]; simp
  have hid : (convertMips cfg Info (formatOf Info.Format) PolyFlags).1.CacheID = Info.CacheID := by
    have := convertMips_info cfg Info (formatOf Info.Format) PolyFlags
    unfold SameButPalette at this
    rw [this]
  simp only [convertAndCache, if_neg h1, if_neg h2, createTexture, ht, hv, hid]

/-- The entry `convertAndCache` leaves for the key when it succeeds. -/
theorem convertAndCache_entry (cfg : BuildConfig) (env : TexEnv) (Info : FTextureInfo)
    (PolyFlags : Nat) (s : D3DState) (t r : Nat) (hf : Info.Format ≤ TEXF_RGBA8)
    (hs : (formatOf Info.Format).supported = true) (ht : env.texture = some t)
    (hv : env.view = some r) :
    textureIsCached Info.CacheID (convertAndCache cfg env Info PolyFlags s).2 = true ∧
    (readTextureMetaData Info.CacheID (convertAndCache cfg env Info PolyFlags s).2).1
      = { multU := env.multU, multV := env.multV
          masked := decide (PolyFlags &&& cfg.PF_Masked ≠ 0) } ∧
    (readTextureMetaData Info.CacheID (convertAndCache cfg env Info PolyFlags s).2).2
      = (convertAndCache cfg env Info PolyFlags s).2 := by
  rw [convertAndCache_success cfg env Info PolyFlags s t r hf hs ht hv]
  have h := cacheTexture_entry Info.CacheID
    { multU := env.multU, multV := env.multV
      masked := decide (PolyFlags &&& cfg.PF_Masked ≠ 0) } r
    (s.emit (.CreateTexture2D (textureDesc
      (convertMips cfg Info (formatOf Info.Format) PolyFlags).1 (formatOf Info.Format))))
  obtain ⟨_, h3, h4⟩ := h
  generalize cacheTexture Info.CacheID _ (some r) _ = c at h3 h4 ⊢
  have hcache : ∃ n, c.textureCache Info.CacheID = some n := by
    cases hc : c.textureCache Info.CacheID with
    | none => simp [textureIsCached, hc] at h4
    | some n => exact ⟨n, rfl⟩
  obtain ⟨n, hn⟩ := hcache
  have hn2 : (c.emit (.ReleaseTexture t)).textureCache Info.CacheID = some n := hn
  refine ⟨by simp [textureIsCached, hn2], ?_, ?_⟩
  · simp only [readTextureMetaData, cacheIndex_present _ _ n hn2]
    simp only [readTextureMetaData, cacheIndex_present _ _ n hn] at h3
    exact h3
  · simp only [readTextureMetaData, cacheIndex_present _ _ n hn2]

/-- C18: `convertAndCache` leaves the texture cache as it is when the format value is
above `TEXF_RGBA8` (5) or the registry entry of the format has `supported = false` (then
it only logs and creates nothing); the formats with a supported registry entry are exactly
`TEXF_P8`, `TEXF_RGBA7`, `TEXF_DXT1` and `TEXF_RGBA8`, the unsupported ones `TEXF_RGB16` and
`TEXF_RGB8`; and for a supported format, with the texture and its resource view created
successfully, the key is cached afterwards. -/
theorem convertAndCache_fails_iff_unsupported (cfg : BuildConfig) (env : TexEnv)
    (Info : FTextureInfo) (PolyFlags : Nat) (s : D3DState) :
    (TEXF_RGBA8 < Info.Format ∨ (formatOf Info.Format).supported = false →
      (convertAndCache cfg env Info PolyFlags s).2.textureCache = s.textureCache ∧
      (∀ k : Nat, textureIsCached k (convertAndCache cfg env Info PolyFlags s).2
        = textureIsCached k s) ∧
      countCreates (convertAndCache cfg env Info PolyFlags s).2.trace = countCreates s.trace ∧
      (convertAndCache cfg env Info PolyFlags s).1 = Info) ∧
    (∀ f : Nat, (f ≤ TEXF_RGBA8 ∧ (formatOf f).supported = true) ↔
      (f = TEXF_P8 ∨ f = TEXF_RGBA7 ∨ f = TEXF_DXT1 ∨ f = TEXF_RGBA8)) ∧
    (∀ f : Nat, (f ≤ TEXF_RGBA8 ∧ (formatOf f).supported = false) ↔
      (f = TEXF_RGB16 ∨ f = TEXF_RGB8)) ∧
    (∀ t r : Nat, Info.Format ≤ TEXF_RGBA8 → (formatOf Info.Format).supported = true →
      env.texture = some t → env.view = some r →
      textureIsCached Info.CacheID (convertAndCache cfg env Info PolyFlags s).2 = true) := by
  refine ⟨?_, ?_, ?_, ?_⟩
  · intro h
    have hres : convertAndCache cfg env Info PolyFlags s = (Info, s.emit .LogUnknownType) ∨
        convertAndCache cfg env Info PolyFlags s = (Info, s.emit .LogUnsupportedType) := by
      by_cases h1 : Info.Format > TEXF_RGBA8
      · left
        simp only [convertAndCache, if_pos h1]
      · right
        have h2 : (formatOf Info.Format).supported = false := by
          rcases h with h | h
          · exact absurd h h1
          · exact h
        simp only [convertAndCache, if_neg h1, if_pos h2]
    rcases hres with e | e <;> rw [e] <;>
      exact ⟨rfl, fun _ => rfl, by simp [countCreates, D3DState.emit, List.countP_append], rfl⟩
  · intro f
    constructor
    · intro ⟨hf, hs⟩
      have hf5 : f ≤ 5 := hf
      interval_cases f <;> simp_all [formatOf, formats, TEXF_P8, TEXF_RGBA7, TEXF_DXT1, TEXF_RGBA8]
    · intro h
      rcases h with h | h | h | h <;> subst h <;> decide
  · intro f
    constructor
    · intro ⟨hf, hs⟩
      have hf5 : f ≤ 5 := hf
      interval_cases f <;> simp_all [formatOf, formats, TEXF_RGB16, TEXF_RGB8]
    · intro h
      rcases h with h | h <;> subst h <;> decide
  · intro t r hf hs ht hv
    exact (convertAndCache_entry cfg env Info PolyFlags s t r hf hs ht hv).1

/-- C18, at the sample texture (format `TEXF_P8`) and the same descriptor with the format
`TEXF_RGB16`. -/
theorem convertAndCache_fails_iff_unsupported_witness :
    textureIsCached 7 (convertAndCache unrealBuild sampleEnv sampleTexture 0 lockedState).2
      = true ∧
    (formatOf TEXF_RGB16).supported = false ∧
    textureIsCached 7 (convertAndCache unrealBuild sampleEnv
      { sampleTexture with Format := TEXF_RGB16 } 0 lockedState).2 = false := by
  have h := convertAndCache_fails_iff_unsupported unrealBuild sampleEnv sampleTexture 0
    lockedState
  have h2 := convertAndCache_fails_iff_unsupported unrealBuild sampleEnv
    { sampleTexture with Format := TEXF_RGB16 } 0 lockedState
  refine ⟨h.2.2.2 50 100 (by decide) (by decide) rfl rfl, by decide, ?_⟩
  rw [(h2.1 (Or.inr (by decide))).2.1 7]
  decide

/-! ## `PrecacheTexture` -/

theorem readTextureMetaData_present (id : Nat) (s : D3DState)
    (h : textureIsCached id s = true) : (readTextureMetaData id s).2 = s := by
  cases hn : s.textureCache id with
  | none => simp [textureIsCached, hn] at h
  | some n => simp only [readTextureMetaData, cacheIndex_present id s n hn]

theorem cacheIndex_trace (id : Nat) (s : D3DState) : (cacheIndex id s).2.trace = s.trace := by
  unfold cacheIndex
  cases h : s.textureCache id <;> rfl

theorem cacheTexture_trace (id : Nat) (m : TextureMetaData) (r : Nat) (s : D3DState) :
    (cacheTexture id m (some r) s).trace = s.trace := by
  simp only [cacheTexture]
  exact cacheIndex_trace id s

theorem countCreates_deleteTexture (id : Nat) (s : D3DState) :
    countCreates (deleteTexture id s).trace = countCreates s.trace := by
  unfold deleteTexture
  cases h : s.textureCache id with
  | none => rfl
  | some n =>
    simp only []
    split_ifs
    · simp [countCreates, D3DState.emit, List.countP_append]
    · rfl

theorem deleteTexture_absent_after (id : Nat) (s : D3DState) :
    textureIsCached id (deleteTexture id s) = false := by
  unfold deleteTexture textureIsCached
  cases h : s.textureCache id with
  | none => simp [h]
  | some n => simp

theorem countCreates_convertAndCache (cfg : BuildConfig) (env : TexEnv) (Info : FTextureInfo)
    (PolyFlags : Nat) (s : D3DState) (t r : Nat) (hf : Info.Format ≤ TEXF_RGBA8)
    (hs : (formatOf Info.Format).supported = true) (ht : env.texture = some t)
    (hv : env.view = some r) :
    countCreates (convertAndCache cfg env Info PolyFlags s).2.trace
      = countCreates s.trace + 1 := by
  rw [convertAndCache_success cfg env Info PolyFlags s t r hf hs ht hv]
  simp only [D3DState.emit, cacheTexture_trace]
  simp [countCreates, List.countP_append]

theorem convertAndCache_info (cfg : BuildConfig) (env : TexEnv) (Info : FTextureInfo)
    (PolyFlags : Nat) (s : D3DState) :
    SameButPalette (convertAndCache cfg env Info PolyFlags s).1 Info := by
  have hc := convertMips_info cfg Info (formatOf Info.Format) PolyFlags
  unfold convertAndCache
  split_ifs
  · exact sameButPalette_refl Info
  · exact sameButPalette_refl Info
  · simp only []
    cases h : (createTexture (textureDesc (convertMips cfg Info (formatOf Info.Format)
        PolyFlags).1 (formatOf Info.Format)) env.texture s).1 <;> exact hc

/-- C16 fails as stated: texture `7` is cached unmasked and its format `TEXF_P8` is
supported, but the descriptor is flagged realtime-changed; `PrecacheTexture` with `PF_Masked`
then takes the update path: one `UpdateSubresource`, no delete and no re-creation, the cache
entry is the same and its `masked` flag is still false. -/
theorem PrecacheTexture_realtime_keeps_unmasked :
    textureIsCached 7 oneCached = true ∧
    (readTextureMetaData 7 oneCached).1.masked = false ∧
    (formatOf sampleTexture.Format).supported = true ∧
    unrealBuild.PF_Masked &&& unrealBuild.PF_Masked ≠ 0 ∧
    (PrecacheTexture unrealBuild sampleEnv { sampleTexture with bRealtimeChanged := true }
      unrealBuild.PF_Masked oneCached).2.trace
      = oneCached.trace ++ [GpuCall.UpdateSubresource 100 0] ∧
    (PrecacheTexture unrealBuild sampleEnv { sampleTexture with bRealtimeChanged := true }
      unrealBuild.PF_Masked oneCached).2.textureCache 7 = oneCached.textureCache 7 ∧
    (readTextureMetaData 7
      (PrecacheTexture unrealBuild sampleEnv { sampleTexture with bRealtimeChanged := true }
        unrealBuild.PF_Masked oneCached).2).1.masked = false := by
  decide

/-- C16, amended: for every texture of a supported format that is cached with
`metadata.masked = false` and is not flagged realtime-changed, `PrecacheTexture(Info,
PolyFlags)` with `PF_Masked` set, the texture and its resource view being created
successfully, is one `deleteTexture` of the key followed by one `convertAndCache`: the key
is absent in between, one `CreateTexture2D` is issued, and afterwards the key is cached and
`getTextureMetaData(Info.CacheID).masked` is true. -/
theorem PrecacheTexture_masked_recache (cfg : BuildConfig) (env : TexEnv)
    (Info : FTextureInfo) (PolyFlags : Nat) (s : D3DState) (t r : Nat)
    (hc : textureIsCached Info.CacheID s = true)
    (hm : (readTextureMetaData Info.CacheID s).1.masked = false)
    (hrt : Info.bRealtimeChanged = false) (hpf : PolyFlags &&& cfg.PF_Masked ≠ 0)
    (hf : Info.Format ≤ TEXF_RGBA8) (hs : (formatOf Info.Format).supported = true)
    (ht : env.texture = some t) (hv : env.view = some r) :
    PrecacheTexture cfg env Info PolyFlags s
      = convertAndCache cfg env Info PolyFlags (deleteTexture Info.CacheID s) ∧
    textureIsCached Info.CacheID (deleteTexture Info.CacheID s) = false ∧
    countCreates (PrecacheTexture cfg env Info PolyFlags s).2.trace
      = countCreates s.trace + 1 ∧
    textureIsCached Info.CacheID (PrecacheTexture cfg env Info PolyFlags s).2 = true ∧
    (readTextureMetaData Info.CacheID
      (PrecacheTexture cfg env Info PolyFlags s).2).1.masked = true := by
  have hrt2 : ¬ (Info.bRealtimeChanged = true) := by rw [hrt]; simp
  have e : PrecacheTexture cfg env Info PolyFlags s
      = convertAndCache cfg env Info PolyFlags (deleteTexture Info.CacheID s) := by
    simp only [PrecacheTexture, if_pos hc, if_neg hrt2, if_pos hpf, if_pos hm,
      readTextureMetaData_present _ _ hc]
  have hentry := convertAndCache_entry cfg env Info PolyFlags (deleteTexture Info.CacheID s)
    t r hf hs ht hv
  refine ⟨e, deleteTexture_absent_after _ _, ?_, ?_, ?_⟩
  · rw [e, countCreates_convertAndCache cfg env Info PolyFlags _ t r hf hs ht hv,
      countCreates_deleteTexture]
  · rw [e]; exact hentry.1
  · rw [e, hentry.2.1]
    simp [hpf]

/-- C16, amended, at the sample texture cached unmasked after `Lock`. -/
theorem PrecacheTexture_masked_recache_witness :
    textureIsCached 7 oneCached = true ∧
    (readTextureMetaData 7 oneCached).1.masked = false ∧
    (readTextureMetaData 7
      (PrecacheTexture unrealBuild sampleEnv sampleTexture unrealBuild.PF_Masked
        oneCached).2).1.masked = true :=
  ⟨by decide, by decide,
   (PrecacheTexture_masked_recache unrealBuild sampleEnv sampleTexture unrealBuild.PF_Masked
      oneCached 50 100 (by decide) (by decide) (by decide) (by decide) (by decide) (by decide)
      rfl rfl).2.2.2.2⟩

/-- C17 fails as stated: when `CreateTexture2D` fails, the first `PrecacheTexture` of a
static texture of a supported format caches nothing, and the second call with the same
descriptor and flags converts and tries to create the texture again: the state after the
first call is not left as it is. -/
theorem PrecacheTexture_retries_after_failure :
    sampleTexture.bRealtimeChanged = false ∧
    (formatOf sampleTexture.Format).supported = true ∧
    textureIsCached 7 (PrecacheTexture unrealBuild failingEnv sampleTexture 0 lockedState).2
      = false ∧
    countCreates (PrecacheTexture unrealBuild failingEnv sampleTexture 0 lockedState).2.trace
      = 1 ∧
    countCreates (PrecacheTexture unrealBuild failingEnv
      (PrecacheTexture unrealBuild failingEnv sampleTexture 0 lockedState).1 0
      (PrecacheTexture unrealBuild failingEnv sampleTexture 0 lockedState).2).2.trace = 2 ∧
    (PrecacheTexture unrealBuild failingEnv
      (PrecacheTexture unrealBuild failingEnv sampleTexture 0 lockedState).1 0
      (PrecacheTexture unrealBuild failingEnv sampleTexture 0 lockedState).2).2
      ≠ (PrecacheTexture unrealBuild failingEnv sampleTexture 0 lockedState).2 := by
  refine ⟨by decide, by decide, by decide, by decide, by decide, ?_⟩
  intro h
  have ht := congrArg (fun st => countCreates st.trace) h
  revert ht
  decide

/-- C17, amended: when the key is cached, the descriptor is not flagged realtime-changed,
and it is not the case that `PF_Masked` is requested while the cached entry is unmasked,
`PrecacheTexture` does nothing: descriptor and state (cache, buffers, trace of graphics
calls) are returned as they are.  Consequently, for a texture that is not flagged
realtime-changed, of a supported format, whose texture and resource view were created
successfully, a second `PrecacheTexture` with the same descriptor and flags, whatever the
outcome of resource creation would be then, leaves the state of the first call as it is. -/
theorem PrecacheTexture_idempotent (cfg : BuildConfig) (env : TexEnv) (Info : FTextureInfo)
    (PolyFlags : Nat) (s : D3DState) :
    (textureIsCached Info.CacheID s = true → Info.bRealtimeChanged = false →
      ¬ (PolyFlags &&& cfg.PF_Masked ≠ 0 ∧
        (readTextureMetaData Info.CacheID s).1.masked = false) →
      PrecacheTexture cfg env Info PolyFlags s = (Info, s)) ∧
    (∀ (t r : Nat) (env2 : TexEnv), Info.bRealtimeChanged = false →
      Info.Format ≤ TEXF_RGBA8 → (formatOf Info.Format).supported = true →
      env.texture = some t → env.view = some r →
      PrecacheTexture cfg env2 (PrecacheTexture cfg env Info PolyFlags s).1 PolyFlags
          (PrecacheTexture cfg env Info PolyFlags s).2
        = PrecacheTexture cfg env Info PolyFlags s) := by
  have part1 : ∀ (e : TexEnv) (I : FTextureInfo) (st : D3DState),
      textureIsCached I.CacheID st = true → I.bRealtimeChanged = false →
      ¬ (PolyFlags &&& cfg.PF_Masked ≠ 0 ∧
        (readTextureMetaData I.CacheID st).1.masked = false) →
      PrecacheTexture cfg e I PolyFlags st = (I, st) := by
    intro e I st hc hrt hm
    have hrt2 : ¬ (I.bRealtimeChanged = true) := by rw [hrt]; simp
    by_cases hpf : PolyFlags &&& cfg.PF_Masked ≠ 0
    · have hm2 : ¬ ((readTextureMetaData I.CacheID st).1.masked = false) :=
        fun h => hm ⟨hpf, h⟩
      simp only [PrecacheTexture, if_pos hc, if_neg hrt2, if_pos hpf, if_neg hm2,
        readTextureMetaData_present _ _ hc]
    · simp only [PrecacheTexture, if_pos hc, if_neg hrt2, if_neg hpf]
  refine ⟨part1 env Info s, ?_⟩
  intro t r env2 hrt hf hs ht hv
  have hrt2 : ¬ (Info.bRealtimeChanged = true) := by rw [hrt]; simp
  have fresh : ∀ st : D3DState,
      PrecacheTexture cfg env2 (convertAndCache cfg env Info PolyFlags st).1 PolyFlags
        (convertAndCache cfg env Info PolyFlags st).2
      = convertAndCache cfg env Info PolyFlags st := by
    intro st
    have hinfo := convertAndCache_info cfg env Info PolyFlags st
    have hid : (convertAndCache cfg env Info PolyFlags st).1.CacheID = Info.CacheID := by
      unfold SameButPalette at hinfo
      rw [hinfo]
    have hrt3 : (convertAndCache cfg env Info PolyFlags st).1.bRealtimeChanged = false := by
      unfold SameButPalette at hinfo
      rw [hinfo]
      exact hrt
    obtain ⟨e1, e2, _⟩ := convertAndCache_entry cfg env Info PolyFlags st t r hf hs ht hv
    apply part1
    · rw [hid]; exact e1
    · exact hrt3
    · rw [hid, e2]
      intro h
      have := h.2
      simp [h.1] at this
  by_cases hc : textureIsCached Info.CacheID s = true
  · by_cases hpf : PolyFlags &&& cfg.PF_Masked ≠ 0
    · by_cases hm : (readTextureMetaData Info.CacheID s).1.masked = false
      · have e : PrecacheTexture cfg env Info PolyFlags s
            = convertAndCache cfg env Info PolyFlags (deleteTexture Info.CacheID s) := by
          simp only [PrecacheTexture, if_pos hc, if_neg hrt2, if_pos hpf, if_pos hm,
            readTextureMetaData_present _ _ hc]
        rw [e]
        exact fresh _
      · rw [part1 env Info s hc hrt (fun h => hm h.2)]
        exact part1 env2 Info s hc hrt (fun h => hm h.2)
    · rw [part1 env Info s hc hrt (fun h => hpf h.1)]
      exact part1 env2 Info s hc hrt (fun h => hpf h.1)
  · have e : PrecacheTexture cfg env Info PolyFlags s
        = convertAndCache cfg env Info PolyFlags s := by
      simp only [PrecacheTexture, if_neg hc]
    rw [e]
    exact fresh _

/-- C17, amended, at the sample texture precached twice after `Lock`. -/
theorem PrecacheTexture_idempotent_witness :
    sampleTexture.bRealtimeChanged = false ∧ sampleTexture.Format ≤ TEXF_RGBA8 ∧
    (formatOf sampleTexture.Format).supported = true ∧
    textureIsCached 7 (PrecacheTexture unrealBuild sampleEnv sampleTexture 0 lockedState).2
      = true ∧
    PrecacheTexture unrealBuild sampleEnv
        (PrecacheTexture unrealBuild sampleEnv sampleTexture 0 lockedState).1 0
        (PrecacheTexture unrealBuild sampleEnv sampleTexture 0 lockedState).2
      = PrecacheTexture unrealBuild sampleEnv sampleTexture 0 lockedState :=
  ⟨by decide, by decide, by decide, by decide,
   (PrecacheTexture_idempotent unrealBuild sampleEnv sampleTexture 0 lockedState).2 50 100
      sampleEnv (by decide) (by decide) (by decide) rfl rfl⟩

/-! ## `findAALevel` -/

theorem toUInt_natCast (r : Nat) (h : r < 4294967296) : toUInt (r : Int) = r := by
  unfold toUInt
  omega

theorem toInt_small (c : Nat) (h : c < 2147483648) : toInt c = (c : Int) := by
  unfold toInt
  have e : c % 4294967296 = c := Nat.mod_eq_of_lt (by omega)
  rw [e, if_pos h]

/-- The loop of `findAALevel` when every query succeeds: it stops at the largest supported
count at most `c`, or at zero, having queried the counts from `c` downwards. -/
theorem aaLoop_descends (levels : Nat → Nat) : ∀ (c : Nat) (q : List Nat),
    ∃ k : Nat, aaLoop (fun n => some (levels n)) c q =
        { failed := false, SampleCount := k,
          queried := q ++ (List.range' (max k 1) (c + 1 - max k 1)).reverse } ∧
      k ≤ c ∧ (k ≠ 0 → levels k ≠ 0) ∧ (∀ n, k < n → n ≤ c → levels n = 0) := by
  intro c
  induction c with
  | zero =>
    intro q
    refine ⟨0, ?_, Nat.le_refl _, fun h => absurd rfl h, fun n h1 h2 => by omega⟩
    simp [aaLoop]
  | succ c ih =>
    intro q
    by_cases hl : levels (c + 1) ≠ 0
    · refine ⟨c + 1, ?_, Nat.le_refl _, fun _ => hl, fun n h1 h2 => by omega⟩
      have e : max (c + 1) 1 = c + 1 := by omega
      have e2 : c + 1 + 1 - (c + 1) = 1 := by omega
      simp only [aaLoop, if_pos hl, e, e2]
      rfl
    · obtain ⟨k, hk, hle, hsup, hno⟩ := ih (q ++ [c + 1])
      refine ⟨k, ?_, by omega, hsup, ?_⟩
      · simp only [aaLoop, if_neg hl, hk]
        have hm : max k 1 ≤ c + 1 := by omega
        have e : c + 1 + 1 - max k 1 = (c + 1 - max k 1) + 1 := by omega
        have e3 : max k 1 + (c + 1 - max k 1) = c + 1 := by omega
        rw [e, List.range'_concat, List.reverse_append, Nat.one_mul, e3]
        simp
      · intro n h1 h2
        by_cases hn : n = c + 1
        · rw [hn]
          exact not_not.mp hl
        · exact hno n h1 (by omega)

/-- C21 fails as stated: with hardware that reports no quality level for any sample count,
`findAALevel` with `options.samples = 4` returns success after querying 4, 3, 2 and 1, and
sets `options.samples` to `0`, below 1. -/
theorem findAALevel_none_supported_gives_zero :
    findAALevel noSupport 4
      = { ret := 1, samples := 0, queried := [4, 3, 2, 1], decreased := true } := by
  decide

/-- C21, amended: for every hardware support predicate `levels` (the number of quality
levels per sample count, every query succeeding) and every requested count `1 ≤ r`,
`findAALevel` returns 1 and sets `options.samples` to `c`, where `c` is the largest count
`1 ≤ c ≤ r` with a quality level if there is one (so `c = r` when `r` is supported and
`1 ≤ c` as soon as one count in `1..r` is supported) and `c = 0` if none of `1..r` is
supported; the counts are queried in descending order from `r` down to `c`, down to 1 when
none is supported. -/
theorem findAALevel_largest_supported (levels : Nat → Nat) (r : Nat) (h1 : 1 ≤ r)
    (h2 : r < 2147483648) :
    ∃ c : Nat,
      findAALevel (fun n => some (levels n)) (r : Int) =
        { ret := 1, samples := (c : Int),
          queried := (List.range' (max c 1) (r + 1 - max c 1)).reverse,
          decreased := decide (c ≠ r) } ∧
      c ≤ r ∧ (c ≠ 0 → levels c ≠ 0) ∧ (∀ n, c < n → n ≤ r → levels n = 0) ∧
      ((∃ n, 1 ≤ n ∧ n ≤ r ∧ levels n ≠ 0) → 1 ≤ c) ∧
      ((∀ n, 1 ≤ n → n ≤ r → levels n = 0) → c = 0) ∧
      (levels r ≠ 0 → c = r) := by
  obtain ⟨k, hk, hle, hsup, hno⟩ := aaLoop_descends levels r []
  refine ⟨k, ?_, hle, hsup, hno, ?_, ?_, ?_⟩
  · unfold findAALevel
    simp only [toUInt_natCast r (by omega), hk, List.nil_append]
    by_cases hkr : k = r
    · subst hkr
      simp
    · have hkr2 : k ≠ r := hkr
      simp [hkr2, toInt_small k (by omega)]
  · rintro ⟨n, hn1, hn2, hn3⟩
    by_contra hc
    have hk0 : k = 0 := by omega
    exact hn3 (hno n (by omega) hn2)
  · intro hall
    by_contra hc
    exact hsup hc (hall k (by omega) hle)
  · intro hr
    by_contra hc
    exact hr (hno r (by omega) (Nat.le_refl _))

/-- C21, amended, at hardware supporting the counts 1, 2 and 4, with 8 samples requested:
`options.samples` becomes 4 after the queries 8, 7, 6, 5, 4. -/
theorem findAALevel_largest_supported_witness :
    (1 ≤ 8 ∧ 8 < 2147483648) ∧
    findAALevel upToFour 8
      = { ret := 1, samples := 4, queried := [8, 7, 6, 5, 4], decreased := true } ∧
    ∃ c : Nat,
      findAALevel upToFour ((8 : Nat) : Int) =
        { ret := 1, samples := (c : Int),
          queried := (List.range' (max c 1) (8 + 1 - max c 1)).reverse,
          decreased := decide (c ≠ 8) } ∧ c ≤ 8 :=
  ⟨by decide, by decide,
   (findAALevel_largest_supported (fun c => if c = 1 ∨ c = 2 ∨ c = 4 then 1 else 0) 8
      (by decide) (by decide)).imp fun _ h => ⟨h.1, h.2.1⟩⟩

/-! ## `Lock` -/

theorem flash_eq (enable : Bool) (color : Vec4) (s : D3DState) :
    flash enable color s = { s with trace := s.trace ++ flashCalls enable color } := by
  cases enable <;> simp [flash, flashCalls, D3DState.emit]

/-- The state `Lock` hands to `clearDepth`. -/
theorem Lock_eq (setFlash : Bool) (color ScreenClear : Vec4) (s : D3DState) (w : Bool) :
    (Lock setFlash color ScreenClear { d3d := s, drawingWeapon := w }).d3d
      = map true (clear ScreenClear (clearDepth
          { s with trace := s.trace ++ [GpuCall.SetTime] ++ flashCalls setFlash color })) := by
  cases setFlash <;> simp [Lock, newFrame, flash_eq, D3DState.emit]

theorem commit_mapped (s : D3DState) (hm : s.mapped = true) : (commit s).mapped = true := by
  unfold commit render map switchToPass D3DState.emit
  simp only [hm]
  split_ifs <;> simp_all

/-- An operation that leaves the cursors as they are, or as `commit` leaves them, keeps
mapped buffers mapped. -/
theorem mapped_of_cursors {r s : D3DState}
    (h : SameCursors r s ∨ SameCursors r (commit s)) (hm : s.mapped = true) :
    r.mapped = true := by
  rcases h with h | h
  · rw [h.1]; exact hm
  · rw [h.1]; exact commit_mapped s hm

/-- `Lock` is a run of operations: `newFrame`, `flash`, `clearDepth`, `clear`,
`map(true)`. -/
theorem Lock_reachable (cfg : BuildConfig) (setFlash : Bool) (color ScreenClear : Vec4)
    (d : DeviceState) (hr : Reachable cfg d.d3d) :
    Reachable cfg (Lock setFlash color ScreenClear d).d3d := by
  cases setFlash
  · exact Reachable.step (Op.map true) _
      (Reachable.step (Op.clear ScreenClear) _
        (Reachable.step Op.clearDepth _
          (Reachable.step (Op.flash false color) _
            (Reachable.step Op.newFrame _ hr rfl) rfl) rfl) rfl) rfl
  · exact Reachable.step (Op.map true) _
      (Reachable.step (Op.clear ScreenClear) _
        (Reachable.step Op.clearDepth _
          (Reachable.step (Op.flash true color) _
            (Reachable.step Op.newFrame _ hr rfl) rfl) rfl) rfl) rfl

/-- `Unlock` is a run of operations: `render`, and `present` when `Blit` is set. -/
theorem Unlock_reachable (cfg : BuildConfig) (Blit : Bool) (s : D3DState)
    (hr : Reachable cfg s) : Reachable cfg (Unlock Blit s) := by
  cases Blit
  · exact Reachable.step Op.render _ hr rfl
  · exact Reachable.step Op.present _ (Reachable.step Op.render _ hr rfl) rfl

theorem unbindExtraPasses_reachable (cfg : BuildConfig) (s : D3DState)
    (hr : Reachable cfg s) (hm : s.mapped = true) :
    Reachable cfg (unbindExtraPasses s) ∧ (unbindExtraPasses s).mapped = true := by
  have m1 := mapped_of_cursors (setTexture_cursors .PASS_LIGHT 0 s) hm
  have m2 := mapped_of_cursors (setTexture_cursors .PASS_DETAIL 0 _) m1
  have m3 := mapped_of_cursors (setTexture_cursors .PASS_FOG 0 _) m2
  have m4 := mapped_of_cursors (setTexture_cursors .PASS_MACRO 0 _) m3
  exact ⟨Reachable.step (Op.setTexture .PASS_MACRO 0) _
    (Reachable.step (Op.setTexture .PASS_FOG 0) _
      (Reachable.step (Op.setTexture .PASS_DETAIL 0) _
        (Reachable.step (Op.setTexture .PASS_LIGHT 0) _ hr rfl) rfl) rfl) rfl, m4⟩

theorem indexQuad_mapped (s : D3DState) (hm : s.mapped = true) :
    (indexQuad s).mapped = true := by
  rw [indexQuad_frame s]
  split_ifs
  · exact (restart_cursors s).2.2.2.1
  · exact hm

/-- Within a frame (buffers mapped) `DrawTile` is a run of operations: the states it
passes through are states of a run. -/
theorem DrawTile_reachable (cfg : BuildConfig) (env : TexEnv) (Frame : FSceneNode)
    (RProjZ : FloatVal) (Info : FTextureInfo) (PolyFlags : Nat) (s : D3DState)
    (hr : Reachable cfg s) (hm : s.mapped = true) :
    Reachable cfg (DrawTile cfg env Frame RProjZ Info PolyFlags s).2 := by
  have r1 : Reachable cfg (setProjectionMode .PROJ_Z_ONLY s) :=
    Reachable.step (Op.setProjectionMode .PROJ_Z_ONLY) _ hr rfl
  have m1 := mapped_of_cursors (setProjectionMode_cursors .PROJ_Z_ONLY s) hm
  have r2 : Reachable cfg (setViewPort Frame.X Frame.Y Frame.XB Frame.YB
      (setProjectionMode .PROJ_Z_ONLY s)) :=
    Reachable.step (Op.setViewPort Frame.X Frame.Y Frame.XB Frame.YB) _ r1 rfl
  have m2 := mapped_of_cursors (setViewPort_cursors Frame.X Frame.Y Frame.XB Frame.YB _) m1
  have r3 : Reachable cfg (SetSceneNode Frame RProjZ (setProjectionMode .PROJ_Z_ONLY s)) :=
    Reachable.step (Op.setProjection Frame.aspect RProjZ) _ r2 rfl
  have m3 : (SetSceneNode Frame RProjZ (setProjectionMode .PROJ_Z_ONLY s)).mapped = true :=
    mapped_of_cursors (setProjection_cursors Frame.aspect RProjZ _) m2
  have r4 : Reachable cfg (PrecacheTexture cfg env Info PolyFlags
      (SetSceneNode Frame RProjZ (setProjectionMode .PROJ_Z_ONLY s))).2 :=
    Reachable.step (Op.PrecacheTexture env Info PolyFlags) _ r3 rfl
  have m4 := mapped_of_cursors (PrecacheTexture_cursors cfg env Info PolyFlags _) m3
  have r5 : Reachable cfg (setTexture .PASS_DIFFUSE
      (PrecacheTexture cfg env Info PolyFlags
        (SetSceneNode Frame RProjZ (setProjectionMode .PROJ_Z_ONLY s))).1.CacheID
      (PrecacheTexture cfg env Info PolyFlags
        (SetSceneNode Frame RProjZ (setProjectionMode .PROJ_Z_ONLY s))).2).2 :=
    Reachable.step (Op.setTexture .PASS_DIFFUSE _) _ r4 rfl
  have m5 := mapped_of_cursors (setTexture_cursors .PASS_DIFFUSE
      (PrecacheTexture cfg env Info PolyFlags
        (SetSceneNode Frame RProjZ (setProjectionMode .PROJ_Z_ONLY s))).1.CacheID _) m4
  cases hd : (setTexture .PASS_DIFFUSE
      (PrecacheTexture cfg env Info PolyFlags
        (SetSceneNode Frame RProjZ (setProjectionMode .PROJ_Z_ONLY s))).1.CacheID
      (PrecacheTexture cfg env Info PolyFlags
        (SetSceneNode Frame RProjZ (setProjectionMode .PROJ_Z_ONLY s))).2).1 with
  | none =>
    simp only [DrawTile, hd]
    exact r5
  | some a =>
    simp only [DrawTile, hd]
    obtain ⟨r6, m6⟩ := unbindExtraPasses_reachable cfg _ r5 m5
    have r7 : Reachable cfg (setFlags cfg PolyFlags 0 _) :=
      Reachable.step (Op.setFlags PolyFlags 0) _ r6 rfl
    have m7 := mapped_of_cursors (setFlags_cursors cfg PolyFlags 0 _) m6
    have okq : Op.indexQuad.ok (setFlags cfg PolyFlags 0 (unbindExtraPasses (setTexture .PASS_DIFFUSE
      (PrecacheTexture cfg env Info PolyFlags
        (SetSceneNode Frame RProjZ (setProjectionMode .PROJ_Z_ONLY s))).1.CacheID
      (PrecacheTexture cfg env Info PolyFlags
        (SetSceneNode Frame RProjZ (setProjectionMode .PROJ_Z_ONLY s))).2).2)) = true := by
      simp [Op.ok, m7]
    have r8 := Reachable.step Op.indexQuad _ r7 okq
    have m8 := indexQuad_mapped _ m7
    have r9 := Reachable.step Op.getVertex _ r8 m8
    have r10 := Reachable.step Op.getVertex _ r9 m8
    have r11 := Reachable.step Op.getVertex _ r10 m8
    exact Reachable.step Op.getVertex _ r11 m8

theorem tileDrawn_reachable : Reachable unrealBuild tileDrawn :=
  DrawTile_reachable unrealBuild sampleEnv sampleFrame (.num 1) sampleTexture 0 frameStart
    (frameStart_reachable unrealBuild) (by decide)

/-- C22 fails as stated: in the frame opened by the first `Lock`, `DrawTile` buffers one
tile (a quad with its four vertices).  A second `Lock` in that state draws the quad before
the depth clear and leaves the buffers mapped, but `map(true)` finds them mapped and returns
at once: `numVerts` is still 4 and `numIndices` still 6. -/
theorem Lock_while_mapped_keeps_cursors :
    Reachable unrealBuild tileDrawn ∧
    tileDrawn.mapped = true ∧ tileDrawn.numVerts = 4 ∧ tileDrawn.numIndices = 6 ∧
    tileDrawn.numUndrawnIndices = 6 ∧
    (Lock false sampleColor sampleColor
      { d3d := tileDrawn, drawingWeapon := false }).d3d.mapped = true ∧
    (Lock false sampleColor sampleColor
      { d3d := tileDrawn, drawingWeapon := false }).d3d.numVerts = 4 ∧
    (Lock false sampleColor sampleColor
      { d3d := tileDrawn, drawingWeapon := false }).d3d.numIndices = 6 ∧
    (Lock false sampleColor sampleColor
      { d3d := tileDrawn, drawingWeapon := false }).d3d.numUndrawnIndices = 0 :=
  ⟨tileDrawn_reachable, by decide, by decide, by decide, by decide, by decide, by decide,
    by decide, by decide⟩

theorem Lock_unmapped (setFlash : Bool) (color ScreenClear : Vec4) (s : D3DState) (w : Bool)
    (hm : s.mapped = false) (hu : s.numUndrawnIndices = 0) :
    (Lock setFlash color ScreenClear { d3d := s, drawingWeapon := w }).d3d
      = { s with mapped := true, numVerts := 0, numIndices := 0, numUndrawnIndices := 0
                 trace := s.trace ++ [GpuCall.SetTime] ++ flashCalls setFlash color ++
                   [GpuCall.ClearDepthStencilView, GpuCall.ClearRenderTargetView ScreenClear] ++
                   mapCalls true } := by
  have e := commit_idle
    ({ s with trace := s.trace ++ [GpuCall.SetTime] ++ flashCalls setFlash color } : D3DState) hu
  rw [Lock_eq]
  unfold clearDepth
  rw [e]
  simp [map, clear, D3DState.emit, hm, mapCalls]

theorem Lock_mapped (setFlash : Bool) (color ScreenClear : Vec4) (s : D3DState) (w : Bool)
    (hm : s.mapped = true) (hle : s.numUndrawnIndices ≤ s.numIndices) :
    (Lock setFlash color ScreenClear { d3d := s, drawingWeapon := w }).d3d
      = { s with numUndrawnIndices := 0
                 currIndex := if 0 < s.numUndrawnIndices then 0 else s.currIndex
                 trace := s.trace ++ [GpuCall.SetTime] ++ flashCalls setFlash color ++
                   (if 0 < s.numUndrawnIndices then drawCalls s ++ mapCalls false else []) ++
                   [GpuCall.ClearDepthStencilView, GpuCall.ClearRenderTargetView ScreenClear] } := by
  rw [Lock_eq]
  unfold clearDepth
  by_cases hpos : 0 < s.numUndrawnIndices
  · have e := commit_pending
      ({ s with trace := s.trace ++ [GpuCall.SetTime] ++ flashCalls setFlash color } : D3DState)
      hm hle hpos
    rw [e]
    simp [map, clear, D3DState.emit, hm, hpos, drawCalls]
  · have hu : s.numUndrawnIndices = 0 := by omega
    have e := commit_idle
      ({ s with trace := s.trace ++ [GpuCall.SetTime] ++ flashCalls setFlash color } : D3DState) hu
    rw [e]
    simp only [map, clear, D3DState.emit, hm, if_neg hpos, if_true, List.append_nil]
    rw [← hu]
    simp

/-- `Unlock` leaves the buffers unmapped with nothing undrawn. -/
theorem Unlock_unmapped (Blit : Bool) (s : D3DState) (h : BufferInv s) :
    (Unlock Blit s).mapped = false ∧ (Unlock Blit s).numUndrawnIndices = 0 := by
  have hr : (render s).mapped = false ∧ (render s).numUndrawnIndices = 0 := by
    cases hm : s.mapped
    · have e : render s = s := by simp [render, hm]
      rw [e]
      exact ⟨hm, h.2 hm⟩
    · rw [render_draws s hm h.1]
      exact ⟨rfl, rfl⟩
  cases Blit
  · simpa [Unlock] using hr
  · simpa [Unlock, present, D3DState.emit] using hr

/-- C22, amended: from every state that satisfies the cursor invariant of the runs
(`BufferInv`: the undrawn indices are among the buffered ones, and nothing is undrawn while
the buffers are unmapped; every state of a run satisfies it, `Reachable.inv`, and `Lock`,
`Unlock` and `DrawTile` are runs), after `Lock` the buffers are mapped and
`numUndrawnIndices = 0`, the depth buffer has been cleared, and geometry that was still
undrawn was drawn before the depth clear.  When the buffers are not mapped at entry (at
program start, and after `Unlock`, whatever `Blit` is) `numVerts = numIndices = 0` as well;
when they are still mapped at entry (`Lock` without `Unlock` before it), `map(true)`
returns at once and `numVerts` and `numIndices` keep their values. -/
theorem Lock_resets_unmapped_buffers (s : D3DState) (w setFlash : Bool)
    (color ScreenClear : Vec4) (hinv : BufferInv s) :
    (Lock setFlash color ScreenClear { d3d := s, drawingWeapon := w }).d3d.mapped = true ∧
    (Lock setFlash color ScreenClear { d3d := s, drawingWeapon := w }).d3d.numUndrawnIndices
      = 0 ∧
    (s.mapped = false →
      (Lock setFlash color ScreenClear { d3d := s, drawingWeapon := w }).d3d.numVerts = 0 ∧
      (Lock setFlash color ScreenClear { d3d := s, drawingWeapon := w }).d3d.numIndices = 0 ∧
      (Lock setFlash color ScreenClear { d3d := s, drawingWeapon := w }).d3d.trace
        = s.trace ++ [GpuCall.SetTime] ++ flashCalls setFlash color ++
            [GpuCall.ClearDepthStencilView, GpuCall.ClearRenderTargetView ScreenClear] ++
            mapCalls true) ∧
    (s.mapped = true →
      (Lock setFlash color ScreenClear { d3d := s, drawingWeapon := w }).d3d.numVerts
        = s.numVerts ∧
      (Lock setFlash color ScreenClear { d3d := s, drawingWeapon := w }).d3d.numIndices
        = s.numIndices ∧
      (Lock setFlash color ScreenClear { d3d := s, drawingWeapon := w }).d3d.trace
        = s.trace ++ [GpuCall.SetTime] ++ flashCalls setFlash color ++
            (if 0 < s.numUndrawnIndices then drawCalls s ++ mapCalls false else []) ++
            [GpuCall.ClearDepthStencilView, GpuCall.ClearRenderTargetView ScreenClear]) ∧
    (∀ Blit : Bool,
      (Lock setFlash color ScreenClear
        { d3d := Unlock Blit s, drawingWeapon := w }).d3d.mapped = true ∧
      (Lock setFlash color ScreenClear
        { d3d := Unlock Blit s, drawingWeapon := w }).d3d.numVerts = 0 ∧
      (Lock setFlash color ScreenClear
        { d3d := Unlock Blit s, drawingWeapon := w }).d3d.numIndices = 0 ∧
      (Lock setFlash color ScreenClear
        { d3d := Unlock Blit s, drawingWeapon := w }).d3d.numUndrawnIndices = 0) := by
  refine ⟨?_, ?_, ?_, ?_, ?_⟩
  · cases hm : s.mapped
    · rw [Lock_unmapped setFlash color ScreenClear s w hm (hinv.2 hm)]
    · rw [Lock_mapped setFlash color ScreenClear s w hm hinv.1]
      exact hm
  · cases hm : s.mapped
    · rw [Lock_unmapped setFlash color ScreenClear s w hm (hinv.2 hm)]
    · rw [Lock_mapped setFlash color ScreenClear s w hm hinv.1]
  · intro hm
    rw [Lock_unmapped setFlash color ScreenClear s w hm (hinv.2 hm)]
    exact ⟨rfl, rfl, rfl⟩
  · intro hm
    rw [Lock_mapped setFlash color ScreenClear s w hm hinv.1]
    exact ⟨rfl, rfl, rfl⟩
  · intro Blit
    obtain ⟨hm, hu⟩ := Unlock_unmapped Blit s hinv
    rw [Lock_unmapped setFlash color ScreenClear (Unlock Blit s) w hm hu]
    exact ⟨rfl, rfl, rfl, rfl⟩

/-- C22, amended, at the end of the first frame with one tile drawn: `Unlock` and then
`Lock`. -/
theorem Lock_resets_unmapped_buffers_witness :
    Reachable unrealBuild tileDrawn ∧ BufferInv tileDrawn ∧
    tileDrawn.numVerts = 4 ∧
    (Lock false sampleColor sampleColor
      { d3d := Unlock true tileDrawn, drawingWeapon := false }).d3d.numVerts = 0 ∧
    (Lock false sampleColor sampleColor
      { d3d := Unlock true tileDrawn, drawingWeapon := false }).d3d.numIndices = 0 :=
  ⟨tileDrawn_reachable, ⟨by decide, by decide⟩, by decide,
   ((Lock_resets_unmapped_buffers tileDrawn false false sampleColor sampleColor
      ⟨by decide, by decide⟩).2.2.2.2 true).2.1,
   ((Lock_resets_unmapped_buffers tileDrawn false false sampleColor sampleColor
      ⟨by decide, by decide⟩).2.2.2.2 true).2.2.1⟩

/-! ## Blend classification -/

theorem or_and_self_right (a b : Nat) : (a ||| b) &&& b = b := by
  apply Nat.eq_of_testBit_eq
  intro i
  simp only [Nat.testBit_land, Nat.testBit_lor]
  cases a.testBit i <;> cases b.testBit i <;> rfl

/-- The trace of `setFlags`: nothing when no relevant bit changed; otherwise the pending
geometry is committed, then the blend state is written if a blend bit changed, then the
depth state if the occlusion bit changed. -/
theorem setFlags_trace (cfg : BuildConfig) (flags D3DFlags : Nat) (s : D3DState) :
    (setFlags cfg flags D3DFlags s).trace =
      if (s.currFlags ^^^ normaliseFlags cfg flags) &&& RELEVANT_FLAGS cfg ≠ 0 then
        (commit s).trace ++
        (if (s.currFlags ^^^ normaliseFlags cfg flags) &&& BLEND_FLAGS cfg ≠ 0
          then [GpuCall.OMSetBlendState (blendStateOf cfg (normaliseFlags cfg flags))]
          else []) ++
        (if (s.currFlags ^^^ normaliseFlags cfg flags) &&& cfg.PF_Occlude ≠ 0
          then [GpuCall.OMSetDepthStencilState
            (decide (normaliseFlags cfg flags &&& cfg.PF_Occlude ≠ 0))]
          else [])
      else s.trace := by
  unfold setFlags
  simp only [RELEVANT_D3D_FLAGS, Nat.and_zero, ne_eq, not_true_eq_false, or_false]
  split_ifs <;> simp [D3DState.emit]

/-- C23 fails as stated: in the Rune build the flag word `PF_AlphaBlend` has none of
`PF_Invisible`, `PF_Translucent`, `PF_Modulated` and `PF_Masked` set, and it is classified
as `bstate_Alpha`, not as `bstate_NoBlend`; `setFlags` writes that blend state. -/
theorem blendStateOf_rune_alpha :
    runeBuild.PF_AlphaBlend &&& runeBuild.PF_Invisible = 0 ∧
    runeBuild.PF_AlphaBlend &&& runeBuild.PF_Translucent = 0 ∧
    runeBuild.PF_AlphaBlend &&& runeBuild.PF_Modulated = 0 ∧
    runeBuild.PF_AlphaBlend &&& runeBuild.PF_Masked = 0 ∧
    blendStateOf runeBuild (normaliseFlags runeBuild runeBuild.PF_AlphaBlend)
      = .bstate_Alpha ∧
    (setFlags runeBuild runeBuild.PF_AlphaBlend 0 D3DState.initial).trace
      = [GpuCall.OMSetBlendState .bstate_Alpha, GpuCall.OMSetDepthStencilState true] := by
  decide

/-- C23, amended: the blend classification of `setFlags` is a function of the (normalised)
flag word that selects one blend state by strict priority: Invisible if `PF_Invisible` is
set; otherwise, except in the Deus Ex build, Translucent if `PF_Translucent` is set, else
Modulate if `PF_Modulated` is set, and in the Deus Ex build Modulate if `PF_Modulated` is
set, else Translucent if `PF_Translucent` is set; otherwise, in the Rune build only, Alpha
if `PF_AlphaBlend` is set; otherwise Masked if `PF_Masked` is set; otherwise NoBlend.
`setFlags` writes at most that one blend state, and when it writes the depth state, depth
testing is enabled exactly when `PF_Occlude` is set after normalisation; normalisation sets
`PF_Occlude` when neither `PF_Translucent` nor `PF_Modulated` is set and changes nothing
otherwise. -/
theorem blend_classification_priority (cfg : BuildConfig) (flags : Nat) :
    (flags &&& cfg.PF_Invisible ≠ 0 → blendStateOf cfg flags = .bstate_Invis) ∧
    (flags &&& cfg.PF_Invisible = 0 → cfg.deusex = false →
      (flags &&& cfg.PF_Translucent ≠ 0 → blendStateOf cfg flags = .bstate_Translucent) ∧
      (flags &&& cfg.PF_Translucent = 0 → flags &&& cfg.PF_Modulated ≠ 0 →
        blendStateOf cfg flags = .bstate_Modulate)) ∧
    (flags &&& cfg.PF_Invisible = 0 → cfg.deusex = true →
      (flags &&& cfg.PF_Modulated ≠ 0 → blendStateOf cfg flags = .bstate_Modulate) ∧
      (flags &&& cfg.PF_Modulated = 0 → flags &&& cfg.PF_Translucent ≠ 0 →
        blendStateOf cfg flags = .bstate_Translucent)) ∧
    (flags &&& cfg.PF_Invisible = 0 → flags &&& cfg.PF_Translucent = 0 →
      flags &&& cfg.PF_Modulated = 0 →
      (cfg.rune = true → flags &&& cfg.PF_AlphaBlend ≠ 0 →
        blendStateOf cfg flags = .bstate_Alpha) ∧
      (cfg.rune = false ∨ flags &&& cfg.PF_AlphaBlend = 0 →
        (flags &&& cfg.PF_Masked ≠ 0 → blendStateOf cfg flags = .bstate_Masked) ∧
        (flags &&& cfg.PF_Masked = 0 → blendStateOf cfg flags = .bstate_NoBlend))) ∧
    (∀ (D3DFlags : Nat) (s : D3DState),
      (setFlags cfg flags D3DFlags s).trace =
        if (s.currFlags ^^^ normaliseFlags cfg flags) &&& RELEVANT_FLAGS cfg ≠ 0 then
          (commit s).trace ++
          (if (s.currFlags ^^^ normaliseFlags cfg flags) &&& BLEND_FLAGS cfg ≠ 0
            then [GpuCall.OMSetBlendState (blendStateOf cfg (normaliseFlags cfg flags))]
            else []) ++
          (if (s.currFlags ^^^ normaliseFlags cfg flags) &&& cfg.PF_Occlude ≠ 0
            then [GpuCall.OMSetDepthStencilState
              (decide (normaliseFlags cfg flags &&& cfg.PF_Occlude ≠ 0))]
            else [])
        else s.trace) ∧
    (flags &&& (cfg.PF_Translucent ||| cfg.PF_Modulated) = 0 →
      normaliseFlags cfg flags = flags ||| cfg.PF_Occlude ∧
      normaliseFlags cfg flags &&& cfg.PF_Occlude = cfg.PF_Occlude) ∧
    (flags &&& (cfg.PF_Translucent ||| cfg.PF_Modulated) ≠ 0 →
      normaliseFlags cfg flags = flags) := by
  refine ⟨?_, ?_, ?_, ?_, ?_, ?_, ?_⟩
  · intro h
    simp [blendStateOf, h]
  · intro hi hd
    refine ⟨fun ht => ?_, fun ht hm => ?_⟩
    · simp [blendStateOf, hi, hd, ht]
    · simp [blendStateOf, hi, hd, ht, hm]
  · intro hi hd
    refine ⟨fun hm => ?_, fun hm ht => ?_⟩
    · simp [blendStateOf, hi, hd, hm]
    · simp [blendStateOf, hi, hd, ht, hm]
  · intro hi ht hm
    refine ⟨fun hr ha => ?_, fun hra => ⟨fun hk => ?_, fun hk => ?_⟩⟩
    · simp [blendStateOf, hi, ht, hm, hr, ha]
    · rcases hra with hr | ha
      · simp [blendStateOf, hi, ht, hm, hr, hk]
      · simp [blendStateOf, hi, ht, hm, ha, hk]
    · rcases hra with hr | ha
      · simp [blendStateOf, hi, ht, hm, hr, hk]
      · simp [blendStateOf, hi, ht, hm, ha, hk]
  · intro D3DFlags s
    exact setFlags_trace cfg flags D3DFlags s
  · intro h
    have e : normaliseFlags cfg flags = flags ||| cfg.PF_Occlude := by
      simp [normaliseFlags, h]
    exact ⟨e, by rw [e]; exact or_and_self_right _ _⟩
  · intro h
    simp [normaliseFlags, h]

/-- C23, amended, at the flag word with `PF_Translucent` and `PF_Modulated` both set: the
default build takes Translucent, the Deus Ex build Modulate. -/
theorem blend_classification_priority_witness :
    (0x44 &&& unrealBuild.PF_Invisible = 0 ∧ 0x44 &&& unrealBuild.PF_Translucent ≠ 0 ∧
      0x44 &&& deusexBuild.PF_Modulated ≠ 0) ∧
    blendStateOf unrealBuild 0x44 = .bstate_Translucent ∧
    blendStateOf deusexBuild 0x44 = .bstate_Modulate :=
  ⟨by decide,
   ((blend_classification_priority unrealBuild 0x44).2.1 (by decide) rfl).1 (by decide),
   ((blend_classification_priority deusexBuild 0x44).2.2.1 (by decide) rfl).1 (by decide)⟩

/-! ## Draw calls with a texture that cannot be cached -/

/-- The vertex and index cursors are kept and nothing is added to the undrawn indices. -/
theorem getVertices_cursors (k : Nat) : ∀ s : D3DState,
    (getVertices k s).numVerts = s.numVerts + k ∧
    (getVertices k s).numIndices = s.numIndices ∧
    (getVertices k s).numUndrawnIndices = s.numUndrawnIndices ∧
    (getVertices k s).iBuf = s.iBuf ∧ (getVertices k s).mapped = s.mapped ∧
    (getVertices k s).trace = s.trace ∧ (getVertices k s).currFlags = s.currFlags := by
  induction k with
  | zero => intro s; exact ⟨rfl, rfl, rfl, rfl, rfl, rfl, rfl⟩
  | succ k ih =>
    intro s
    have e : getVertices (k + 1) s = (getVertex (getVertices k s)).2 := by
      simp [getVertices, List.range_succ, List.foldl_append]
    obtain ⟨h1, h2, h3, h4, h5, h6, h7⟩ := ih s
    rw [e]
    simp only [getVertex]
    exact ⟨by rw [h1]; omega, h2, h3, h4, h5, h6, h7⟩

/-- `DrawGouraudPolygon` returns at once for fewer than three points. -/
theorem DrawGouraudPolygon_short (cfg : BuildConfig) (weaponFix : Bool) (env : TexEnv)
    (Info : FTextureInfo) (nearZ : Bool) (NumPts : Int) (PolyFlags : Nat) (d : DeviceState)
    (h : NumPts < 3) :
    DrawGouraudPolygon cfg weaponFix env Info nearZ NumPts PolyFlags d = (Info, d) := by
  simp [DrawGouraudPolygon, h]

/-- The polygon loop of `DrawComplexSurface` passes over polygons of fewer than three
points. -/
theorem drawPolys_short (Polys : List Int) : ∀ s : D3DState,
    drawPolys (Polys.filter (fun NumPts => decide (3 ≤ NumPts))) s = drawPolys Polys s := by
  induction Polys with
  | nil => intro s; rfl
  | cons n l ih =>
    intro s
    by_cases h : 3 ≤ n
    · have h2 : ¬ n < 3 := by omega
      simp only [List.filter_cons, h, decide_True, if_true]
      show drawPolys (l.filter _) (if n < 3 then s else _) = drawPolys l (if n < 3 then s else _)
      exact ih _
    · have h2 : n < 3 := by omega
      simp only [List.filter_cons, h, decide_False]
      show drawPolys (l.filter _) s = drawPolys l (if n < 3 then s else _)
      rw [if_pos h2]
      exact ih s

/-- C24 fails on the code: the diffuse pass holds texture `7` and was last asked for the
key `9`, which is not cached.  `DrawTile` with a texture of the unsupported format
`TEXF_RGB16` and the key `9` leaves the key uncached, yet `setTexture` returns the pointer
kept for the pass and the tile is buffered: six indices and four vertices more.
`DrawGouraudPolygon` with three points buffers three indices and three vertices. -/
theorem DrawTile_unsupported_repeat_is_drawn :
    Reachable unrealBuild boundThenMissing ∧
    (formatOf unsupportedTexture.Format).supported = false ∧
    unsupportedTexture.CacheID = 9 ∧
    textureIsCached 9 (DrawTile unrealBuild sampleEnv sampleFrame (.num 1) unsupportedTexture
      0 boundThenMissing).2 = false ∧
    (DrawTile unrealBuild sampleEnv sampleFrame (.num 1) unsupportedTexture 0
      boundThenMissing).2.numIndices = boundThenMissing.numIndices + 6 ∧
    (DrawTile unrealBuild sampleEnv sampleFrame (.num 1) unsupportedTexture 0
      boundThenMissing).2.numUndrawnIndices = boundThenMissing.numUndrawnIndices + 6 ∧
    (DrawTile unrealBuild sampleEnv sampleFrame (.num 1) unsupportedTexture 0
      boundThenMissing).2.numVerts = boundThenMissing.numVerts + 4 ∧
    (DrawGouraudPolygon unrealBuild false sampleEnv unsupportedTexture false 3 0
      { d3d := boundThenMissing, drawingWeapon := false }).2.d3d.numIndices
      = boundThenMissing.numIndices + 3 ∧
    (DrawGouraudPolygon unrealBuild false sampleEnv unsupportedTexture false 3 0
      { d3d := boundThenMissing, drawingWeapon := false }).2.d3d.numVerts
      = boundThenMissing.numVerts + 3 :=
  ⟨boundThenMissing_reachable unrealBuild, by decide, by decide, by decide, by decide,
    by decide, by decide, by decide, by decide⟩

theorem commit_undrawn_le (s : D3DState) :
    (commit s).numUndrawnIndices ≤ s.numUndrawnIndices := by
  unfold commit render map switchToPass D3DState.emit
  cases hm : s.mapped <;> simp <;> split_ifs <;> simp_all

/-- An operation that leaves the cursors as they are, or as `commit` leaves them, appends
neither indices nor vertices. -/
theorem kept_of_cursors {r s : D3DState}
    (h : SameCursors r s ∨ SameCursors r (commit s)) :
    r.numVerts = s.numVerts ∧ r.numIndices = s.numIndices ∧
    r.numUndrawnIndices ≤ s.numUndrawnIndices := by
  rcases h with h | h
  · exact ⟨h.2.1, h.2.2.1, Nat.le_of_eq h.2.2.2.1⟩
  · obtain ⟨k1, k2, _⟩ := commit_keeps s
    exact ⟨h.2.1.trans k1, h.2.2.1.trans k2, by rw [h.2.2.2.1]; exact commit_undrawn_le s⟩

/-- `setTexture` returns `NULL` for a key that is new to the pass and not cached. -/
theorem setTexture_null_of_new_uncached (pass : TexturePass) (id : Nat) (s : D3DState)
    (h0 : id ≠ 0) (hb : id ≠ s.boundTextureID pass) (hc : textureIsCached id s = false) :
    (setTexture pass id s).1 = none := by
  have hcache : (commit { s with boundTextureID := Function.update s.boundTextureID pass id }).textureCache id
      = none := by
    rw [(commit_texture_fields _).2.2.2]
    simpa [textureIsCached] using hc
  simp only [setTexture, if_pos hb, if_neg h0, hcache]

/-- What does hold of `DrawTile`: when `setTexture` returns `NULL` for the diffuse pass (as
it does for a key that is new to the pass and not cached), the tile is skipped: no index
and no vertex is appended. -/
theorem DrawTile_skipped (cfg : BuildConfig) (env : TexEnv) (Frame : FSceneNode)
    (RProjZ : FloatVal) (Info : FTextureInfo) (PolyFlags : Nat) (s : D3DState)
    (h : (setTexture .PASS_DIFFUSE
      (PrecacheTexture cfg env Info PolyFlags
        (SetSceneNode Frame RProjZ (setProjectionMode .PROJ_Z_ONLY s))).1.CacheID
      (PrecacheTexture cfg env Info PolyFlags
        (SetSceneNode Frame RProjZ (setProjectionMode .PROJ_Z_ONLY s))).2).1 = none) :
    (DrawTile cfg env Frame RProjZ Info PolyFlags s).2.numVerts = s.numVerts ∧
    (DrawTile cfg env Frame RProjZ Info PolyFlags s).2.numIndices = s.numIndices ∧
    (DrawTile cfg env Frame RProjZ Info PolyFlags s).2.numUndrawnIndices
      ≤ s.numUndrawnIndices := by
  have k1 := kept_of_cursors (setProjectionMode_cursors .PROJ_Z_ONLY s)
  have k2 := kept_of_cursors (setViewPort_cursors Frame.X Frame.Y Frame.XB Frame.YB
    (setProjectionMode .PROJ_Z_ONLY s))
  have k3 := kept_of_cursors (setProjection_cursors Frame.aspect RProjZ
    (setViewPort Frame.X Frame.Y Frame.XB Frame.YB (setProjectionMode .PROJ_Z_ONLY s)))
  have k4 := kept_of_cursors (PrecacheTexture_cursors cfg env Info PolyFlags
    (SetSceneNode Frame RProjZ (setProjectionMode .PROJ_Z_ONLY s)))
  have k5 := kept_of_cursors (setTexture_cursors .PASS_DIFFUSE
    (PrecacheTexture cfg env Info PolyFlags
      (SetSceneNode Frame RProjZ (setProjectionMode .PROJ_Z_ONLY s))).1.CacheID
    (PrecacheTexture cfg env Info PolyFlags
      (SetSceneNode Frame RProjZ (setProjectionMode .PROJ_Z_ONLY s))).2)
  have e : (DrawTile cfg env Frame RProjZ Info PolyFlags s).2 =
      (setTexture .PASS_DIFFUSE
        (PrecacheTexture cfg env Info PolyFlags
          (SetSceneNode Frame RProjZ (setProjectionMode .PROJ_Z_ONLY s))).1.CacheID
        (PrecacheTexture cfg env Info PolyFlags
          (SetSceneNode Frame RProjZ (setProjectionMode .PROJ_Z_ONLY s))).2).2 := by
    simp only [DrawTile, h]
  rw [e]
  unfold SetSceneNode at *
  omega

/-! ## Compressed texture dimensions -/

/-- C26 fails on the code: the `DXT1` texture of 8 by 8 pixels with the clamp rectangle
6 by 6 is created 6 by 6 (`6 + 8 mod 4`), and the one of 5 by 5 pixels is created 6 by 6
(`5 + 5 mod 4`): neither dimension is a multiple of the block size 4. -/
theorem textureDesc_dxt1_not_whole_blocks :
    dxt1Texture.Format = TEXF_DXT1 ∧ oddDxt1Texture.Format = TEXF_DXT1 ∧
    (formatOf TEXF_DXT1).blocksize = 4 ∧
    (textureDesc dxt1Texture (formatOf dxt1Texture.Format)).Width = 6 ∧
    (textureDesc dxt1Texture (formatOf dxt1Texture.Format)).Height = 6 ∧
    (textureDesc oddDxt1Texture (formatOf oddDxt1Texture.Format)).Width = 6 ∧
    (textureDesc oddDxt1Texture (formatOf oddDxt1Texture.Format)).Height = 6 ∧
    6 % (formatOf TEXF_DXT1).blocksize ≠ 0 ∧
    GpuCall.CreateTexture2D { Width := 6, Height := 6, MipLevels := 1, Format := .BC1_UNORM,
                              dynamic := false }
      ∈ (convertAndCache unrealBuild sampleEnv dxt1Texture 0 lockedState).2.trace := by
  decide

/-! ## The pointer `setTexture` keeps per pass -/

theorem boundUnmasked_reachable (cfg : BuildConfig) : Reachable cfg boundUnmasked :=
  Reachable.step (Op.setTexture .PASS_DIFFUSE 7) _
    (Reachable.step (Op.cacheTexture 7 sampleMetaData (some 100)) _
      (lockedState_reachable cfg) rfl) rfl

theorem recachedWhileBound_reachable : Reachable unrealBuild recachedWhileBound :=
  Reachable.step (Op.PrecacheTexture secondEnv sampleTexture unrealBuild.PF_Masked) _
    (boundUnmasked_reachable unrealBuild) rfl

/-- C29 fails on the code: texture `7` is bound to the diffuse pass and then cached again
as masked (`PrecacheTexture` deletes the entry, releasing view `100`, and inserts a new one
with view `101`).  `setTexture(PASS_DIFFUSE, 7)` then finds the key bound already, makes no
call, and returns the pointer kept for the pass: the address `1` of the deleted node, not
the address `2` of the node the cache holds for the key; the view set for the pass is
still the released one. -/
theorem setTexture_after_recache_returns_deleted_node :
    Reachable unrealBuild recachedWhileBound ∧
    recachedWhileBound.boundTextureID .PASS_DIFFUSE = 7 ∧
    recachedWhileBound.textureCache 7
      = some { addr := 2, value := { metadata := { multU := .num 2, multV := .num 3,
                                                    masked := true },
                                     resourceView := 101 } } ∧
    (getTextureMetaData 7 recachedWhileBound).1 = 2 ∧
    (setTexture .PASS_DIFFUSE 7 recachedWhileBound).1 = some 1 ∧
    metaDataAt 7 1 (setTexture .PASS_DIFFUSE 7 recachedWhileBound).2 = none ∧
    (setTexture .PASS_DIFFUSE 7 recachedWhileBound).2.enabled .PASS_DIFFUSE = true ∧
    (setTexture .PASS_DIFFUSE 7 recachedWhileBound).2.trace = recachedWhileBound.trace ∧
    GpuCall.SetResourceArray 100 .PASS_DIFFUSE ∈ recachedWhileBound.trace ∧
    GpuCall.Release 100 ∈ recachedWhileBound.trace ∧
    GpuCall.SetResourceArray 101 .PASS_DIFFUSE
      ∉ (setTexture .PASS_DIFFUSE 7 recachedWhileBound).2.trace :=
  ⟨recachedWhileBound_reachable, by decide, by decide, by decide, by decide, by decide,
    by decide, by decide, by decide, by decide, by decide⟩

/-! ## The palette after a masked conversion -/

theorem set_zero_getD_zero (l : List Nat) : (l.set 0 0).getD 0 0 = 0 := by
  cases l <;> rfl

/-- C30: `fromPaletted` leaves the mips, and with them the index bytes, as they are, and
everything else of the descriptor but the palette; without `PF_Masked` the descriptor is
returned as it is; with `PF_Masked` the palette is changed at entry `0` only, which becomes
the all-zero colour, and every entry from `1` on is as before.  Hence a conversion without
`PF_Masked` of a descriptor that went through a conversion with `PF_Masked` yields the
all-zero colour at every pixel of index `0`. -/
theorem fromPaletted_effect_on_input (cfg : BuildConfig) (Info : FTextureInfo)
    (PolyFlags : Nat) (mipLevel : Nat) :
    (fromPaletted cfg Info PolyFlags mipLevel).1.Mips = Info.Mips ∧
    SameButPalette (fromPaletted cfg Info PolyFlags mipLevel).1 Info ∧
    (PolyFlags &&& cfg.PF_Masked = 0 → (fromPaletted cfg Info PolyFlags mipLevel).1 = Info) ∧
    (PolyFlags &&& cfg.PF_Masked ≠ 0 →
      (fromPaletted cfg Info PolyFlags mipLevel).1.Palette = Info.Palette.set 0 0 ∧
      (fromPaletted cfg Info PolyFlags mipLevel).1.Palette.length = Info.Palette.length ∧
      (0 < Info.Palette.length →
        (fromPaletted cfg Info PolyFlags mipLevel).1.Palette[0]? = some 0) ∧
      (∀ i : Nat, 1 ≤ i →
        (fromPaletted cfg Info PolyFlags mipLevel).1.Palette[i]? = Info.Palette[i]?)) ∧
    (∀ (PolyFlags2 mipLevel2 i : Nat), PolyFlags &&& cfg.PF_Masked ≠ 0 →
      PolyFlags2 &&& cfg.PF_Masked = 0 →
      i < (Info.mip mipLevel2).USize * (Info.mip mipLevel2).VSize →
      (Info.mip mipLevel2).DataPtr.getD i 0 = 0 →
      (fromPaletted cfg (fromPaletted cfg Info PolyFlags mipLevel).1 PolyFlags2 mipLevel2).2[i]?
        = some 0) := by
  have hmasked : PolyFlags &&& cfg.PF_Masked ≠ 0 →
      (fromPaletted cfg Info PolyFlags mipLevel).1
        = { Info with Palette := Info.Palette.set 0 0 } := by
    intro hm
    simp only [fromPaletted, if_pos hm]
  have hunmasked : PolyFlags &&& cfg.PF_Masked = 0 →
      (fromPaletted cfg Info PolyFlags mipLevel).1 = Info := by
    intro hm
    have hm2 : ¬ (PolyFlags &&& cfg.PF_Masked ≠ 0) := fun h => h hm
    simp only [fromPaletted, if_neg hm2]
  refine ⟨?_, fromPaletted_info cfg Info PolyFlags mipLevel, hunmasked, ?_, ?_⟩
  · by_cases hm : PolyFlags &&& cfg.PF_Masked ≠ 0
    · rw [hmasked hm]
    · rw [hunmasked (not_not.mp hm)]
  · intro hm
    rw [hmasked hm]
    refine ⟨rfl, by simp, ?_, ?_⟩
    · intro hl
      simp [List.getElem?_set, hl]
    · intro i hi
      have hne : ¬ (0 = i) := by omega
      simp [List.getElem?_set, hne]
  · intro PolyFlags2 mipLevel2 i hm hm2 hi h0
    have hm3 : ¬ (PolyFlags2 &&& cfg.PF_Masked ≠ 0) := fun h => h hm2
    rw [fromPaletted_output, hmasked hm]
    have hmip : ({ Info with Palette := Info.Palette.set 0 0 } : FTextureInfo).mip mipLevel2
        = Info.mip mipLevel2 := rfl
    rw [hmip, List.getElem?_map, List.getElem?_range hi]
    simp only [if_neg hm3, Option.map_some', h0]
    rw [set_zero_getD_zero]

/-- C30, at the sample texture: pixel `0` has index `0` and palette entry `0` is `1000`;
after a masked conversion the unmasked conversion of the same descriptor gives `0` there. -/
theorem fromPaletted_effect_on_input_witness :
    (unrealBuild.PF_Masked &&& unrealBuild.PF_Masked ≠ 0 ∧ 0 &&& unrealBuild.PF_Masked = 0 ∧
      (0 : Nat) < (sampleTexture.mip 0).USize * (sampleTexture.mip 0).VSize ∧
      (sampleTexture.mip 0).DataPtr.getD 0 0 = 0) ∧
    (fromPaletted unrealBuild sampleTexture 0 0).2[0]? = some 1000 ∧
    (fromPaletted unrealBuild
      (fromPaletted unrealBuild sampleTexture unrealBuild.PF_Masked 0).1 0 0).2[0]? = some 0 :=
  ⟨by decide, by decide,
   (fromPaletted_effect_on_input unrealBuild sampleTexture unrealBuild.PF_Masked 0).2.2.2.2
      0 0 0 (by decide) (by decide) (by decide) (by decide)⟩

/-! ## Blend state writes and "Buffer error" lines along a run -/

theorem signals_append (a b : List GpuCall) : signals (a ++ b) = signals a ++ signals b := by
  simp [signals]

theorem signals_drawCalls (s : D3DState) : signals (drawCalls s) = [] := by
  unfold drawCalls signals
  split_ifs <;> rfl

theorem calm_refl (s : D3DState) : Calm s s := ⟨rfl, rfl⟩

theorem calm_trans {a b c : D3DState} (h1 : Calm a b) (h2 : Calm b c) : Calm a c :=
  ⟨h2.1.trans h1.1, h2.2.trans h1.2⟩

theorem calm_emit (s : D3DState) (c : GpuCall) (hc : c.isSignal = false) :
    Calm s (s.emit c) := by
  refine ⟨rfl, ?_⟩
  simp [D3DState.emit, signals, List.filter_append, hc]

theorem render_calm (s : D3DState) (h : s.numUndrawnIndices ≤ s.numIndices) :
    Calm s (render s) := by
  cases hm : s.mapped
  · have e : render s = s := by simp [render, hm]
    rw [e]
    exact calm_refl s
  · rw [render_draws s hm h]
    exact ⟨rfl, by simp [signals_append, signals_drawCalls]⟩

theorem map_calm (clear : Bool) (s : D3DState) : Calm s (map clear s) := by
  cases hm : s.mapped <;> cases clear <;>
    simp [map, hm, Calm, signals, List.filter_append, GpuCall.isSignal]

theorem render_pending (s : D3DState) (h : s.numUndrawnIndices ≤ s.numIndices) :
    (render s).numUndrawnIndices ≤ (render s).numIndices := by
  cases hm : s.mapped
  · have e : render s = s := by simp [render, hm]
    rw [e]
    exact h
  · rw [render_draws s hm h]
    exact Nat.zero_le _

theorem commit_calm (s : D3DState) (h : s.numUndrawnIndices ≤ s.numIndices) :
    Calm s (commit s) := by
  unfold commit
  split_ifs
  · exact calm_trans (render_calm s h) (map_calm false (render s))
  · exact calm_refl s

/-- An operation that leaves the cursors as they are, or as `commit` leaves them, keeps the
undrawn indices among the buffered ones. -/
theorem pending_of_cursors {r s : D3DState}
    (hc : SameCursors r s ∨ SameCursors r (commit s))
    (h : s.numUndrawnIndices ≤ s.numIndices) : r.numUndrawnIndices ≤ r.numIndices := by
  obtain ⟨_, k2, k3⟩ := kept_of_cursors hc
  omega

theorem clearDepth_calm (s : D3DState) (h : s.numUndrawnIndices ≤ s.numIndices) :
    Calm s (clearDepth s) :=
  calm_trans (commit_calm s h) (calm_emit _ _ (by rfl))

theorem setViewPort_calm (X Y left top : Int) (s : D3DState)
    (h : s.numUndrawnIndices ≤ s.numIndices) : Calm s (setViewPort X Y left top s) := by
  obtain ⟨c1, c2⟩ := commit_calm s h
  unfold setViewPort
  simp only []
  split_ifs
  · refine ⟨c1, ?_⟩
    simp only []
    rw [signals_append, c2]
    simp [signals, GpuCall.isSignal]
  · exact ⟨rfl, rfl⟩

theorem setProjection_calm (aspect XoverZ : FloatVal) (s : D3DState)
    (h : s.numUndrawnIndices ≤ s.numIndices) : Calm s (setProjection aspect XoverZ s) := by
  obtain ⟨c1, c2⟩ := commit_calm s h
  unfold setProjection
  simp only []
  split_ifs
  · refine ⟨c1, ?_⟩
    simp only []
    rw [signals_append, c2]
    simp [signals, GpuCall.isSignal]
  · exact ⟨rfl, rfl⟩

theorem setProjectionMode_calm (mode : ProjectionMode) (s : D3DState)
    (h : s.numUndrawnIndices ≤ s.numIndices) : Calm s (setProjectionMode mode s) := by
  obtain ⟨c1, c2⟩ := commit_calm s h
  unfold setProjectionMode
  simp only []
  split_ifs
  · refine ⟨c1, ?_⟩
    simp only []
    rw [signals_append, c2]
    simp [signals, GpuCall.isSignal]
  · exact ⟨rfl, rfl⟩

theorem flash_calm (enable : Bool) (color : Vec4) (s : D3DState) :
    Calm s (flash enable color s) := by
  rw [flash_eq]
  cases enable <;> exact ⟨rfl, by simp [signals_append, flashCalls, signals, GpuCall.isSignal]⟩

theorem fog_calm (dist : FloatVal) (color : Option Vec4) (s : D3DState)
    (h : s.numUndrawnIndices ≤ s.numIndices) : Calm s (fog dist color s) := by
  have hc := commit_calm s h
  unfold fog
  simp only []
  split_ifs
  · exact calm_trans hc (calm_trans (calm_emit _ _ (by rfl)) (calm_emit _ _ (by rfl)))
  · exact calm_trans hc (calm_emit _ _ (by rfl))

theorem cacheIndex_calm (id : Nat) (s : D3DState) : Calm s (cacheIndex id s).2 := by
  unfold cacheIndex
  cases h : s.textureCache id <;> exact ⟨rfl, rfl⟩

theorem cacheTexture_calm (id : Nat) (metadata : TextureMetaData) (view : Option Nat)
    (s : D3DState) : Calm s (cacheTexture id metadata view s) := by
  cases view with
  | none => exact calm_emit _ _ (by rfl)
  | some r =>
    have h := cacheIndex_calm id s
    unfold cacheTexture
    exact ⟨h.1, h.2⟩

theorem deleteTexture_calm (id : Nat) (s : D3DState) : Calm s (deleteTexture id s) := by
  unfold deleteTexture
  cases h : s.textureCache id with
  | none => exact ⟨rfl, rfl⟩
  | some n =>
    simp only []
    split_ifs
    · exact ⟨rfl, by simp [D3DState.emit, signals_append, signals, GpuCall.isSignal]⟩
    · exact ⟨rfl, rfl⟩

theorem setTexture_calm (pass : TexturePass) (id : Nat) (s : D3DState)
    (h : s.numUndrawnIndices ≤ s.numIndices) : Calm s (setTexture pass id s).2 := by
  have hc : Calm s (commit { s with boundTextureID := Function.update s.boundTextureID pass id }) :=
    calm_trans ⟨rfl, rfl⟩
      (commit_calm { s with boundTextureID := Function.update s.boundTextureID pass id } h)
  unfold setTexture
  by_cases h1 : id ≠ s.boundTextureID pass
  · rw [if_pos h1]
    simp only []
    by_cases h2 : id = 0
    · rw [if_pos h2]
      refine calm_trans hc ⟨rfl, ?_⟩
      simp [D3DState.emit, signals_append, signals, GpuCall.isSignal, useTexturePassCall]
    · rw [if_neg h2]
      cases h3 : (commit { s with
          boundTextureID := Function.update s.boundTextureID pass id }).textureCache id with
      | none => exact hc
      | some tex =>
        simp only []
        split_ifs
        · refine calm_trans hc ⟨rfl, ?_⟩
          simp [D3DState.emit, signals_append, signals, GpuCall.isSignal, useTexturePassCall]
        · refine calm_trans hc ⟨rfl, ?_⟩
          simp [D3DState.emit, signals_append, signals, GpuCall.isSignal, useTexturePassCall]
  · rw [if_neg h1]
    exact calm_refl s

theorem updateMip_calm (id : Nat) (mipNum : Int) (s : D3DState)
    (h : s.numUndrawnIndices ≤ s.numIndices) : Calm s (updateMip id mipNum s) := by
  unfold updateMip
  simp only []
  split_ifs
  · exact calm_trans (commit_calm s h)
      (calm_trans (cacheIndex_calm id (commit s)) (calm_emit _ _ (by rfl)))
  · exact calm_trans (cacheIndex_calm id s) (calm_emit _ _ (by rfl))

theorem createTexture_calm (desc : Texture2DDesc) (result : Option Nat) (s : D3DState) :
    Calm s (createTexture desc result s).2 := by
  cases result
  · exact calm_trans (calm_emit _ _ (by rfl)) (calm_emit _ _ (by rfl))
  · exact calm_emit _ _ (by rfl)

theorem convertAndCache_calm (cfg : BuildConfig) (env : TexEnv) (Info : FTextureInfo)
    (PolyFlags : Nat) (s : D3DState) :
    Calm s (convertAndCache cfg env Info PolyFlags s).2 := by
  unfold convertAndCache
  split_ifs
  · exact calm_emit _ _ (by rfl)
  · exact calm_emit _ _ (by rfl)
  · simp only []
    have hc := createTexture_calm
      (textureDesc (convertMips cfg Info (formatOf Info.Format) PolyFlags).1
        (formatOf Info.Format)) env.texture s
    cases h : (createTexture (textureDesc (convertMips cfg Info (formatOf Info.Format)
        PolyFlags).1 (formatOf Info.Format)) env.texture s).1 with
    | none => exact hc
    | some texture =>
      simp only []
      exact calm_trans hc (calm_trans (cacheTexture_calm _ _ _ _) (calm_emit _ _ (by rfl)))

theorem PrecacheTexture_calm (cfg : BuildConfig) (env : TexEnv) (Info : FTextureInfo)
    (PolyFlags : Nat) (s : D3DState) (h : s.numUndrawnIndices ≤ s.numIndices) :
    Calm s (PrecacheTexture cfg env Info PolyFlags s).2 := by
  unfold PrecacheTexture
  split_ifs
  · exact updateMip_calm _ _ s h
  · exact calm_trans (cacheIndex_calm _ _)
      (calm_trans (deleteTexture_calm _ _) (convertAndCache_calm _ _ _ _ _))
  · exact cacheIndex_calm _ _
  · exact calm_refl s
  · exact convertAndCache_calm _ _ _ _ _

theorem unbindAll_calm (l : List TexturePass) : ∀ s : D3DState,
    s.numUndrawnIndices ≤ s.numIndices →
    Calm s (l.foldl (fun st i => (setTexture i 0 st).2) s) ∧
    (l.foldl (fun st i => (setTexture i 0 st).2) s).numUndrawnIndices
      ≤ (l.foldl (fun st i => (setTexture i 0 st).2) s).numIndices := by
  induction l with
  | nil => intro s h; exact ⟨calm_refl s, h⟩
  | cons p l ih =>
    intro s h
    rw [List.foldl_cons]
    obtain ⟨i1, i2⟩ := ih _ (pending_of_cursors (setTexture_cursors p 0 s) h)
    exact ⟨calm_trans (setTexture_calm p 0 s h) i1, i2⟩

theorem flush_calm (s : D3DState) (h : s.numUndrawnIndices ≤ s.numIndices) :
    Calm s (flush s) ∧ (flush s).numUndrawnIndices ≤ (flush s).numIndices := by
  have h1 := unbindAll_calm TexturePass.all s h
  unfold flush
  generalize TexturePass.all.foldl (fun st i => (setTexture i 0 st).2) s = t at h1
  exact ⟨⟨h1.1.1, h1.1.2⟩, h1.2⟩

theorem restart_calm (s : D3DState) (h : s.numUndrawnIndices ≤ s.numIndices) :
    Calm s (map true (render s)) :=
  calm_trans (render_calm s h) (map_calm true (render s))

theorem indexTriangleFan_calm (n : Int) (s : D3DState) (hn : 3 ≤ n)
    (h : s.numUndrawnIndices ≤ s.numIndices) :
    Calm s (indexTriangleFan n s) ∧
    (indexTriangleFan n s).numUndrawnIndices ≤ (indexTriangleFan n s).numIndices := by
  obtain ⟨buf, hfr⟩ := indexTriangleFan_frame s n hn
  obtain ⟨_, r1, r2, _, _⟩ := restart_cursors s
  rw [hfr]
  by_cases hf : I_BUFFER_SIZE < s.numIndices + 3 * (n - 2).toNat
  · simp only [if_pos hf, r1, r2]
    exact ⟨⟨(restart_calm s h).1, (restart_calm s h).2⟩, Nat.le_refl _⟩
  · simp only [if_neg hf]
    exact ⟨⟨rfl, rfl⟩, by omega⟩

theorem indexQuad_calm (s : D3DState) (h : s.numUndrawnIndices ≤ s.numIndices) :
    Calm s (indexQuad s) ∧
    (indexQuad s).numUndrawnIndices ≤ (indexQuad s).numIndices := by
  obtain ⟨_, r1, r2, _, _⟩ := restart_cursors s
  rw [indexQuad_frame s]
  by_cases hf : I_BUFFER_SIZE < s.numIndices + 6
  · simp only [if_pos hf, r1, r2]
    exact ⟨⟨(restart_calm s h).1, (restart_calm s h).2⟩, Nat.le_refl _⟩
  · simp only [if_neg hf]
    exact ⟨⟨rfl, rfl⟩, by omega⟩

theorem map_pending (clear : Bool) (s : D3DState) (h : s.numUndrawnIndices ≤ s.numIndices) :
    (map clear s).numUndrawnIndices ≤ (map clear s).numIndices := by
  unfold map
  cases clear <;> split_ifs <;> first | exact h | exact Nat.le_refl _

/-- Every operation keeps the undrawn indices among the buffered ones, given that fans have
at least three points. -/
theorem Op.run_pending (cfg : BuildConfig) (op : Op) (s : D3DState)
    (hv : op.fanValid = true) (h : s.numUndrawnIndices ≤ s.numIndices) :
    (op.run cfg s).numUndrawnIndices ≤ (op.run cfg s).numIndices := by
  cases op with
  | map clear => exact map_pending clear s h
  | render => exact render_pending s h
  | commit => exact pending_of_cursors (Or.inr (SameCursors.refl _)) h
  | indexTriangleFan num =>
    simp only [Op.fanValid, decide_eq_true_eq] at hv
    exact (indexTriangleFan_calm num s hv h).2
  | indexQuad => exact (indexQuad_calm s h).2
  | getVertex => exact h
  | clearDepth => exact pending_of_cursors (Or.inr (clearDepth_cursors s)) h
  | setViewPort X Y left top => exact pending_of_cursors (setViewPort_cursors X Y left top s) h
  | setProjection aspect XoverZ =>
    exact pending_of_cursors (setProjection_cursors aspect XoverZ s) h
  | setProjectionMode mode => exact pending_of_cursors (setProjectionMode_cursors mode s) h
  | setFlags flags D3DFlags => exact pending_of_cursors (setFlags_cursors cfg flags D3DFlags s) h
  | flash enable color => exact pending_of_cursors (Or.inl (flash_cursors enable color s)) h
  | fog dist color => exact pending_of_cursors (Or.inr (fog_cursors dist color s)) h
  | cacheTexture id metadata view =>
    exact pending_of_cursors (Or.inl (cacheTexture_cursors id metadata view s)) h
  | getTextureMetaData id => exact pending_of_cursors (Or.inl (cacheIndex_cursors id s)) h
  | setTexture pass id => exact pending_of_cursors (setTexture_cursors pass id s) h
  | deleteTexture id => exact pending_of_cursors (Or.inl (deleteTexture_cursors id s)) h
  | updateMip id mipNum => exact pending_of_cursors (updateMip_cursors id mipNum s) h
  | flush => exact (flush_calm s h).2
  | PrecacheTexture env Info PolyFlags =>
    exact pending_of_cursors (PrecacheTexture_cursors cfg env Info PolyFlags s) h
  | newFrame => exact h
  | clear clearColor => exact h
  | present => exact h

/-- What `setFlags` adds to the blend state writes and "Buffer error" lines of the trace:
the write of the blend state of the normalised flags when a blend bit changed, else
nothing. -/
theorem setFlags_signals (cfg : BuildConfig) (flags D3DFlags : Nat) (s : D3DState)
    (h : s.numUndrawnIndices ≤ s.numIndices) :
    signals (setFlags cfg flags D3DFlags s).trace = signals s.trace ++
      (if (s.currFlags ^^^ normaliseFlags cfg flags) &&& RELEVANT_FLAGS cfg ≠ 0 ∧
          (s.currFlags ^^^ normaliseFlags cfg flags) &&& BLEND_FLAGS cfg ≠ 0
        then [GpuCall.OMSetBlendState (blendStateOf cfg (normaliseFlags cfg flags))]
        else []) := by
  rw [setFlags_trace]
  have hc := (commit_calm s h).2
  split_ifs <;> simp_all [signals_append, signals, GpuCall.isSignal]

/-- Every operation but `setFlags` leaves the flag cache alone and adds neither a blend
state write nor a "Buffer error" line, given that fans have at least three points. -/
theorem Op.run_calm (cfg : BuildConfig) (op : Op) (s : D3DState)
    (hv : op.fanValid = true) (h : s.numUndrawnIndices ≤ s.numIndices)
    (hop : ∀ flags D3DFlags, op ≠ Op.setFlags flags D3DFlags) :
    Calm s (op.run cfg s) := by
  cases op with
  | map clear => exact map_calm clear s
  | render => exact render_calm s h
  | commit => exact commit_calm s h
  | indexTriangleFan num =>
    simp only [Op.fanValid, decide_eq_true_eq] at hv
    exact (indexTriangleFan_calm num s hv h).1
  | indexQuad => exact (indexQuad_calm s h).1
  | getVertex => exact ⟨rfl, rfl⟩
  | clearDepth => exact clearDepth_calm s h
  | setViewPort X Y left top => exact setViewPort_calm X Y left top s h
  | setProjection aspect XoverZ => exact setProjection_calm aspect XoverZ s h
  | setProjectionMode mode => exact setProjectionMode_calm mode s h
  | setFlags flags D3DFlags => exact absurd rfl (hop flags D3DFlags)
  | flash enable color => exact flash_calm enable color s
  | fog dist color => exact fog_calm dist color s h
  | cacheTexture id metadata view => exact cacheTexture_calm id metadata view s
  | getTextureMetaData id => exact cacheIndex_calm id s
  | setTexture pass id => exact setTexture_calm pass id s h
  | deleteTexture id => exact deleteTexture_calm id s
  | updateMip id mipNum => exact updateMip_calm id mipNum s h
  | flush => exact (flush_calm s h).1
  | PrecacheTexture env Info PolyFlags => exact PrecacheTexture_calm cfg env Info PolyFlags s h
  | newFrame => exact calm_emit s .SetTime (by rfl)
  | clear clearColor => exact calm_emit s (.ClearRenderTargetView clearColor) (by rfl)
  | present => exact calm_emit s .Present (by rfl)

theorem mem_signals_error (t : List GpuCall) :
    GpuCall.LogBufferError ∈ signals t ↔ GpuCall.LogBufferError ∈ t := by
  simp [signals, GpuCall.isSignal]

theorem fanValid_of_ok (op : Op) (s : D3DState) (h : op.ok s = true) : op.fanValid = true := by
  cases op <;> first | rfl | skip
  simp only [Op.ok, Bool.and_eq_true, decide_eq_true_eq] at h
  simp only [Op.fanValid, decide_eq_true_eq]
  exact h.1

/-- No operation logs "Buffer error" while the undrawn indices are among the buffered ones
and fans have at least three points. -/
theorem Op.run_no_error (cfg : BuildConfig) (op : Op) (s : D3DState)
    (hv : op.fanValid = true) (h : s.numUndrawnIndices ≤ s.numIndices)
    (he : GpuCall.LogBufferError ∉ s.trace) :
    GpuCall.LogBufferError ∉ (op.run cfg s).trace := by
  by_cases hop : ∀ flags D3DFlags, op ≠ Op.setFlags flags D3DFlags
  · have hc := (Op.run_calm cfg op s hv h hop).2
    rw [← mem_signals_error, hc, mem_signals_error]
    exact he
  · push_neg at hop
    obtain ⟨flags, D3DFlags, hop⟩ := hop
    subst hop
    show GpuCall.LogBufferError ∉ (D3D12Drv.setFlags cfg flags D3DFlags s).trace
    rw [← mem_signals_error, setFlags_signals cfg flags D3DFlags s h]
    intro hmem
    rw [List.mem_append] at hmem
    rcases hmem with hmem | hmem
    · exact he ((mem_signals_error _).mp hmem)
    · split_ifs at hmem <;> simp at hmem

theorem runOps_no_error (cfg : BuildConfig) (ops : List Op) : ∀ s : D3DState,
    s.numUndrawnIndices ≤ s.numIndices → GpuCall.LogBufferError ∉ s.trace →
    (∀ op, op ∈ ops → op.fanValid = true) →
    (runOps cfg ops s).numUndrawnIndices ≤ (runOps cfg ops s).numIndices ∧
    GpuCall.LogBufferError ∉ (runOps cfg ops s).trace := by
  induction ops with
  | nil => intro s h he _; exact ⟨h, he⟩
  | cons op ops ih =>
    intro s h he hv
    have hop := hv op (List.mem_cons_self op ops)
    exact ih (op.run cfg s) (Op.run_pending cfg op s hop h) (Op.run_no_error cfg op s hop h he)
      (fun o ho => hv o (List.mem_cons_of_mem op ho))

/-- C27: in every state reached from buffers whose undrawn indices are among the buffered
ones (as the empty mapped buffers after `Lock`) by any sequence of operations whose fans
have at least three points, `numUndrawnIndices ≤ numIndices`; `render` in such a state
does not take its "Buffer error" branch (on mapped buffers it draws the range that starts
at `numIndices - numUndrawnIndices`), and no "Buffer error" line was logged on the way. -/
theorem buffer_error_unreachable (cfg : BuildConfig) (ops : List Op) (s0 : D3DState)
    (h0 : s0.numUndrawnIndices ≤ s0.numIndices) (he : GpuCall.LogBufferError ∉ s0.trace)
    (hv : ∀ op, op ∈ ops → op.fanValid = true) :
    (runOps cfg ops s0).numUndrawnIndices ≤ (runOps cfg ops s0).numIndices ∧
    GpuCall.LogBufferError ∉ (runOps cfg ops s0).trace ∧
    GpuCall.LogBufferError ∉ (render (runOps cfg ops s0)).trace ∧
    ((runOps cfg ops s0).mapped = true →
      (render (runOps cfg ops s0)).trace
        = (runOps cfg ops s0).trace ++ drawCalls (runOps cfg ops s0)) := by
  obtain ⟨h1, h2⟩ := runOps_no_error cfg ops s0 h0 he hv
  refine ⟨h1, h2, ?_, ?_⟩
  · exact Op.run_no_error cfg Op.render _ rfl h1 h2
  · intro hm
    rw [render_draws _ hm h1]

/-- C27, at the run `Lock`, quad, four vertices, commit, fan of five points, render. -/
theorem buffer_error_unreachable_witness :
    (lockedState.numUndrawnIndices ≤ lockedState.numIndices ∧
      GpuCall.LogBufferError ∉ lockedState.trace) ∧
    (runOps unrealBuild
      [Op.indexQuad, Op.getVertex, Op.getVertex, Op.getVertex, Op.getVertex, Op.commit,
        Op.indexTriangleFan 5, Op.render] lockedState).numUndrawnIndices
      ≤ (runOps unrealBuild
      [Op.indexQuad, Op.getVertex, Op.getVertex, Op.getVertex, Op.getVertex, Op.commit,
        Op.indexTriangleFan 5, Op.render] lockedState).numIndices ∧
    GpuCall.LogBufferError ∉ (runOps unrealBuild
      [Op.indexQuad, Op.getVertex, Op.getVertex, Op.getVertex, Op.getVertex, Op.commit,
        Op.indexTriangleFan 5, Op.render] lockedState).trace :=
  ⟨by decide,
   (buffer_error_unreachable unrealBuild
      [Op.indexQuad, Op.getVertex, Op.getVertex, Op.getVertex, Op.getVertex, Op.commit,
        Op.indexTriangleFan 5, Op.render] lockedState (by decide) (by decide)
      (by decide)).1,
   (buffer_error_unreachable unrealBuild
      [Op.indexQuad, Op.getVertex, Op.getVertex, Op.getVertex, Op.getVertex, Op.commit,
        Op.indexTriangleFan 5, Op.render] lockedState (by decide) (by decide)
      (by decide)).2.1⟩

/-! ## Coherence of the flag cache of `setFlags` -/

theorem blendAfter_signals (t : List GpuCall) : ∀ b : BlendState,
    blendAfter b (signals t) = blendAfter b t := by
  induction t with
  | nil => intro b; rfl
  | cons c t ih =>
    intro b
    cases c <;> simp [signals, blendAfter, GpuCall.isSignal] <;> exact ih _

theorem appliedBlend_of_calm {s r : D3DState} (h : Calm s r) :
    appliedBlend r.trace = appliedBlend s.trace := by
  unfold appliedBlend
  rw [← blendAfter_signals r.trace, h.2, blendAfter_signals]

theorem and_eq_of_xor_and_eq_zero (a b m : Nat) (h : (a ^^^ b) &&& m = 0) :
    a &&& m = b &&& m := by
  apply Nat.eq_of_testBit_eq
  intro i
  have hi := congrArg (fun x => x.testBit i) h
  simp only [Nat.testBit_land, Nat.testBit_xor, Nat.zero_testBit] at hi ⊢
  revert hi
  cases a.testBit i <;> cases b.testBit i <;> cases m.testBit i <;> simp

theorem and_or_eq_zero (x m n : Nat) (h : x &&& (m ||| n) = 0) :
    x &&& m = 0 ∧ x &&& n = 0 := by
  constructor
  · apply Nat.eq_of_testBit_eq
    intro i
    have hi := congrArg (fun x => x.testBit i) h
    simp only [Nat.testBit_land, Nat.testBit_lor, Nat.zero_testBit] at hi ⊢
    revert hi
    cases x.testBit i <;> cases m.testBit i <;> cases n.testBit i <;> simp
  · apply Nat.eq_of_testBit_eq
    intro i
    have hi := congrArg (fun x => x.testBit i) h
    simp only [Nat.testBit_land, Nat.testBit_lor, Nat.zero_testBit] at hi ⊢
    revert hi
    cases x.testBit i <;> cases m.testBit i <;> cases n.testBit i <;> simp

/-- The blend classification reads the blend bits only. -/
theorem blendStateOf_congr (cfg : BuildConfig) (a b : Nat)
    (h : (a ^^^ b) &&& BLEND_FLAGS cfg = 0) : blendStateOf cfg a = blendStateOf cfg b := by
  unfold BLEND_FLAGS at h
  obtain ⟨h1, hA⟩ := and_or_eq_zero _ _ _ h
  obtain ⟨h2, hK⟩ := and_or_eq_zero _ _ _ h1
  obtain ⟨h3, hI⟩ := and_or_eq_zero _ _ _ h2
  obtain ⟨hT, hM⟩ := and_or_eq_zero _ _ _ h3
  have eT := and_eq_of_xor_and_eq_zero _ _ _ hT
  have eM := and_eq_of_xor_and_eq_zero _ _ _ hM
  have eI := and_eq_of_xor_and_eq_zero _ _ _ hI
  have eK := and_eq_of_xor_and_eq_zero _ _ _ hK
  unfold blendStateOf
  rw [eT, eM, eI, eK]
  cases hr : cfg.rune
  · simp
  · rw [hr] at hA
    simp only [if_true] at hA
    rw [and_eq_of_xor_and_eq_zero _ _ _ hA]

/-- One `setFlags` call from a state in which the applied blend state is the classification
of the cached flags. -/
theorem setFlags_coherent (cfg : BuildConfig) (flags D3DFlags : Nat) (s : D3DState)
    (h : s.numUndrawnIndices ≤ s.numIndices)
    (hi : appliedBlend s.trace = blendStateOf cfg s.currFlags) :
    appliedBlend (setFlags cfg flags D3DFlags s).trace
      = blendStateOf cfg (normaliseFlags cfg flags) ∧
    (setFlags cfg flags D3DFlags s).currFlags &&& RELEVANT_FLAGS cfg
      = normaliseFlags cfg flags &&& RELEVANT_FLAGS cfg ∧
    appliedBlend (setFlags cfg flags D3DFlags s).trace
      = blendStateOf cfg (setFlags cfg flags D3DFlags s).currFlags := by
  have hsig := setFlags_signals cfg flags D3DFlags s h
  have happ : appliedBlend (setFlags cfg flags D3DFlags s).trace
      = blendAfter (appliedBlend s.trace)
          (if (s.currFlags ^^^ normaliseFlags cfg flags) &&& RELEVANT_FLAGS cfg ≠ 0 ∧
              (s.currFlags ^^^ normaliseFlags cfg flags) &&& BLEND_FLAGS cfg ≠ 0
            then [GpuCall.OMSetBlendState (blendStateOf cfg (normaliseFlags cfg flags))]
            else []) := by
    unfold appliedBlend
    rw [← blendAfter_signals (setFlags cfg flags D3DFlags s).trace, hsig]
    unfold blendAfter
    rw [List.foldl_append]
    have e := blendAfter_signals s.trace .bstate_NoBlend
    unfold blendAfter at e
    rw [e]
  have hcur : (setFlags cfg flags D3DFlags s).currFlags =
      if (s.currFlags ^^^ normaliseFlags cfg flags) &&& RELEVANT_FLAGS cfg ≠ 0
      then normaliseFlags cfg flags else s.currFlags := by
    unfold setFlags
    simp only [RELEVANT_D3D_FLAGS, Nat.and_zero, ne_eq, not_true_eq_false, or_false]
    split_ifs <;> rfl
  by_cases hrel : (s.currFlags ^^^ normaliseFlags cfg flags) &&& RELEVANT_FLAGS cfg ≠ 0
  · rw [hcur, if_pos hrel]
    by_cases hbl : (s.currFlags ^^^ normaliseFlags cfg flags) &&& BLEND_FLAGS cfg ≠ 0
    · have e : appliedBlend (setFlags cfg flags D3DFlags s).trace
          = blendStateOf cfg (normaliseFlags cfg flags) := by
        rw [happ, if_pos ⟨hrel, hbl⟩]
        rfl
      exact ⟨e, rfl, e⟩
    · have e : appliedBlend (setFlags cfg flags D3DFlags s).trace
          = blendStateOf cfg (normaliseFlags cfg flags) := by
        rw [happ, if_neg (fun hh => hbl hh.2)]
        show appliedBlend s.trace = _
        rw [hi]
        exact blendStateOf_congr cfg _ _ (not_not.mp hbl)
      exact ⟨e, rfl, e⟩
  · have hz : (s.currFlags ^^^ normaliseFlags cfg flags) &&& RELEVANT_FLAGS cfg = 0 :=
      not_not.mp hrel
    have hb : (s.currFlags ^^^ normaliseFlags cfg flags) &&& BLEND_FLAGS cfg = 0 := by
      unfold RELEVANT_FLAGS at hz
      exact (and_or_eq_zero _ _ _ hz).1
    rw [hcur, if_neg hrel]
    have e : appliedBlend (setFlags cfg flags D3DFlags s).trace = appliedBlend s.trace := by
      rw [happ, if_neg (fun hh => hrel hh.1)]
      rfl
    refine ⟨?_, and_eq_of_xor_and_eq_zero _ _ _ hz, ?_⟩
    · rw [e, hi]
      exact blendStateOf_congr cfg _ _ hb
    · rw [e, hi]

/-- In every state of a run the blend state last written is the classification of the
cached flags. -/
theorem Reachable.blend {cfg : BuildConfig} {s : D3DState} (h : Reachable cfg s) :
    appliedBlend s.trace = blendStateOf cfg s.currFlags := by
  induction h with
  | initial => simp [appliedBlend, blendAfter, D3DState.initial, blendStateOf]
  | step op s hr hok ih =>
    have hp := hr.inv.1
    by_cases hop : ∀ flags D3DFlags, op ≠ Op.setFlags flags D3DFlags
    · have hc := Op.run_calm cfg op s (fanValid_of_ok op s hok) hp hop
      rw [appliedBlend_of_calm hc, hc.1]
      exact ih
    · push_neg at hop
      obtain ⟨flags, D3DFlags, hop⟩ := hop
      subst hop
      exact (setFlags_coherent cfg flags D3DFlags s hp ih).2.2

/-- C28: taking the blend state applied at program start as NoBlend (the cached flags are
`0` then), in every state of a run the blend state last written to the GPU is the blend
classification of the cached flags.  After each `setFlags(flags, D3DFlags)` it is the
classification of the normalised `flags` of that call, and the cached flags agree with them
on every bit of `RELEVANT_FLAGS` (the blend bits and `PF_Occlude`), although the blend state
is written only when a blend bit changed and the cache is left as it is when no relevant bit
changed; every other operation leaves both the cached flags and the applied blend state as
they are, so they stay those of the most recent `setFlags` call. -/
theorem setFlags_cache_coherent (cfg : BuildConfig) (s : D3DState) (hr : Reachable cfg s) :
    appliedBlend s.trace = blendStateOf cfg s.currFlags ∧
    (∀ flags D3DFlags : Nat,
      appliedBlend (setFlags cfg flags D3DFlags s).trace
        = blendStateOf cfg (normaliseFlags cfg flags) ∧
      (setFlags cfg flags D3DFlags s).currFlags &&& RELEVANT_FLAGS cfg
        = normaliseFlags cfg flags &&& RELEVANT_FLAGS cfg ∧
      signals (setFlags cfg flags D3DFlags s).trace = signals s.trace ++
        (if (s.currFlags ^^^ normaliseFlags cfg flags) &&& RELEVANT_FLAGS cfg ≠ 0 ∧
            (s.currFlags ^^^ normaliseFlags cfg flags) &&& BLEND_FLAGS cfg ≠ 0
          then [GpuCall.OMSetBlendState (blendStateOf cfg (normaliseFlags cfg flags))]
          else []) ∧
      ((s.currFlags ^^^ normaliseFlags cfg flags) &&& RELEVANT_FLAGS cfg = 0 →
        setFlags cfg flags D3DFlags s = s)) ∧
    (∀ op : Op, (∀ flags D3DFlags, op ≠ Op.setFlags flags D3DFlags) → op.ok s = true →
      (op.run cfg s).currFlags = s.currFlags ∧
      appliedBlend (op.run cfg s).trace = appliedBlend s.trace) := by
  have hp := hr.inv.1
  refine ⟨hr.blend, ?_, ?_⟩
  · intro flags D3DFlags
    obtain ⟨c1, c2, _⟩ := setFlags_coherent cfg flags D3DFlags s hp hr.blend
    refine ⟨c1, c2, setFlags_signals cfg flags D3DFlags s hp, ?_⟩
    intro hz
    have hn : ¬ ((s.currFlags ^^^ normaliseFlags cfg flags) &&& RELEVANT_FLAGS cfg ≠ 0 ∨
        (s.currD3DFlags ^^^ D3DFlags) &&& RELEVANT_D3D_FLAGS ≠ 0) := by
      simp [hz, RELEVANT_D3D_FLAGS]
    simp only [setFlags, if_neg hn]
  · intro op hop hok
    have hc := Op.run_calm cfg op s (fanValid_of_ok op s hok) hp hop
    exact ⟨hc.1, appliedBlend_of_calm hc⟩

/-- C28, after `Lock`: `setFlags` with `PF_Translucent` writes the Translucent state; a
second call with `PF_Translucent` and a bit outside `RELEVANT_FLAGS` writes nothing and the
state applied is still Translucent; a quad in between changes nothing either. -/
theorem setFlags_cache_coherent_witness :
    Reachable unrealBuild lockedState ∧
    appliedBlend (setFlags unrealBuild 0x4 0 lockedState).trace = .bstate_Translucent ∧
    Reachable unrealBuild (setFlags unrealBuild 0x4 0 lockedState) ∧
    appliedBlend (indexQuad (setFlags unrealBuild 0x4 0 lockedState)).trace
      = appliedBlend (setFlags unrealBuild 0x4 0 lockedState).trace ∧
    appliedBlend (setFlags unrealBuild 0x104 0 (setFlags unrealBuild 0x4 0 lockedState)).trace
      = .bstate_Translucent ∧
    (setFlags unrealBuild 0x104 0 (setFlags unrealBuild 0x4 0 lockedState)).trace
      = (setFlags unrealBuild 0x4 0 lockedState).trace :=
  ⟨lockedState_reachable unrealBuild,
   (((setFlags_cache_coherent unrealBuild lockedState
      (lockedState_reachable unrealBuild)).2.1 0x4 0).1).trans (by decide),
   Reachable.step (Op.setFlags 0x4 0) _ (lockedState_reachable unrealBuild) rfl,
   ((setFlags_cache_coherent unrealBuild (setFlags unrealBuild 0x4 0 lockedState)
      (Reachable.step (Op.setFlags 0x4 0) _ (lockedState_reachable unrealBuild) rfl)).2.2
      Op.indexQuad (by intro f d hh; cases hh) (by decide)).2,
   (((setFlags_cache_coherent unrealBuild (setFlags unrealBuild 0x4 0 lockedState)
      (Reachable.step (Op.setFlags 0x4 0) _ (lockedState_reachable unrealBuild) rfl)).2.1
      0x104 0).1).trans (by decide),
   by decide⟩

/-! ## Vertex capacity -/

/-- The indices the loop of `indexTriangleFan` stores name vertex slots below
`numVerts + i0 + k + 1`. -/
theorem fanLoop_bound (k i0 : Nat) (s : D3DState) (p : Nat) (h1 : s.numIndices ≤ p)
    (h2 : p < s.numIndices + 3 * k) :
    ((List.range' i0 k).foldl fanStep s).iBuf p < s.numVerts + i0 + k + 1 := by
  obtain ⟨hv, _⟩ := fanLoop_iBuf k i0 s
  have hj : (p - s.numIndices) / 3 < k := by omega
  obtain ⟨a, b, c⟩ := hv ((p - s.numIndices) / 3) hj
  have hr : (p - s.numIndices) % 3 = 0 ∨ (p - s.numIndices) % 3 = 1 ∨
      (p - s.numIndices) % 3 = 2 := by omega
  rcases hr with hr | hr | hr
  · have e : p = s.numIndices + 3 * ((p - s.numIndices) / 3) := by omega
    rw [e, a]
    omega
  · have e : p = s.numIndices + 3 * ((p - s.numIndices) / 3) + 1 := by omega
    rw [e, b]
    omega
  · have e : p = s.numIndices + 3 * ((p - s.numIndices) / 3) + 2 := by omega
    rw [e, c]
    omega

/-- The state the indices of a submission are generated in: the given one or, after a
flush, one with both cursors at zero; either way there is room for the new indices. -/
theorem restart_vertexInv (s : D3DState) (required : Nat) (hfit : required ≤ I_BUFFER_SIZE)
    (h : VertexInv s) :
    VertexInv (if I_BUFFER_SIZE < s.numIndices + required then map true (render s) else s) ∧
    (if I_BUFFER_SIZE < s.numIndices + required then map true (render s) else s).numIndices
      + required ≤ I_BUFFER_SIZE := by
  obtain ⟨r0, r1, _, _, _⟩ := restart_cursors s
  by_cases hf : I_BUFFER_SIZE < s.numIndices + required
  · simp only [if_pos hf, VertexInv, r0, r1]
    exact ⟨⟨Nat.le_refl _, Nat.zero_le _, fun p hp => absurd hp (Nat.not_lt_zero p)⟩, by omega⟩
  · simp only [if_neg hf]
    exact ⟨h, by omega⟩

/-- A fan of at least three points that fits the index buffer, with its vertices. -/
theorem fan_submission (n : Int) (s : D3DState) (hn : 3 ≤ n)
    (hfit : 3 * (n - 2).toNat ≤ I_BUFFER_SIZE) (h : VertexInv s) :
    VertexInv (getVertices n.toNat (indexTriangleFan n s)) ∧
    (∀ j : Nat, j < n.toNat →
      (getVertex (getVertices j (indexTriangleFan n s))).1 < V_BUFFER_SIZE) := by
  obtain ⟨buf, hfr⟩ := indexTriangleFan_frame s n hn
  have hib := indexTriangleFan_iBuf s n hn
  obtain ⟨hs1, hroom⟩ := restart_vertexInv s (3 * (n - 2).toNat) hfit h
  generalize (if I_BUFFER_SIZE < s.numIndices + 3 * (n - 2).toNat
    then map true (render s) else s) = s1 at hfr hib hs1 hroom
  obtain ⟨hv1, hi1, hb1⟩ := hs1
  have e1 : (indexTriangleFan n s).numVerts = s1.numVerts := by rw [hfr]
  have e2 : (indexTriangleFan n s).numIndices = s1.numIndices + 3 * (n - 2).toNat := by
    rw [hfr]
  have hk : n.toNat = (n - 2).toNat + 2 := by omega
  have hk1 : 1 ≤ (n - 2).toNat := by omega
  have hbuf : ∀ p, p < s1.numIndices + 3 * (n - 2).toNat →
      (indexTriangleFan n s).iBuf p < s1.numVerts + n.toNat := by
    intro p hp
    rw [hib]
    by_cases hlow : p < s1.numIndices
    · rw [(fanLoop_iBuf (n - 2).toNat 1 s1).2 p (Or.inl hlow)]
      have := hb1 p hlow
      omega
    · have := fanLoop_bound (n - 2).toNat 1 s1 p (by omega) hp
      omega
  have hV : V_BUFFER_SIZE = I_BUFFER_SIZE := rfl
  constructor
  · obtain ⟨g1, g2, _, g4, _⟩ := getVertices_cursors n.toNat (indexTriangleFan n s)
    unfold VertexInv
    rw [g1, g2, g4, e1, e2, hV]
    exact ⟨by omega, hroom, hbuf⟩
  · intro j hj
    obtain ⟨g1, _⟩ := getVertices_cursors j (indexTriangleFan n s)
    show (getVertices j (indexTriangleFan n s)).numVerts < V_BUFFER_SIZE
    rw [g1, e1, hV]
    omega

/-- A quad with its four vertices. -/
theorem quad_submission (s : D3DState) (h : VertexInv s) :
    VertexInv (getVertices 4 (indexQuad s)) ∧
    (∀ j : Nat, j < 4 → (getVertex (getVertices j (indexQuad s))).1 < V_BUFFER_SIZE) := by
  obtain ⟨h0, q0, q1, q2, q3, q4, q5, qo⟩ :=
    quadStores (if I_BUFFER_SIZE < s.numIndices + 6 then map true (render s) else s)
      (indexQuad s) (by simp only [indexQuad, addSigned_six, gt_iff_lt])
  obtain ⟨hs1, hroom⟩ := restart_vertexInv s 6 (by decide) h
  generalize (if I_BUFFER_SIZE < s.numIndices + 6 then map true (render s) else s) = s1
    at h0 q0 q1 q2 q3 q4 q5 qo hs1 hroom
  obtain ⟨hv1, hi1, hb1⟩ := hs1
  have e1 : (indexQuad s).numVerts = s1.numVerts := by rw [h0]
  have e2 : (indexQuad s).numIndices = s1.numIndices + 6 := by rw [h0]
  have hbuf : ∀ p, p < s1.numIndices + 6 → (indexQuad s).iBuf p < s1.numVerts + 4 := by
    intro p hp
    by_cases hlow : p < s1.numIndices
    · rw [qo p (Or.inl hlow)]
      have := hb1 p hlow
      omega
    · have hc : p = s1.numIndices ∨ p = s1.numIndices + 1 ∨ p = s1.numIndices + 2 ∨
          p = s1.numIndices + 3 ∨ p = s1.numIndices + 4 ∨ p = s1.numIndices + 5 := by omega
      rcases hc with hc | hc | hc | hc | hc | hc <;> subst hc
      · rw [q0]; omega
      · rw [q1]; omega
      · rw [q2]; omega
      · rw [q3]; omega
      · rw [q4]; omega
      · rw [q5]; omega
  have hV : V_BUFFER_SIZE = I_BUFFER_SIZE := rfl
  constructor
  · obtain ⟨g1, g2, _, g4, _⟩ := getVertices_cursors 4 (indexQuad s)
    unfold VertexInv
    rw [g1, g2, g4, e1, e2, hV]
    exact ⟨by omega, hroom, hbuf⟩
  · intro j hj
    obtain ⟨g1, _⟩ := getVertices_cursors j (indexQuad s)
    show (getVertices j (indexQuad s)).numVerts < V_BUFFER_SIZE
    rw [g1, e1, hV]
    omega

/-- An operation that leaves the cursors as they are, or as `commit` leaves them, keeps the
vertex cursor, the index cursor and the index buffer. -/
theorem keeps_of_cursors {r s : D3DState}
    (h : SameCursors r s ∨ SameCursors r (commit s)) :
    r.numVerts = s.numVerts ∧ r.numIndices = s.numIndices ∧ r.iBuf = s.iBuf := by
  rcases h with h | h
  · exact ⟨h.2.1, h.2.2.1, h.2.2.2.2⟩
  · obtain ⟨k1, k2, k3⟩ := commit_keeps s
    exact ⟨h.2.1.trans k1, h.2.2.1.trans k2, h.2.2.2.2.trans k3⟩

theorem vertexInv_of_keeps {r s : D3DState}
    (hk : r.numVerts = s.numVerts ∧ r.numIndices = s.numIndices ∧ r.iBuf = s.iBuf)
    (h : VertexInv s) : VertexInv r := by
  unfold VertexInv at *
  rw [hk.1, hk.2.1, hk.2.2]
  exact h

theorem unbindAll_keeps (l : List TexturePass) : ∀ s : D3DState,
    (l.foldl (fun st i => (setTexture i 0 st).2) s).numVerts = s.numVerts ∧
    (l.foldl (fun st i => (setTexture i 0 st).2) s).numIndices = s.numIndices ∧
    (l.foldl (fun st i => (setTexture i 0 st).2) s).iBuf = s.iBuf := by
  induction l with
  | nil => intro s; exact ⟨rfl, rfl, rfl⟩
  | cons p l ih =>
    intro s
    rw [List.foldl_cons]
    obtain ⟨i1, i2, i3⟩ := ih (setTexture p 0 s).2
    obtain ⟨k1, k2, k3⟩ := keeps_of_cursors (setTexture_cursors p 0 s)
    exact ⟨i1.trans k1, i2.trans k2, i3.trans k3⟩

theorem flush_keeps (s : D3DState) :
    (flush s).numVerts = s.numVerts ∧ (flush s).numIndices = s.numIndices ∧
    (flush s).iBuf = s.iBuf := by
  have h1 := unbindAll_keeps TexturePass.all s
  unfold flush
  generalize TexturePass.all.foldl (fun st i => (setTexture i 0 st).2) s = t at h1
  exact h1

/-- Every operation that is not an index or vertex call keeps the vertex invariant. -/
theorem Op.run_vertexInv (cfg : BuildConfig) (op : Op) (s : D3DState)
    (hg : op.isGeometry = false) (h : VertexInv s) : VertexInv (op.run cfg s) := by
  cases op with
  | map clear =>
    show VertexInv (D3D12Drv.map clear s)
    unfold D3D12Drv.map
    cases clear <;> split_ifs <;>
      first
        | exact h
        | exact ⟨h.1, h.2.1, h.2.2⟩
        | exact ⟨Nat.le_refl _, Nat.zero_le _, fun p hp => absurd hp (Nat.not_lt_zero p)⟩
  | render =>
    show VertexInv (D3D12Drv.render s)
    unfold D3D12Drv.render switchToPass D3DState.emit
    simp only []
    split_ifs <;> exact ⟨h.1, h.2.1, h.2.2⟩
  | commit => exact vertexInv_of_keeps (commit_keeps s) h
  | indexTriangleFan num => simp [Op.isGeometry] at hg
  | indexQuad => simp [Op.isGeometry] at hg
  | getVertex => simp [Op.isGeometry] at hg
  | clearDepth => exact vertexInv_of_keeps (keeps_of_cursors (Or.inr (clearDepth_cursors s))) h
  | setViewPort X Y left top =>
    exact vertexInv_of_keeps (keeps_of_cursors (setViewPort_cursors X Y left top s)) h
  | setProjection aspect XoverZ =>
    exact vertexInv_of_keeps (keeps_of_cursors (setProjection_cursors aspect XoverZ s)) h
  | setProjectionMode mode =>
    exact vertexInv_of_keeps (keeps_of_cursors (setProjectionMode_cursors mode s)) h
  | setFlags flags D3DFlags =>
    exact vertexInv_of_keeps (keeps_of_cursors (setFlags_cursors cfg flags D3DFlags s)) h
  | flash enable color =>
    exact vertexInv_of_keeps (keeps_of_cursors (Or.inl (flash_cursors enable color s))) h
  | fog dist color =>
    exact vertexInv_of_keeps (keeps_of_cursors (Or.inr (fog_cursors dist color s))) h
  | cacheTexture id metadata view =>
    exact vertexInv_of_keeps
      (keeps_of_cursors (Or.inl (cacheTexture_cursors id metadata view s))) h
  | getTextureMetaData id =>
    exact vertexInv_of_keeps (keeps_of_cursors (Or.inl (cacheIndex_cursors id s))) h
  | setTexture pass id =>
    exact vertexInv_of_keeps (keeps_of_cursors (setTexture_cursors pass id s)) h
  | deleteTexture id =>
    exact vertexInv_of_keeps (keeps_of_cursors (Or.inl (deleteTexture_cursors id s))) h
  | updateMip id mipNum =>
    exact vertexInv_of_keeps (keeps_of_cursors (updateMip_cursors id mipNum s)) h
  | flush => exact vertexInv_of_keeps (flush_keeps s) h
  | PrecacheTexture env Info PolyFlags =>
    exact vertexInv_of_keeps
      (keeps_of_cursors (PrecacheTexture_cursors cfg env Info PolyFlags s)) h
  | newFrame => exact ⟨h.1, h.2.1, h.2.2⟩
  | clear clearColor => exact ⟨h.1, h.2.1, h.2.2⟩
  | present => exact ⟨h.1, h.2.1, h.2.2⟩

theorem submission_vertexInv (cfg : BuildConfig) (b : Submission) (s : D3DState)
    (hok : b.ok = true) (h : VertexInv s) : VertexInv (b.run cfg s) := by
  cases b with
  | fan NumPts =>
    simp only [Submission.ok, Bool.and_eq_true, decide_eq_true_eq] at hok
    exact (fan_submission NumPts s hok.1 hok.2 h).1
  | quad => exact (quad_submission s h).1
  | other op =>
    simp only [Submission.ok, Bool.not_eq_true'] at hok
    exact Op.run_vertexInv cfg op s hok h

theorem runSubmissions_vertexInv (cfg : BuildConfig) (l : List Submission) :
    ∀ s : D3DState, VertexInv s → (∀ b, b ∈ l → b.ok = true) →
      VertexInv (runSubmissions cfg l s) := by
  induction l with
  | nil => intro s h _; exact h
  | cons b l ih =>
    intro s h hok
    exact ih (b.run cfg s)
      (submission_vertexInv cfg b s (hok b (List.mem_cons_self b l)) h)
      (fun c hc => hok c (List.mem_cons_of_mem b hc))

/-- C25: starting from buffers with `numVerts = numIndices = 0` (as after `Lock`), after
every sequence of complete submissions (`indexTriangleFan(n)` followed by `n` calls of
`getVertex`, with `3 ≤ n` and `3*(n-2) ≤ I_BUFFER_SIZE`, or `indexQuad()` followed by four
calls of `getVertex`) and operations in between that are not index or vertex calls,
`numVerts ≤ numIndices ≤ V_BUFFER_SIZE` and every buffered index names a vertex slot below
`numVerts`; and every slot that the `getVertex` calls of one more such fan or quad hand out
lies inside the vertex buffer. -/
theorem vertex_capacity_sufficient (cfg : BuildConfig) (l : List Submission) (s0 : D3DState)
    (h0 : s0.numVerts = 0 ∧ s0.numIndices = 0) (hok : ∀ b, b ∈ l → b.ok = true) :
    (runSubmissions cfg l s0).numVerts ≤ (runSubmissions cfg l s0).numIndices ∧
    (runSubmissions cfg l s0).numIndices ≤ V_BUFFER_SIZE ∧
    (∀ p : Nat, p < (runSubmissions cfg l s0).numIndices →
      (runSubmissions cfg l s0).iBuf p < (runSubmissions cfg l s0).numVerts) ∧
    (∀ n : Int, 3 ≤ n → 3 * (n - 2).toNat ≤ I_BUFFER_SIZE → ∀ j : Nat, j < n.toNat →
      (getVertex (getVertices j (indexTriangleFan n (runSubmissions cfg l s0)))).1
        < V_BUFFER_SIZE) ∧
    (∀ j : Nat, j < 4 →
      (getVertex (getVertices j (indexQuad (runSubmissions cfg l s0)))).1 < V_BUFFER_SIZE) := by
  have hinit : VertexInv s0 := by
    unfold VertexInv
    rw [h0.1, h0.2]
    exact ⟨Nat.le_refl _, Nat.zero_le _, fun p hp => absurd hp (Nat.not_lt_zero p)⟩
  have hinv := runSubmissions_vertexInv cfg l s0 hinit hok
  exact ⟨hinv.1, hinv.2.1, hinv.2.2,
    fun n hn hfit => (fan_submission n _ hn hfit hinv).2,
    (quad_submission _ hinv).2⟩

/-- C25, at the frame `Lock`, fan of five points, `setProjectionMode`, quad, commit. -/
theorem vertex_capacity_sufficient_witness :
    (lockedState.numVerts = 0 ∧ lockedState.numIndices = 0) ∧
    (runSubmissions unrealBuild
      [Submission.fan 5, Submission.other (Op.setProjectionMode .PROJ_Z_ONLY),
        Submission.quad, Submission.other Op.commit] lockedState).numVerts = 9 ∧
    (runSubmissions unrealBuild
      [Submission.fan 5, Submission.other (Op.setProjectionMode .PROJ_Z_ONLY),
        Submission.quad, Submission.other Op.commit] lockedState).numIndices = 15 ∧
    (runSubmissions unrealBuild
      [Submission.fan 5, Submission.other (Op.setProjectionMode .PROJ_Z_ONLY),
        Submission.quad, Submission.other Op.commit] lockedState).numVerts
      ≤ (runSubmissions unrealBuild
      [Submission.fan 5, Submission.other (Op.setProjectionMode .PROJ_Z_ONLY),
        Submission.quad, Submission.other Op.commit] lockedState).numIndices :=
  ⟨by decide, by decide, by decide,
   (vertex_capacity_sufficient unrealBuild
      [Submission.fan 5, Submission.other (Op.setProjectionMode .PROJ_Z_ONLY),
        Submission.quad, Submission.other Op.commit] lockedState (by decide)
      (by decide)).1⟩

end D3D12Drv
